import Mathlib

/-!
# zfs-fuse: compression front end, ioctl dispatch, commands, mounts, pools

A shallow embedding of parts of the zfs-fuse sources:

* `lib/libzpool/zio_compress.c`: `zio_compress_select`, `zio_compress_data`;
* `zfs-fuse/zfs_ioctl.c`: `zfs_ioc_vec`, `zfsdev_ioctl`, the security policy
  helpers, `zfs_set_prop_nvlist` and `zfs_ioc_pool_import`;
* `zfs-fuse/zfs_vfsops.c`: `zfs_domount`, the property callbacks and
  `zfs_statvfs`;
* `cmd/zfs/zfs_main.c`: `zfs_do_destroy`, `zfs_do_rollback` and
  `unshare_unmount` with their callbacks;
* `lib/libzfs/libzfs_pool.c`: `zpool_name_valid`, `zpool_create`,
  `set_pool_health` and `zpool_get_errlog`;
* `lib/libzfs/libzfs_mount.c`: `remove_mountpoint`;
* `sys/dbuf.h`: the states of a buffer, with the operations after the
  specification.

Machine integers are natural numbers reduced modulo `2 ^ 64` where the C
arithmetic can wrap.  Routines that live outside these files are fields of an
environment record, so every statement holds for all their behaviours.
-/

namespace ZfsFuse

/-! ## Machine arithmetic and the power-of-two helpers -/

/-- Number of values of a `uint64_t`. -/
def U64 : Nat := 2 ^ 64

/-- Smallest block size of the pool allocator: `SPA_MINBLOCKSIZE` of
`sys/spa.h` (1 shifted left by `SPA_MINBLOCKSHIFT = 9`). -/
def SPA_MINBLOCKSIZE : Nat := 512

/-- Modelled from the spec: `P2ALIGN(x, align)` of `sys/sysmacros.h`, which is
not among the files at hand; it rounds `x` down to a multiple of the power of
two `align` (`x & -align`). -/
def P2ALIGN (x align : Nat) : Nat := x - x % align

/-- Modelled from the spec: `P2PHASE(x, align)` of `sys/sysmacros.h`, which is
not among the files at hand; it is the remainder of `x` by the power of two
`align` (`x & (align - 1)`). -/
def P2PHASE (x align : Nat) : Nat := x % align

/-- Modelled from the spec: `P2ROUNDUP(x, align)` of `sys/sysmacros.h`, which
is not among the files at hand; it rounds `x` up to a multiple of the power
of two `align` in 64-bit arithmetic (`-(-x & -align)`). -/
def P2ROUNDUP (x align : Nat) : Nat := ((x + (align - 1)) / align * align) % U64

/-! ## zio_compress.c -/

/-- The `enum zio_compress` of `sys/zio.h`, in the order of the rows of
`zio_compress_table`. -/
def ZIO_COMPRESS_INHERIT : Nat := 0
/-- Row "on" of the table. -/
def ZIO_COMPRESS_ON : Nat := 1
/-- Row "uncompressed" of the table. -/
def ZIO_COMPRESS_OFF : Nat := 2
/-- Row "lzjb" of the table. -/
def ZIO_COMPRESS_LZJB : Nat := 3
/-- Row "empty" of the table. -/
def ZIO_COMPRESS_EMPTY : Nat := 4
/-- Number of rows of the table. -/
def ZIO_COMPRESS_FUNCTIONS : Nat := 5
/-- The algorithm that "on" stands for (`sys/zio.h`: lzjb). -/
def ZIO_COMPRESS_ON_VALUE : Nat := ZIO_COMPRESS_LZJB

/-- A compression routine `ci_compress(src, dest, s_len, d_len)`: it reads the
source memory (a byte at every offset), writes into the destination buffer and
returns a size together with the destination buffer as it left it. -/
abbrev zio_compress_func_t : Type := (Nat → Nat) → List Nat → Nat → Nat → Nat × List Nat

/-- A decompression routine `ci_decompress(src, dest, s_len, d_len)`. -/
abbrev zio_decompress_func_t : Type := (Nat → Nat) → List Nat → Nat → Nat → Int × List Nat

/-- One row of the compression vector table. -/
structure zio_compress_info_t where
  ci_compress : Option zio_compress_func_t
  ci_decompress : Option zio_decompress_func_t
  ci_name : String

/-- What `zio_compress.c` takes from other files: the lzjb routines and the
contents of a buffer freshly returned by `zio_buf_alloc`. -/
structure zio_env where
  lzjb_compress : zio_compress_func_t
  lzjb_decompress : zio_decompress_func_t
  zio_buf_alloc : Nat → List Nat

/-- The table `zio_compress_table[ZIO_COMPRESS_FUNCTIONS]`. -/
def zio_compress_table (env : zio_env) : List zio_compress_info_t :=
  [ { ci_compress := none, ci_decompress := none, ci_name := "inherit" },
    { ci_compress := none, ci_decompress := none, ci_name := "on" },
    { ci_compress := none, ci_decompress := none, ci_name := "uncompressed" },
    { ci_compress := some env.lzjb_compress, ci_decompress := some env.lzjb_decompress,
      ci_name := "lzjb" },
    { ci_compress := none, ci_decompress := none, ci_name := "empty" } ]

/-- Ways in which a routine stops without returning. -/
inductive zio_abort where
  | assert_child_range
  | assert_parent_range
  | assert_parent_concrete
  | assert_cpfunc_range
  | assert_cpfunc_compress
  | assert_ciosize_le
  | assert_ciosize_phase
  | null_call
  deriving DecidableEq, Repr

/-- The function `zio_compress_select(child, parent)`; the three `ASSERT`s
abort when they fail. -/
def zio_compress_select (child parent : Nat) : Except zio_abort Nat :=
  if ¬ child < ZIO_COMPRESS_FUNCTIONS then .error .assert_child_range
  else if ¬ parent < ZIO_COMPRESS_FUNCTIONS then .error .assert_parent_range
  else if ¬ (parent ≠ ZIO_COMPRESS_INHERIT ∧ parent ≠ ZIO_COMPRESS_ON) then
    .error .assert_parent_concrete
  else if child = ZIO_COMPRESS_INHERIT then .ok parent
  else if child = ZIO_COMPRESS_ON then .ok ZIO_COMPRESS_ON_VALUE
  else .ok child

/-- The 64-bit word number `w` of the source memory (little endian). -/
def word64 (src : Nat → Nat) (w : Nat) : Nat :=
  src (8 * w) + 256 * src (8 * w + 1) + 256 ^ 2 * src (8 * w + 2) + 256 ^ 3 * src (8 * w + 3)
    + 256 ^ 4 * src (8 * w + 4) + 256 ^ 5 * src (8 * w + 5) + 256 ^ 6 * src (8 * w + 6)
    + 256 ^ 7 * src (8 * w + 7)

/-- The scanning loop of `zio_compress_data`: `word` is `w` words past `src`,
`word_end` is `srcsize` bytes past `src`; the value is `allzero` after the
loop.  Every turn advances `word`, so `fuel` turns are enough when
`srcsize ≤ 8 * (w + fuel)`. -/
def scan_allzero (src : Nat → Nat) (srcsize : Nat) : Nat → Nat → Nat
  | 0, _ => 1
  | fuel + 1, w =>
    if 8 * w < srcsize then
      if word64 src w ≠ 0 then 0 else scan_allzero src srcsize fuel (w + 1)
    else 1

/-- The call `bzero(dest + off, n)` on a buffer. -/
def bzero (dest : List Nat) (off n : Nat) : List Nat :=
  dest.enum.map (fun p => if off ≤ p.1 ∧ p.1 < off + n then 0 else p.2)

/-- Everything `zio_compress_data` leaves behind: the return value, the three
output parameters (`none` when never written; for `destp` the inner `none` is
the `NULL` pointer and `some buf` a pointer to a buffer holding `buf`), and the
calls it made. -/
structure zio_compress_out where
  ret : Nat
  destp : Option (Option (List Nat))
  destsizep : Option Nat
  destbufsizep : Option Nat
  compress_calls : List (Nat × Nat)
  allocs : List Nat
  frees : List Nat
  deriving DecidableEq, Repr

/-- The function `zio_compress_data(cpfunc, src, srcsize, destp, destsizep,
destbufsizep)`.  `cpfunc` is taken as `(uint_t)cpfunc`; assertions abort when
they fail, and so does a call through a null `ci_compress`. -/
def zio_compress_data (env : zio_env) (cpfunc : Nat) (src : Nat → Nat) (srcsize : Nat) :
    Except zio_abort zio_compress_out :=
  match (zio_compress_table env)[cpfunc]? with
  | none => .error .assert_cpfunc_range
  | some ci =>
    if ¬ (cpfunc = ZIO_COMPRESS_EMPTY ∨ ci.ci_compress.isSome) then
      .error .assert_cpfunc_compress
    else
      let allzero := scan_allzero src srcsize (srcsize / 8 + 1) 0
      if allzero ≠ 0 then
        .ok { ret := 1, destp := some none, destsizep := some 0, destbufsizep := some 0,
              compress_calls := [], allocs := [], frees := [] }
      else if cpfunc = ZIO_COMPRESS_EMPTY then
        .ok { ret := 0, destp := none, destsizep := none, destbufsizep := none,
              compress_calls := [], allocs := [], frees := [] }
      else
        let destbufsize := P2ALIGN (srcsize - (srcsize >>> 3)) SPA_MINBLOCKSIZE
        if destbufsize = 0 then
          .ok { ret := 0, destp := none, destsizep := none, destbufsizep := none,
                compress_calls := [], allocs := [], frees := [] }
        else
          let dest := env.zio_buf_alloc destbufsize
          match ci.ci_compress with
          | none => .error .null_call
          | some compress =>
            let r := compress src dest srcsize destbufsize
            let ciosize := r.1 % U64
            let dest1 := r.2
            if ciosize > destbufsize then
              .ok { ret := 0, destp := none, destsizep := none, destbufsizep := none,
                    compress_calls := [(srcsize, destbufsize)], allocs := [destbufsize],
                    frees := [destbufsize] }
            else
              let gapsize := (P2ROUNDUP ciosize SPA_MINBLOCKSIZE + U64 - ciosize) % U64
              let dest2 := if gapsize ≠ 0 then bzero dest1 ciosize gapsize else dest1
              let ciosize2 := if gapsize ≠ 0 then (ciosize + gapsize) % U64 else ciosize
              if ¬ ciosize2 ≤ destbufsize then .error .assert_ciosize_le
              else if ¬ P2PHASE ciosize2 SPA_MINBLOCKSIZE = 0 then .error .assert_ciosize_phase
              else
                .ok { ret := 1, destp := some (some dest2), destsizep := some ciosize2,
                      destbufsizep := some destbufsize,
                      compress_calls := [(srcsize, destbufsize)], allocs := [destbufsize],
                      frees := [] }

/-- The source is all zero: every 64-bit word that starts before `srcsize`
is zero. -/
def src_allzero (src : Nat → Nat) (srcsize : Nat) : Prop :=
  ∀ w, 8 * w < srcsize → word64 src w = 0

/-! ## zfs_ioctl.c: names, security policy -/

/-- The errno values used below (Linux numbering). -/
def EPERM : Int := 1
/-- No such file or directory. -/
def ENOENT : Int := 2
/-- No such process. -/
def ESRCH : Int := 3
/-- No such device or address. -/
def ENXIO : Int := 6
/-- Invalid argument. -/
def EINVAL : Int := 22
/-- Operation not supported. -/
def ENOTSUP : Int := 95

/-- Size of the name buffers on the stack, `MAXNAMELEN`. -/
def MAXNAMELEN : Nat := 256

/-- The C string held by a character buffer: the bytes before the first NUL. -/
def cstr (buf : List Nat) : List Nat := buf.takeWhile (fun c => c ≠ 0)

/-- The C string of a buffer as a string value. -/
def cstr_string (buf : List Nat) : String := String.mk ((cstr buf).map Char.ofNat)

/-- The function `strrchr` on a C string: the offset of the last occurrence. -/
def strrchr (s : List Nat) (c : Nat) : Option Nat :=
  match (s.reverse).indexOf? c with
  | none => none
  | some i => some (s.length - 1 - i)

/-- The delegated permission names of `zfs_deleg.h`. -/
def ZFS_DELEG_PERM_CREATE : String := "create"
/-- Permission to destroy. -/
def ZFS_DELEG_PERM_DESTROY : String := "destroy"
/-- Permission to snapshot. -/
def ZFS_DELEG_PERM_SNAPSHOT : String := "snapshot"
/-- Permission to roll back. -/
def ZFS_DELEG_PERM_ROLLBACK : String := "rollback"
/-- Permission to clone. -/
def ZFS_DELEG_PERM_CLONE : String := "clone"
/-- Permission to promote. -/
def ZFS_DELEG_PERM_PROMOTE : String := "promote"
/-- Permission to rename. -/
def ZFS_DELEG_PERM_RENAME : String := "rename"
/-- Permission to mount. -/
def ZFS_DELEG_PERM_MOUNT : String := "mount"
/-- Permission to share. -/
def ZFS_DELEG_PERM_SHARE : String := "share"
/-- Permission to send. -/
def ZFS_DELEG_PERM_SEND : String := "send"
/-- Permission to receive. -/
def ZFS_DELEG_PERM_RECEIVE : String := "receive"
/-- Permission to set user properties. -/
def ZFS_DELEG_PERM_USERPROP : String := "userprop"

/-- The property identifiers `zfs_prop_t` that `zfs_ioctl.c` names; every other
identifier of the enumeration is `other n`. -/
inductive zfs_prop_t where
  | ZPROP_INVAL
  | ZFS_PROP_ZONED
  | ZFS_PROP_QUOTA
  | ZFS_PROP_REFQUOTA
  | ZFS_PROP_RESERVATION
  | ZFS_PROP_REFRESERVATION
  | ZFS_PROP_VOLSIZE
  | ZFS_PROP_VOLBLOCKSIZE
  | ZFS_PROP_VERSION
  | ZFS_PROP_COMPRESSION
  | ZFS_PROP_COPIES
  | ZFS_PROP_NORMALIZE
  | ZFS_PROP_UTF8ONLY
  | ZFS_PROP_CASE
  | other (n : Nat)
  deriving DecidableEq, Repr

/-- The property kinds returned by `zfs_prop_get_type`. -/
inductive zprop_type_t where
  | PROP_TYPE_NUMBER
  | PROP_TYPE_STRING
  | PROP_TYPE_INDEX
  | unknown
  deriving DecidableEq, Repr

/-- A call that hands a pool or dataset name (or a path) to a lower layer. -/
inductive lower_call where
  | zone_dataset_visible (name : List Nat)
  | dsl_prop_get_integer (name : List Nat) (prop : String)
  | dsl_deleg_access (name : List Nat) (perm : String)
  | dmu_objset_open (name : List Nat)
  | lookupname (path : List Nat)
  | spa_open (name : List Nat)
  deriving DecidableEq, Repr

/-- The fields of `zfs_cmd_t` read by the code below; the remaining fields are
gathered in `zc_rest`. -/
structure zfs_cmd_t where
  zc_name : List Nat
  zc_value : List Nat
  zc_rest : Nat
  deriving DecidableEq, Repr

/-- What the security policy code takes from the rest of the kernel.  A
credential is a number. -/
structure sec_env where
  INGLOBALZONE : Bool
  zone_dataset_visible : List Nat → Bool × Bool
  dsl_prop_get_integer : List Nat → String → Int × Nat × List Nat
  secpolicy_zfs : Nat → Int
  dsl_deleg_access : List Nat → String → Nat → Int
  secpolicy_sys_config : Nat → Int
  secpolicy_zinject : Nat → Int
  secpolicy_nfs : Nat → Int
  lookupname : List Nat → Int × Bool × List Nat
  dmu_objset_open : List Nat → Int
  dsl_dataset_open_obj : List Nat → Int
  dsl_dataset_name : List Nat → List Nat
  zfs_name_to_prop : String → zfs_prop_t
  zfs_prop_user : String → Bool
  zfs_prop_inheritable : zfs_prop_t → Bool
  zfs_prop_to_name : zfs_prop_t → String
  spa_open : List Nat → Int
  spa_version : List Nat → Nat

/-- A policy result: the error code and the lower-layer calls made. -/
abbrev pol_result : Type := Int × List lower_call

/-- Sequencing of two policy steps: the second runs when the first returned 0. -/
def pol_then (a : pol_result) (b : Unit → pol_result) : pol_result :=
  if a.1 ≠ 0 then a else ((b ()).1, a.2 ++ (b ()).2)

/-- The function `zfs_secpolicy_none`. -/
def zfs_secpolicy_none (_env : sec_env) (_zc : zfs_cmd_t) (_cr : Nat) : pol_result := (0, [])

/-- The function `zfs_secpolicy_read`. -/
def zfs_secpolicy_read (env : sec_env) (zc : zfs_cmd_t) (_cr : Nat) : pol_result :=
  if env.INGLOBALZONE then (0, [])
  else if (env.zone_dataset_visible zc.zc_name).1 then
    (0, [.zone_dataset_visible zc.zc_name])
  else (ENOENT, [.zone_dataset_visible zc.zc_name])

/-- The function `zfs_dozonecheck`. -/
def zfs_dozonecheck (env : sec_env) (dataset : List Nat) (cr : Nat) : pol_result :=
  let vis := env.zone_dataset_visible dataset
  let writable : Bool := if env.INGLOBALZONE then true else vis.2
  let c0 : List lower_call := if env.INGLOBALZONE then [] else [.zone_dataset_visible dataset]
  if !env.INGLOBALZONE && !vis.1 then (ENOENT, c0)
  else
    let g := env.dsl_prop_get_integer dataset "zoned"
    let c1 := c0 ++ [.dsl_prop_get_integer dataset "zoned"]
    let zoned := g.2.1
    if g.1 ≠ 0 then (ENOENT, c1)
    else if env.INGLOBALZONE then
      if env.secpolicy_zfs cr ≠ 0 ∧ zoned ≠ 0 then (EPERM, c1) else (0, c1)
    else
      if zoned = 0 then (EPERM, c1)
      else if !writable then (EPERM, c1)
      else (0, c1)

/-- The function `zfs_secpolicy_write_perms`. -/
def zfs_secpolicy_write_perms (env : sec_env) (name : List Nat) (perm : String) (cr : Nat) :
    pol_result :=
  let r := zfs_dozonecheck env name cr
  if r.1 = 0 then
    let e := env.secpolicy_zfs cr
    if e ≠ 0 then (env.dsl_deleg_access name perm cr, r.2 ++ [.dsl_deleg_access name perm])
    else (e, r.2)
  else r

/-- The function `zfs_secpolicy_setprop`. -/
def zfs_secpolicy_setprop (env : sec_env) (name : List Nat) (prop : zfs_prop_t) (cr : Nat) :
    pol_result :=
  let last (pre : List lower_call) : pol_result :=
    let r := zfs_secpolicy_write_perms env name (env.zfs_prop_to_name prop) cr
    (r.1, pre ++ r.2)
  match prop with
  | .ZFS_PROP_ZONED => if !env.INGLOBALZONE then (EPERM, []) else last []
  | .ZFS_PROP_QUOTA =>
    if !env.INGLOBALZONE then
      let g := env.dsl_prop_get_integer name "zoned"
      let c := [lower_call.dsl_prop_get_integer name "zoned"]
      if g.1 ≠ 0 then (EPERM, c)
      else if g.2.1 = 0 ∨ (cstr name).length ≤ (cstr g.2.2).length then (EPERM, c)
      else last c
    else last []
  | _ => last []

/-- The function `zfs_secpolicy_fsacl`. -/
def zfs_secpolicy_fsacl (env : sec_env) (zc : zfs_cmd_t) (cr : Nat) : pol_result :=
  let r := zfs_dozonecheck env zc.zc_name cr
  if r.1 ≠ 0 then r else (0, r.2)

/-- The function `zfs_secpolicy_rollback`. -/
def zfs_secpolicy_rollback (env : sec_env) (zc : zfs_cmd_t) (cr : Nat) : pol_result :=
  pol_then (zfs_secpolicy_write_perms env zc.zc_name ZFS_DELEG_PERM_ROLLBACK cr) fun _ =>
    zfs_secpolicy_write_perms env zc.zc_name ZFS_DELEG_PERM_MOUNT cr

/-- The function `zfs_secpolicy_send`. -/
def zfs_secpolicy_send (env : sec_env) (zc : zfs_cmd_t) (cr : Nat) : pol_result :=
  zfs_secpolicy_write_perms env zc.zc_name ZFS_DELEG_PERM_SEND cr

/-- The function `zfs_secpolicy_share`; `lookupname` yields the error, whether
the vnode found is the ZFS mount of a resource, and that resource. -/
def zfs_secpolicy_share (env : sec_env) (zc : zfs_cmd_t) (cr : Nat) : pol_result :=
  if !env.INGLOBALZONE then (EPERM, [])
  else if env.secpolicy_nfs cr = 0 then (0, [])
  else
    let l := env.lookupname zc.zc_value
    let c := [lower_call.lookupname zc.zc_value]
    if l.1 ≠ 0 then (l.1, c)
    else if !l.2.1 ∨ cstr l.2.2 ≠ cstr zc.zc_name then (EPERM, c)
    else (env.dsl_deleg_access zc.zc_name ZFS_DELEG_PERM_SHARE cr,
          c ++ [.dsl_deleg_access zc.zc_name ZFS_DELEG_PERM_SHARE])

/-- The function `zfs_get_parent`: the error and the parent name. -/
def zfs_get_parent (datasetname : List Nat) (parentsize : Nat) : Int × List Nat :=
  let parent := (cstr datasetname).take parentsize
  match strrchr parent 64 with
  | some i => (0, parent.take i)
  | none =>
    match strrchr parent 47 with
    | none => (ENOENT, parent)
    | some i => (0, parent.take i)

/-- The function `zfs_secpolicy_destroy_perms`. -/
def zfs_secpolicy_destroy_perms (env : sec_env) (name : List Nat) (cr : Nat) : pol_result :=
  pol_then (zfs_secpolicy_write_perms env name ZFS_DELEG_PERM_MOUNT cr) fun _ =>
    zfs_secpolicy_write_perms env name ZFS_DELEG_PERM_DESTROY cr

/-- The function `zfs_secpolicy_destroy`. -/
def zfs_secpolicy_destroy (env : sec_env) (zc : zfs_cmd_t) (cr : Nat) : pol_result :=
  zfs_secpolicy_destroy_perms env zc.zc_name cr

/-- The function `zfs_secpolicy_iscsi`. -/
def zfs_secpolicy_iscsi (env : sec_env) (_zc : zfs_cmd_t) (cr : Nat) : pol_result :=
  (env.secpolicy_zfs cr, [])

/-- The function `zfs_secpolicy_rename_perms`. -/
def zfs_secpolicy_rename_perms (env : sec_env) (frm dst : List Nat) (cr : Nat) : pol_result :=
  pol_then (zfs_secpolicy_write_perms env frm ZFS_DELEG_PERM_RENAME cr) fun _ =>
  pol_then (zfs_secpolicy_write_perms env frm ZFS_DELEG_PERM_MOUNT cr) fun _ =>
  pol_then ((zfs_get_parent dst MAXNAMELEN).1, []) fun _ =>
  pol_then (zfs_secpolicy_write_perms env (zfs_get_parent dst MAXNAMELEN).2
      ZFS_DELEG_PERM_CREATE cr) fun _ =>
    zfs_secpolicy_write_perms env (zfs_get_parent dst MAXNAMELEN).2 ZFS_DELEG_PERM_MOUNT cr

/-- The function `zfs_secpolicy_rename`. -/
def zfs_secpolicy_rename (env : sec_env) (zc : zfs_cmd_t) (cr : Nat) : pol_result :=
  zfs_secpolicy_rename_perms env zc.zc_name zc.zc_value cr

/-- The function `zfs_secpolicy_promote`; `dsl_dataset_open_obj` and
`dsl_dataset_name` are asked about the origin of the clone named. -/
def zfs_secpolicy_promote (env : sec_env) (zc : zfs_cmd_t) (cr : Nat) : pol_result :=
  pol_then (zfs_secpolicy_write_perms env zc.zc_name ZFS_DELEG_PERM_PROMOTE cr) fun _ =>
    let c := [lower_call.dmu_objset_open zc.zc_name]
    if env.dmu_objset_open zc.zc_name ≠ 0 then (env.dmu_objset_open zc.zc_name, c)
    else if env.dsl_dataset_open_obj zc.zc_name ≠ 0 then (env.dsl_dataset_open_obj zc.zc_name, c)
    else
      let r := zfs_secpolicy_write_perms env zc.zc_name ZFS_DELEG_PERM_MOUNT cr
      let parentname := env.dsl_dataset_name zc.zc_name
      if r.1 = 0 then
        let r2 := zfs_secpolicy_write_perms env parentname ZFS_DELEG_PERM_PROMOTE cr
        (r2.1, c ++ r.2 ++ r2.2)
      else (r.1, c ++ r.2)

/-- The function `zfs_secpolicy_receive`. -/
def zfs_secpolicy_receive (env : sec_env) (zc : zfs_cmd_t) (cr : Nat) : pol_result :=
  pol_then (zfs_secpolicy_write_perms env zc.zc_name ZFS_DELEG_PERM_RECEIVE cr) fun _ =>
  pol_then (zfs_secpolicy_write_perms env zc.zc_name ZFS_DELEG_PERM_MOUNT cr) fun _ =>
    zfs_secpolicy_write_perms env zc.zc_name ZFS_DELEG_PERM_CREATE cr

/-- The function `zfs_secpolicy_snapshot_perms`. -/
def zfs_secpolicy_snapshot_perms (env : sec_env) (name : List Nat) (cr : Nat) : pol_result :=
  pol_then (zfs_secpolicy_write_perms env name ZFS_DELEG_PERM_SNAPSHOT cr) fun _ =>
    zfs_secpolicy_write_perms env name ZFS_DELEG_PERM_MOUNT cr

/-- The function `zfs_secpolicy_snapshot`. -/
def zfs_secpolicy_snapshot (env : sec_env) (zc : zfs_cmd_t) (cr : Nat) : pol_result :=
  zfs_secpolicy_snapshot_perms env zc.zc_name cr

/-- The function `zfs_secpolicy_create`. -/
def zfs_secpolicy_create (env : sec_env) (zc : zfs_cmd_t) (cr : Nat) : pol_result :=
  let p := zfs_get_parent zc.zc_name MAXNAMELEN
  pol_then (p.1, []) fun _ =>
  pol_then (if zc.zc_value.headD 0 ≠ 0 then
      zfs_secpolicy_write_perms env zc.zc_value ZFS_DELEG_PERM_CLONE cr else (0, [])) fun _ =>
  pol_then (zfs_secpolicy_write_perms env p.2 ZFS_DELEG_PERM_CREATE cr) fun _ =>
    zfs_secpolicy_write_perms env p.2 ZFS_DELEG_PERM_MOUNT cr

/-- The function `zfs_secpolicy_config`. -/
def zfs_secpolicy_config (env : sec_env) (_zc : zfs_cmd_t) (cr : Nat) : pol_result :=
  if env.secpolicy_sys_config cr ≠ 0 then (EPERM, []) else (0, [])

/-- The function `zfs_secpolicy_minor`. -/
def zfs_secpolicy_minor (env : sec_env) (zc : zfs_cmd_t) (cr : Nat) : pol_result :=
  if env.secpolicy_sys_config cr ≠ 0 then
    (env.dsl_deleg_access zc.zc_name ZFS_DELEG_PERM_MOUNT cr,
      [.dsl_deleg_access zc.zc_name ZFS_DELEG_PERM_MOUNT])
  else (0, [])

/-- The function `zfs_secpolicy_inject`. -/
def zfs_secpolicy_inject (env : sec_env) (_zc : zfs_cmd_t) (cr : Nat) : pol_result :=
  (env.secpolicy_zinject cr, [])

/-- The function `zfs_secpolicy_inherit`. -/
def zfs_secpolicy_inherit (env : sec_env) (zc : zfs_cmd_t) (cr : Nat) : pol_result :=
  let prop := env.zfs_name_to_prop (cstr_string zc.zc_value)
  if prop = .ZPROP_INVAL then
    if !env.zfs_prop_user (cstr_string zc.zc_value) then (EINVAL, [])
    else zfs_secpolicy_write_perms env zc.zc_name ZFS_DELEG_PERM_USERPROP cr
  else
    if !env.zfs_prop_inheritable prop then (EINVAL, [])
    else zfs_secpolicy_setprop env zc.zc_name prop cr

/-! ## zfs_ioctl.c: the ioctl vector and its dispatch -/

/-- The handlers `zfs_ioc_*` that appear in `zfs_ioc_vec`. -/
inductive zfs_ioc_func_t where
  | zfs_ioc_pool_create
  | zfs_ioc_pool_destroy
  | zfs_ioc_pool_import
  | zfs_ioc_pool_export
  | zfs_ioc_pool_configs
  | zfs_ioc_pool_stats
  | zfs_ioc_pool_tryimport
  | zfs_ioc_pool_scrub
  | zfs_ioc_pool_freeze
  | zfs_ioc_pool_upgrade
  | zfs_ioc_pool_get_history
  | zfs_ioc_vdev_add
  | zfs_ioc_vdev_remove
  | zfs_ioc_vdev_set_state
  | zfs_ioc_vdev_attach
  | zfs_ioc_vdev_detach
  | zfs_ioc_vdev_setpath
  | zfs_ioc_objset_stats
  | zfs_ioc_objset_version
  | zfs_ioc_dataset_list_next
  | zfs_ioc_snapshot_list_next
  | zfs_ioc_set_prop
  | zfs_ioc_create_minor
  | zfs_ioc_remove_minor
  | zfs_ioc_create
  | zfs_ioc_destroy
  | zfs_ioc_rollback
  | zfs_ioc_rename
  | zfs_ioc_recv
  | zfs_ioc_send
  | zfs_ioc_inject_fault
  | zfs_ioc_clear_fault
  | zfs_ioc_inject_list_next
  | zfs_ioc_error_log
  | zfs_ioc_clear
  | zfs_ioc_promote
  | zfs_ioc_destroy_snaps
  | zfs_ioc_snapshot
  | zfs_ioc_dsobj_to_dsname
  | zfs_ioc_obj_to_path
  | zfs_ioc_pool_set_props
  | zfs_ioc_pool_get_props
  | zfs_ioc_set_fsacl
  | zfs_ioc_get_fsacl
  | zfs_ioc_iscsi_perm_check
  | zfs_ioc_share
  | zfs_ioc_inherit_prop
  deriving DecidableEq, Repr

/-- The security policy functions that appear in `zfs_ioc_vec`. -/
inductive zfs_secpolicy_func_t where
  | zfs_secpolicy_config
  | zfs_secpolicy_none
  | zfs_secpolicy_read
  | zfs_secpolicy_minor
  | zfs_secpolicy_create
  | zfs_secpolicy_destroy
  | zfs_secpolicy_rollback
  | zfs_secpolicy_rename
  | zfs_secpolicy_receive
  | zfs_secpolicy_send
  | zfs_secpolicy_inject
  | zfs_secpolicy_promote
  | zfs_secpolicy_snapshot
  | zfs_secpolicy_fsacl
  | zfs_secpolicy_iscsi
  | zfs_secpolicy_share
  | zfs_secpolicy_inherit
  deriving DecidableEq, Repr

/-- The anonymous enumeration of `zvec_namecheck`. -/
inductive zvec_namecheck_t where
  | NO_NAME
  | POOL_NAME
  | DATASET_NAME
  deriving DecidableEq, Repr

/-- One entry `zfs_ioc_vec_t` of the vector. -/
structure zfs_ioc_vec_t where
  zvec_func : zfs_ioc_func_t
  zvec_secpolicy : zfs_secpolicy_func_t
  zvec_namecheck : zvec_namecheck_t
  zvec_his_log : Bool
  deriving DecidableEq, Repr

/-- The table `zfs_ioc_vec[]`, entry by entry as in the source. -/
def zfs_ioc_vec : List zfs_ioc_vec_t :=
  [ ⟨.zfs_ioc_pool_create, .zfs_secpolicy_config, .POOL_NAME, false⟩,
    ⟨.zfs_ioc_pool_destroy, .zfs_secpolicy_config, .POOL_NAME, false⟩,
    ⟨.zfs_ioc_pool_import, .zfs_secpolicy_config, .POOL_NAME, true⟩,
    ⟨.zfs_ioc_pool_export, .zfs_secpolicy_config, .POOL_NAME, false⟩,
    ⟨.zfs_ioc_pool_configs, .zfs_secpolicy_none, .NO_NAME, false⟩,
    ⟨.zfs_ioc_pool_stats, .zfs_secpolicy_read, .POOL_NAME, false⟩,
    ⟨.zfs_ioc_pool_tryimport, .zfs_secpolicy_config, .NO_NAME, false⟩,
    ⟨.zfs_ioc_pool_scrub, .zfs_secpolicy_config, .POOL_NAME, true⟩,
    ⟨.zfs_ioc_pool_freeze, .zfs_secpolicy_config, .NO_NAME, false⟩,
    ⟨.zfs_ioc_pool_upgrade, .zfs_secpolicy_config, .POOL_NAME, true⟩,
    ⟨.zfs_ioc_pool_get_history, .zfs_secpolicy_config, .POOL_NAME, false⟩,
    ⟨.zfs_ioc_vdev_add, .zfs_secpolicy_config, .POOL_NAME, true⟩,
    ⟨.zfs_ioc_vdev_remove, .zfs_secpolicy_config, .POOL_NAME, true⟩,
    ⟨.zfs_ioc_vdev_set_state, .zfs_secpolicy_config, .POOL_NAME, true⟩,
    ⟨.zfs_ioc_vdev_attach, .zfs_secpolicy_config, .POOL_NAME, true⟩,
    ⟨.zfs_ioc_vdev_detach, .zfs_secpolicy_config, .POOL_NAME, true⟩,
    ⟨.zfs_ioc_vdev_setpath, .zfs_secpolicy_config, .POOL_NAME, false⟩,
    ⟨.zfs_ioc_objset_stats, .zfs_secpolicy_read, .DATASET_NAME, false⟩,
    ⟨.zfs_ioc_objset_version, .zfs_secpolicy_read, .DATASET_NAME, false⟩,
    ⟨.zfs_ioc_dataset_list_next, .zfs_secpolicy_read, .DATASET_NAME, false⟩,
    ⟨.zfs_ioc_snapshot_list_next, .zfs_secpolicy_read, .DATASET_NAME, false⟩,
    ⟨.zfs_ioc_set_prop, .zfs_secpolicy_none, .DATASET_NAME, true⟩,
    ⟨.zfs_ioc_create_minor, .zfs_secpolicy_minor, .DATASET_NAME, false⟩,
    ⟨.zfs_ioc_remove_minor, .zfs_secpolicy_minor, .DATASET_NAME, false⟩,
    ⟨.zfs_ioc_create, .zfs_secpolicy_create, .DATASET_NAME, true⟩,
    ⟨.zfs_ioc_destroy, .zfs_secpolicy_destroy, .DATASET_NAME, true⟩,
    ⟨.zfs_ioc_rollback, .zfs_secpolicy_rollback, .DATASET_NAME, true⟩,
    ⟨.zfs_ioc_rename, .zfs_secpolicy_rename, .DATASET_NAME, true⟩,
    ⟨.zfs_ioc_recv, .zfs_secpolicy_receive, .DATASET_NAME, true⟩,
    ⟨.zfs_ioc_send, .zfs_secpolicy_send, .DATASET_NAME, true⟩,
    ⟨.zfs_ioc_inject_fault, .zfs_secpolicy_inject, .NO_NAME, false⟩,
    ⟨.zfs_ioc_clear_fault, .zfs_secpolicy_inject, .NO_NAME, false⟩,
    ⟨.zfs_ioc_inject_list_next, .zfs_secpolicy_inject, .NO_NAME, false⟩,
    ⟨.zfs_ioc_error_log, .zfs_secpolicy_inject, .POOL_NAME, false⟩,
    ⟨.zfs_ioc_clear, .zfs_secpolicy_config, .POOL_NAME, true⟩,
    ⟨.zfs_ioc_promote, .zfs_secpolicy_promote, .DATASET_NAME, true⟩,
    ⟨.zfs_ioc_destroy_snaps, .zfs_secpolicy_destroy, .DATASET_NAME, true⟩,
    ⟨.zfs_ioc_snapshot, .zfs_secpolicy_snapshot, .DATASET_NAME, true⟩,
    ⟨.zfs_ioc_dsobj_to_dsname, .zfs_secpolicy_config, .POOL_NAME, false⟩,
    ⟨.zfs_ioc_obj_to_path, .zfs_secpolicy_config, .NO_NAME, false⟩,
    ⟨.zfs_ioc_pool_set_props, .zfs_secpolicy_config, .POOL_NAME, true⟩,
    ⟨.zfs_ioc_pool_get_props, .zfs_secpolicy_read, .POOL_NAME, false⟩,
    ⟨.zfs_ioc_set_fsacl, .zfs_secpolicy_fsacl, .DATASET_NAME, true⟩,
    ⟨.zfs_ioc_get_fsacl, .zfs_secpolicy_read, .DATASET_NAME, false⟩,
    ⟨.zfs_ioc_iscsi_perm_check, .zfs_secpolicy_iscsi, .DATASET_NAME, false⟩,
    ⟨.zfs_ioc_share, .zfs_secpolicy_share, .DATASET_NAME, false⟩,
    ⟨.zfs_ioc_inherit_prop, .zfs_secpolicy_inherit, .DATASET_NAME, true⟩ ]

/-- The base of the request codes, `ZFS_IOC = ('Z' << 8)`. -/
def ZFS_IOC : Nat := 90 <<< 8

/-- The enumeration `zfs_ioc_t` of `sys/fs/zfs.h`, in its order. -/
inductive zfs_ioc_t where
  | ZFS_IOC_POOL_CREATE
  | ZFS_IOC_POOL_DESTROY
  | ZFS_IOC_POOL_IMPORT
  | ZFS_IOC_POOL_EXPORT
  | ZFS_IOC_POOL_CONFIGS
  | ZFS_IOC_POOL_STATS
  | ZFS_IOC_POOL_TRYIMPORT
  | ZFS_IOC_POOL_SCRUB
  | ZFS_IOC_POOL_FREEZE
  | ZFS_IOC_POOL_UPGRADE
  | ZFS_IOC_POOL_GET_HISTORY
  | ZFS_IOC_POOL_LOG_HISTORY
  | ZFS_IOC_VDEV_ADD
  | ZFS_IOC_VDEV_REMOVE
  | ZFS_IOC_VDEV_ONLINE
  | ZFS_IOC_VDEV_OFFLINE
  | ZFS_IOC_VDEV_ATTACH
  | ZFS_IOC_VDEV_DETACH
  | ZFS_IOC_VDEV_SETPATH
  | ZFS_IOC_OBJSET_STATS
  | ZFS_IOC_DATASET_LIST_NEXT
  | ZFS_IOC_SNAPSHOT_LIST_NEXT
  | ZFS_IOC_SET_PROP
  | ZFS_IOC_CREATE_MINOR
  | ZFS_IOC_REMOVE_MINOR
  | ZFS_IOC_CREATE
  | ZFS_IOC_DESTROY
  | ZFS_IOC_ROLLBACK
  | ZFS_IOC_RENAME
  | ZFS_IOC_RECVBACKUP
  | ZFS_IOC_SENDBACKUP
  | ZFS_IOC_INJECT_FAULT
  | ZFS_IOC_CLEAR_FAULT
  | ZFS_IOC_INJECT_LIST_NEXT
  | ZFS_IOC_ERROR_LOG
  | ZFS_IOC_CLEAR
  | ZFS_IOC_BOOKMARK_NAME
  | ZFS_IOC_PROMOTE
  | ZFS_IOC_DESTROY_SNAPS
  | ZFS_IOC_SNAPSHOT
  deriving DecidableEq, Repr

/-- The enumerators of `zfs_ioc_t` in the order of the header. -/
def zfs_ioc_enumerators : List zfs_ioc_t :=
  [ .ZFS_IOC_POOL_CREATE,
    .ZFS_IOC_POOL_DESTROY,
    .ZFS_IOC_POOL_IMPORT,
    .ZFS_IOC_POOL_EXPORT,
    .ZFS_IOC_POOL_CONFIGS,
    .ZFS_IOC_POOL_STATS,
    .ZFS_IOC_POOL_TRYIMPORT,
    .ZFS_IOC_POOL_SCRUB,
    .ZFS_IOC_POOL_FREEZE,
    .ZFS_IOC_POOL_UPGRADE,
    .ZFS_IOC_POOL_GET_HISTORY,
    .ZFS_IOC_POOL_LOG_HISTORY,
    .ZFS_IOC_VDEV_ADD,
    .ZFS_IOC_VDEV_REMOVE,
    .ZFS_IOC_VDEV_ONLINE,
    .ZFS_IOC_VDEV_OFFLINE,
    .ZFS_IOC_VDEV_ATTACH,
    .ZFS_IOC_VDEV_DETACH,
    .ZFS_IOC_VDEV_SETPATH,
    .ZFS_IOC_OBJSET_STATS,
    .ZFS_IOC_DATASET_LIST_NEXT,
    .ZFS_IOC_SNAPSHOT_LIST_NEXT,
    .ZFS_IOC_SET_PROP,
    .ZFS_IOC_CREATE_MINOR,
    .ZFS_IOC_REMOVE_MINOR,
    .ZFS_IOC_CREATE,
    .ZFS_IOC_DESTROY,
    .ZFS_IOC_ROLLBACK,
    .ZFS_IOC_RENAME,
    .ZFS_IOC_RECVBACKUP,
    .ZFS_IOC_SENDBACKUP,
    .ZFS_IOC_INJECT_FAULT,
    .ZFS_IOC_CLEAR_FAULT,
    .ZFS_IOC_INJECT_LIST_NEXT,
    .ZFS_IOC_ERROR_LOG,
    .ZFS_IOC_CLEAR,
    .ZFS_IOC_BOOKMARK_NAME,
    .ZFS_IOC_PROMOTE,
    .ZFS_IOC_DESTROY_SNAPS,
    .ZFS_IOC_SNAPSHOT ]

/-- The numeric value of a request code: the first enumerator is `ZFS_IOC`,
every further one is one more than its predecessor. -/
def zfs_ioc_t.value (c : zfs_ioc_t) : Nat :=
  ZFS_IOC + zfs_ioc_enumerators.indexOf c

/-- What `zfsdev_ioctl` does that can be seen from outside, in order. -/
inductive ioctl_event where
  | policy (c : lower_call)
  | pool_namecheck (name : List Nat)
  | dataset_namecheck (name : List Nat)
  | zvec_func (f : zfs_ioc_func_t) (zc : zfs_cmd_t)
  | xcopyout (zc : zfs_cmd_t)
  | zfs_log_history (zc : zfs_cmd_t)
  deriving DecidableEq, Repr

/-- What `zfsdev_ioctl` takes from the rest of the kernel: the copy routines
(`xcopyin` yields its error and the command buffer it leaves), the name checks
of `zfs_namecheck.c` and the bodies of the handlers. -/
structure ioctl_env where
  sec : sec_env
  xcopyin : Nat → Int × zfs_cmd_t
  xcopyout : zfs_cmd_t → Nat → Int
  pool_namecheck : List Nat → Int
  dataset_namecheck : List Nat → Int
  zvec_func : zfs_ioc_func_t → zfs_cmd_t → Int × zfs_cmd_t

/-- The call through the pointer `zvec_secpolicy`. -/
def zvec_secpolicy (env : sec_env) : zfs_secpolicy_func_t → zfs_cmd_t → Nat → pol_result
  | .zfs_secpolicy_config => zfs_secpolicy_config env
  | .zfs_secpolicy_none => zfs_secpolicy_none env
  | .zfs_secpolicy_read => zfs_secpolicy_read env
  | .zfs_secpolicy_minor => zfs_secpolicy_minor env
  | .zfs_secpolicy_create => zfs_secpolicy_create env
  | .zfs_secpolicy_destroy => zfs_secpolicy_destroy env
  | .zfs_secpolicy_rollback => zfs_secpolicy_rollback env
  | .zfs_secpolicy_rename => zfs_secpolicy_rename env
  | .zfs_secpolicy_receive => zfs_secpolicy_receive env
  | .zfs_secpolicy_send => zfs_secpolicy_send env
  | .zfs_secpolicy_inject => zfs_secpolicy_inject env
  | .zfs_secpolicy_promote => zfs_secpolicy_promote env
  | .zfs_secpolicy_snapshot => zfs_secpolicy_snapshot env
  | .zfs_secpolicy_fsacl => zfs_secpolicy_fsacl env
  | .zfs_secpolicy_iscsi => zfs_secpolicy_iscsi env
  | .zfs_secpolicy_share => zfs_secpolicy_share env
  | .zfs_secpolicy_inherit => zfs_secpolicy_inherit env

/-- The index `vec = cmd - ZFS_IOC` as a `uint_t`. -/
def ioctl_vec_index (cmd : Int) : Nat := ((cmd - (ZFS_IOC : Int)) % (2 ^ 32 : Int)).toNat

/-- The assignment `zc->zc_name[sizeof (zc->zc_name) - 1] = 0`. -/
def terminate_name (zc : zfs_cmd_t) : zfs_cmd_t :=
  { zc with zc_name := zc.zc_name.set (zc.zc_name.length - 1) 0 }

/-- The name check of `zfsdev_ioctl`: the error it leaves and the check made. -/
def ioctl_namecheck (env : ioctl_env) (nc : zvec_namecheck_t) (zc : zfs_cmd_t) :
    Int × List ioctl_event :=
  match nc with
  | .POOL_NAME =>
    (if env.pool_namecheck zc.zc_name ≠ 0 then EINVAL else 0, [.pool_namecheck zc.zc_name])
  | .DATASET_NAME =>
    (if env.dataset_namecheck zc.zc_name ≠ 0 then EINVAL else 0,
      [.dataset_namecheck zc.zc_name])
  | .NO_NAME => (0, [])

/-- The function `zfsdev_ioctl(dev, cmd, arg, flag, cr, rvalp)`: the value
returned and the events in order. -/
def zfsdev_ioctl (env : ioctl_env) (cmd : Int) (arg : Nat) (cr : Nat) :
    Int × List ioctl_event :=
  match zfs_ioc_vec[ioctl_vec_index cmd]? with
  | none => (EINVAL, [])
  | some v =>
    let cin := env.xcopyin arg
    let zc0 := cin.2
    let pol : pol_result := if cin.1 = 0 then zvec_secpolicy env.sec v.zvec_secpolicy zc0 cr
      else (cin.1, [])
    let ev1 := pol.2.map ioctl_event.policy
    let zc1 := if pol.1 = 0 then terminate_name zc0 else zc0
    let chk : Int × List ioctl_event :=
      if pol.1 = 0 then ioctl_namecheck env v.zvec_namecheck zc1 else (pol.1, [])
    let ev2 := ev1 ++ chk.2
    let run : Int × zfs_cmd_t := if chk.1 = 0 then env.zvec_func v.zvec_func zc1 else (chk.1, zc1)
    let ev3 := if chk.1 = 0 then ev2 ++ [.zvec_func v.zvec_func zc1] else ev2
    let zc2 := run.2
    let rc := env.xcopyout zc2 arg
    let ev4 := ev3 ++ [.xcopyout zc2]
    if run.1 = 0 then
      (rc, if v.zvec_his_log then ev4 ++ [.zfs_log_history zc2] else ev4)
    else (run.1, ev4)

/-- The value of a name-value pair: a 64-bit number, a string, or a value of
another data type (given by its type code). -/
inductive nvvalue where
  | uint64 (v : Nat)
  | string (s : List Nat)
  | other (type : Nat)
  deriving DecidableEq, Repr

/-- A name-value pair of an `nvlist_t`. -/
structure nvpair_t where
  name : String
  value : nvvalue
  deriving DecidableEq, Repr

/-- The accessor `nvpair_value_uint64` of libnvpair: the error (`EINVAL` when
the pair has another type) and the value. -/
def nvpair_value_uint64 (elem : nvpair_t) : Int × Nat :=
  match elem.value with
  | .uint64 v => (0, v)
  | _ => (EINVAL, 0)

/-- The accessor `nvpair_value_string` of libnvpair. -/
def nvpair_value_string (elem : nvpair_t) : Int × List Nat :=
  match elem.value with
  | .string v => (0, v)
  | _ => (EINVAL, [])

/-- The test `nvpair_type(elem) == DATA_TYPE_STRING`. -/
def nvpair_is_string (elem : nvpair_t) : Bool :=
  match elem.value with
  | .string _ => true
  | _ => false

/-- The test `nvpair_type(elem) == DATA_TYPE_UINT64`. -/
def nvpair_is_uint64 (elem : nvpair_t) : Bool :=
  match elem.value with
  | .uint64 _ => true
  | _ => false

/-- First gzip level of the `enum zio_compress` that `zfs_ioctl.c` is written
against. -/
def ZIO_COMPRESS_GZIP_1 : Nat := 5
/-- Last gzip level. -/
def ZIO_COMPRESS_GZIP_9 : Nat := 13
/-- Pool version that brought ditto blocks (`sys/fs/zfs.h`). -/
def SPA_VERSION_DITTO_BLOCKS : Nat := 2
/-- Pool version that brought gzip compression. -/
def SPA_VERSION_GZIP_COMPRESSION : Nat := 5
/-- Pool version that brought normalization. -/
def SPA_VERSION_NORMALIZATION : Nat := 9

/-- A call of one of the routines that change a property. -/
inductive setter_call where
  | dsl_prop_set (name : List Nat) (propname : String) (intsz numints : Nat) (value : nvvalue)
  | dsl_dir_set_quota (name : List Nat) (v : Nat)
  | dsl_dataset_set_quota (name : List Nat) (v : Nat)
  | dsl_dir_set_reservation (name : List Nat) (v : Nat)
  | dsl_dataset_set_reservation (name : List Nat) (v : Nat)
  | zfs_set_version (name : List Nat) (v : Nat)
  deriving DecidableEq, Repr

/-- What `zfs_set_prop_nvlist` takes from other files.  The value a setter
returns may depend on the setter calls made before it. -/
structure prop_env where
  sec : sec_env
  zfs_prop_get_type : zfs_prop_t → zprop_type_t
  zfs_prop_index_to_string : zfs_prop_t → Nat → Int
  setter : List setter_call → setter_call → Int

/-- The function `zfs_check_version`. -/
def zfs_check_version (env : sec_env) (name : List Nat) (version : Nat) : pol_result :=
  if env.spa_open name = 0 then
    if env.spa_version name < version then (1, [.spa_open name]) else (0, [.spa_open name])
  else (0, [.spa_open name])

/-- The switch of the first loop of `zfs_set_prop_nvlist`, "check that this
value is valid for this pool version": `ENOTSUP` or 0. -/
def zfs_set_prop_version_check (env : sec_env) (name : List Nat) (prop : zfs_prop_t)
    (elem : nvpair_t) : pol_result :=
  let check (version : Nat) : pol_result :=
    let r := zfs_check_version env name version
    (if r.1 ≠ 0 then ENOTSUP else 0, r.2)
  match prop with
  | .ZFS_PROP_COMPRESSION =>
    if nvpair_is_uint64 elem ∧ (nvpair_value_uint64 elem).1 = 0 ∧
        ZIO_COMPRESS_GZIP_1 ≤ (nvpair_value_uint64 elem).2 ∧
        (nvpair_value_uint64 elem).2 ≤ ZIO_COMPRESS_GZIP_9 then
      check SPA_VERSION_GZIP_COMPRESSION
    else (0, [])
  | .ZFS_PROP_COPIES => check SPA_VERSION_DITTO_BLOCKS
  | .ZFS_PROP_NORMALIZE => check SPA_VERSION_NORMALIZATION
  | .ZFS_PROP_UTF8ONLY => check SPA_VERSION_NORMALIZATION
  | .ZFS_PROP_CASE => check SPA_VERSION_NORMALIZATION
  | _ => (0, [])

/-- The first loop of `zfs_set_prop_nvlist`, "first validate permission to set
all of the properties": the error that ends it (0 when it runs to the end) and
the lower-layer calls made. -/
def zfs_set_prop_validate (env : sec_env) (name : List Nat) (cr : Nat) :
    List nvpair_t → pol_result
  | [] => (0, [])
  | elem :: rest =>
    let prop := env.zfs_name_to_prop elem.name
    if prop = .ZPROP_INVAL then
      if !env.zfs_prop_user elem.name ∨ !nvpair_is_string elem then (EINVAL, [])
      else
        pol_then (zfs_secpolicy_write_perms env name ZFS_DELEG_PERM_USERPROP cr) fun _ =>
          zfs_set_prop_validate env name cr rest
    else
      pol_then (zfs_secpolicy_setprop env name prop cr) fun _ =>
      pol_then (zfs_set_prop_version_check env name prop elem) fun _ =>
      pol_then (zfs_secpolicy_setprop env name prop cr) fun _ =>
        zfs_set_prop_validate env name cr rest

/-- Ways in which `zfs_set_prop_nvlist` stops without returning. -/
inductive prop_abort where
  | verify_value_string
  | verify_value_uint64
  | panic_unknown_property_type
  deriving DecidableEq, Repr

/-- What one turn of the second loop does: go on to the next pair, return an
error, or stop. -/
inductive apply_step where
  | next (calls : List (setter_call × Int))
  | ret (error : Int) (calls : List (setter_call × Int))
  | abort (a : prop_abort)
  deriving DecidableEq, Repr

/-- A setter call that returns its error when it fails and goes on otherwise:
`if ((error = f(...)) != 0) return (error);`. -/
def setter_or_return (env : prop_env) (hist : List setter_call) (c : setter_call) :
    apply_step :=
  if env.setter hist c ≠ 0 then .ret (env.setter hist c) [(c, env.setter hist c)]
  else .next [(c, env.setter hist c)]

/-- The case `default:` of the switch of the second loop, for a pair whose
property is `prop`; `hist` are the setter calls made so far. -/
def zfs_set_prop_default (env : prop_env) (name : List Nat) (hist : List setter_call)
    (elem : nvpair_t) (prop : zfs_prop_t) : apply_step :=
  let propname := elem.name
  if nvpair_is_string elem then
    if env.zfs_prop_get_type prop ≠ .PROP_TYPE_STRING then .ret EINVAL []
    else if (nvpair_value_string elem).1 ≠ 0 then .abort .verify_value_string
    else
      let strval := (nvpair_value_string elem).2
      setter_or_return env hist
        (.dsl_prop_set name elem.name 1 ((cstr strval).length + 1) (.string strval))
  else if nvpair_is_uint64 elem then
    if (nvpair_value_uint64 elem).1 ≠ 0 then .abort .verify_value_uint64
    else
      let intval := (nvpair_value_uint64 elem).2
      let set : apply_step :=
        setter_or_return env hist (.dsl_prop_set name propname 8 1 (.uint64 intval))
      match env.zfs_prop_get_type prop with
      | .PROP_TYPE_NUMBER => set
      | .PROP_TYPE_STRING => .ret EINVAL []
      | .PROP_TYPE_INDEX =>
        if env.zfs_prop_index_to_string prop intval ≠ 0 then .ret EINVAL [] else set
      | .unknown => .abort .panic_unknown_property_type
  else .ret EINVAL []

/-- The step of a turn that made `calls` before it went on as `s`. -/
def apply_step.after (calls : List (setter_call × Int)) : apply_step → apply_step
  | .next c => .next (calls ++ c)
  | .ret e c => .ret e (calls ++ c)
  | .abort a => .abort a

/-- The body of the second loop of `zfs_set_prop_nvlist` for one pair; `hist`
are the setter calls made so far. -/
def zfs_set_prop_apply_one (env : prop_env) (name : List Nat) (hist : List setter_call)
    (elem : nvpair_t) : apply_step :=
  let propname := elem.name
  let prop := env.sec.zfs_name_to_prop propname
  match prop with
  | .ZPROP_INVAL =>
    if (nvpair_value_string elem).1 ≠ 0 then .abort .verify_value_string
    else
      let strval := (nvpair_value_string elem).2
      setter_or_return env hist
        (.dsl_prop_set name propname 1 ((cstr strval).length + 1) (.string strval))
  | .ZFS_PROP_QUOTA =>
    if (nvpair_value_uint64 elem).1 ≠ 0 then .ret (nvpair_value_uint64 elem).1 []
    else setter_or_return env hist (.dsl_dir_set_quota name (nvpair_value_uint64 elem).2)
  | .ZFS_PROP_REFQUOTA =>
    if (nvpair_value_uint64 elem).1 ≠ 0 then .ret (nvpair_value_uint64 elem).1 []
    else setter_or_return env hist (.dsl_dataset_set_quota name (nvpair_value_uint64 elem).2)
  | .ZFS_PROP_RESERVATION =>
    if (nvpair_value_uint64 elem).1 ≠ 0 then .ret (nvpair_value_uint64 elem).1 []
    else setter_or_return env hist (.dsl_dir_set_reservation name (nvpair_value_uint64 elem).2)
  | .ZFS_PROP_REFRESERVATION =>
    if (nvpair_value_uint64 elem).1 ≠ 0 then .ret (nvpair_value_uint64 elem).1 []
    else
      setter_or_return env hist (.dsl_dataset_set_reservation name (nvpair_value_uint64 elem).2)
  | .ZFS_PROP_VOLSIZE => .ret ENXIO []
  | .ZFS_PROP_VOLBLOCKSIZE => .ret ENXIO []
  | .ZFS_PROP_VERSION =>
    -- `if (... != 0 || (error = zfs_set_version(name, intval)) != 0) break;`
    -- with no `break` after the `if`: a failure leads to the next pair, a
    -- success falls through into `default:`
    if (nvpair_value_uint64 elem).1 ≠ 0 then .next []
    else
      let c := setter_call.zfs_set_version name (nvpair_value_uint64 elem).2
      if env.setter hist c ≠ 0 then .next [(c, env.setter hist c)]
      else
        (zfs_set_prop_default env name (hist ++ [c]) elem prop).after [(c, env.setter hist c)]
  | _ => zfs_set_prop_default env name hist elem prop

/-- The second loop of `zfs_set_prop_nvlist`; `done` are the setter calls made
so far with the values they returned.  The result is the value returned (0 at
the end of the list) and all setter calls. -/
def zfs_set_prop_apply (env : prop_env) (name : List Nat) :
    List nvpair_t → List (setter_call × Int) → Except prop_abort (Int × List (setter_call × Int))
  | [], done => .ok (0, done)
  | elem :: rest, done =>
    match zfs_set_prop_apply_one env name (done.map Prod.fst) elem with
    | .abort a => .error a
    | .ret e calls => .ok (e, done ++ calls)
    | .next calls => zfs_set_prop_apply env name rest (done ++ calls)

/-- Everything `zfs_set_prop_nvlist` leaves behind. -/
structure setprop_out where
  error : Int
  policy_calls : List lower_call
  setter_calls : List (setter_call × Int)
  deriving DecidableEq, Repr

/-- The function `zfs_set_prop_nvlist(name, nvl)`; `cr` is `CRED()`. -/
def zfs_set_prop_nvlist (env : prop_env) (name : List Nat) (nvl : List nvpair_t) (cr : Nat) :
    Except prop_abort setprop_out :=
  let v := zfs_set_prop_validate env.sec name cr nvl
  if v.1 ≠ 0 then .ok { error := v.1, policy_calls := v.2, setter_calls := [] }
  else
    match zfs_set_prop_apply env name nvl [] with
    | .error a => .error a
    | .ok r => .ok { error := r.1, policy_calls := v.2, setter_calls := r.2 }

/-! ## zfs_main.c: zfs destroy -/

/-- The dataset types `zfs_type_t` of `sys/fs/zfs.h`. -/
inductive zfs_type_t where
  | ZFS_TYPE_FILESYSTEM
  | ZFS_TYPE_SNAPSHOT
  | ZFS_TYPE_VOLUME
  deriving DecidableEq, Repr

/-- The mask bit of a dataset type. -/
def zfs_type_t.bit : zfs_type_t → Nat
  | .ZFS_TYPE_FILESYSTEM => 1
  | .ZFS_TYPE_SNAPSHOT => 2
  | .ZFS_TYPE_VOLUME => 4

/-- The mask `ZFS_TYPE_ANY`. -/
def ZFS_TYPE_ANY : Nat := 1 ||| 4 ||| 2

/-- What the command reads from an open handle `zfs_handle_t`: the results of
`zfs_get_name` and `zfs_get_type`. -/
structure zfs_handle_t where
  zfs_name : List Char
  zfs_type : zfs_type_t
  deriving DecidableEq, Repr

/-- A call of a libzfs routine that changes a dataset; for `zfs_unmount` the
flag tells whether `MS_FORCE` was passed. -/
inductive zfs_call where
  | zfs_unmount (name : List Char) (force : Bool)
  | zfs_destroy (name : List Char)
  | zfs_destroy_snaps (name : List Char) (snapname : List Char)
  deriving DecidableEq, Repr

/-- The child filesystems of a dataset with their own children, as
`zfs_iter_filesystems` visits them: first child, then its siblings. -/
inductive fs_forest where
  | nil
  | cons (zhp : zfs_handle_t) (children : fs_forest) (siblings : fs_forest)
  deriving Repr

/-- What the command takes from libzfs.  Every answer may depend on the
changing calls made so far.  `get_dependents` is the dependents list that
`zfs_iter_dependents` builds (`none` when it fails), as handles. -/
structure libzfs_env where
  zfs_open : List zfs_call → List Char → Nat → Option zfs_handle_t
  get_dependents : List zfs_call → zfs_handle_t → Bool → Option (List zfs_handle_t)
  filesystems : zfs_handle_t → fs_forest
  call : List zfs_call → zfs_call → Int

/-- The structure `destroy_cbdata_t`. -/
structure destroy_cbdata_t where
  cb_first : Bool
  cb_force : Int
  cb_recurse : Int
  cb_error : Int
  cb_needforce : Int
  cb_doclones : Int
  cb_target : Option zfs_handle_t
  cb_snapname : Option (List Char)
  deriving DecidableEq, Repr

/-- The callback data together with what has happened so far: the changing
calls with their results and the dataset names printed as dependents. -/
structure destroy_state where
  cb : destroy_cbdata_t
  calls : List (zfs_call × Int)
  reported : List (List Char)
  deriving DecidableEq, Repr

/-- The changing calls made so far, without their results. -/
def destroy_state.hist (st : destroy_state) : List zfs_call := st.calls.map Prod.fst

/-- A changing call: its result and the state with the call recorded. -/
def do_call (env : libzfs_env) (st : destroy_state) (c : zfs_call) : Int × destroy_state :=
  (env.call st.hist c, { st with calls := st.calls ++ [(c, env.call st.hist c)] })

/-- Modelled from the spec: the loop of `zfs_iter_dependents` and of
`zfs_iter_filesystems` (libzfs, not among the files at hand): the callback is
called on every handle in turn until one call returns nonzero, and that value
is returned. -/
def iter_handles {σ : Type} (func : zfs_handle_t → σ → Int × σ) :
    List zfs_handle_t → σ → Int × σ
  | [], st => (0, st)
  | zhp :: rest, st =>
    if (func zhp st).1 ≠ 0 then func zhp st else iter_handles func rest (func zhp st).2

/-- Modelled from the spec: `zfs_iter_dependents(zhp, allowrecursion, func,
data)` of libzfs: -1 when the dependents cannot be listed, the loop
otherwise. -/
def zfs_iter_dependents (env : libzfs_env) (zhp : zfs_handle_t) (allowrecursion : Bool)
    (func : zfs_handle_t → destroy_state → Int × destroy_state) (st : destroy_state) :
    Int × destroy_state :=
  match env.get_dependents st.hist zhp allowrecursion with
  | none => (-1, st)
  | some deps => iter_handles func deps st

/-- The test `strchr(name, c) != NULL`. -/
def has_char (name : List Char) (c : Char) : Bool := name.contains c

/-- The function `destroy_check_dependent`.  `zfs_do_destroy` sets `cb_target`
before it passes the callback; with no target the callback does nothing. -/
def destroy_check_dependent (zhp : zfs_handle_t) (st : destroy_state) : Int × destroy_state :=
  match st.cb.cb_target with
  | none => (0, st)
  | some target =>
    let tname := target.zfs_name
    let name := zhp.zfs_name
    let report (st : destroy_state) : destroy_state :=
      let st1 := if st.cb.cb_first then
          { st with cb := { st.cb with cb_first := false, cb_error := 1 } } else st
      { st1 with reported := st1.reported ++ [zhp.zfs_name] }
    if name.take tname.length = tname ∧
        (name.get? tname.length = some '/' ∨ name.get? tname.length = some '@') then
      if st.cb.cb_recurse ≠ 0 then (0, st) else (0, report st)
    else
      if st.cb.cb_recurse = 0 ∧ target.zfs_type ≠ .ZFS_TYPE_SNAPSHOT then (0, st)
      else (0, report st)

/-- The function `destroy_callback`. -/
def destroy_callback (env : libzfs_env) (zhp : zfs_handle_t) (st : destroy_state) :
    Int × destroy_state :=
  if !has_char zhp.zfs_name '/' ∧ zhp.zfs_type = .ZFS_TYPE_FILESYSTEM then (0, st)
  else
    let u := do_call env st (.zfs_unmount zhp.zfs_name (st.cb.cb_force ≠ 0))
    if u.1 ≠ 0 then (-1, u.2)
    else
      let d := do_call env u.2 (.zfs_destroy zhp.zfs_name)
      if d.1 ≠ 0 then (-1, d.2) else (0, d.2)

/-- The part of `destroy_snap_clones` before its last line: open the snapshot
of this filesystem and destroy its clones. -/
def destroy_snap_clones_here (env : libzfs_env) (zhp : zfs_handle_t) (st : destroy_state) :
    Int × destroy_state :=
  let thissnap := zhp.zfs_name ++ ['@'] ++ (st.cb.cb_snapname.getD [])
  match env.zfs_open st.hist thissnap zfs_type_t.ZFS_TYPE_SNAPSHOT.bit with
  | none => (0, st)
  | some szhp =>
    let r := zfs_iter_dependents env szhp false (destroy_callback env) st
    if r.1 ≠ 0 then (-1, r.2) else (0, r.2)

/-- The call `zfs_iter_filesystems(zhp, destroy_snap_clones, arg)` over the
children of `zhp`, each child running `destroy_snap_clones` in turn. -/
def destroy_snap_clones_children (env : libzfs_env) :
    fs_forest → destroy_state → Int × destroy_state
  | .nil, st => (0, st)
  | .cons zhp children siblings, st =>
    let here := destroy_snap_clones_here env zhp st
    let r : Int × destroy_state :=
      if here.1 ≠ 0 then here else destroy_snap_clones_children env children here.2
    if r.1 ≠ 0 then r else destroy_snap_clones_children env siblings r.2

/-- The function `destroy_snap_clones`. -/
def destroy_snap_clones (env : libzfs_env) (zhp : zfs_handle_t) (st : destroy_state) :
    Int × destroy_state :=
  let here := destroy_snap_clones_here env zhp st
  if here.1 ≠ 0 then here else destroy_snap_clones_children env (env.filesystems zhp) here.2

/-- How a command ends: it returns a value to `main`, or it calls `exit`
(`usage(B_FALSE)` exits with status 2). -/
inductive cmd_result where
  | returned (v : Int)
  | exited (status : Int)
  deriving DecidableEq, Repr

/-- The option loop of `zfs_do_destroy` over the letters `getopt` yields:
`none` when a letter leads to `usage`. -/
def destroy_getopt : List Char → destroy_cbdata_t → Option destroy_cbdata_t
  | [], cb => some cb
  | c :: rest, cb =>
    if c = 'f' then destroy_getopt rest { cb with cb_force := 1 }
    else if c = 'r' then destroy_getopt rest { cb with cb_recurse := 1 }
    else if c = 'R' then destroy_getopt rest { cb with cb_recurse := 1, cb_doclones := 1 }
    else none

/-- The function `zfs_do_destroy(argc, argv)`: `opts` are the option letters
that `getopt` yields and `args` the operands after them.  The result is how
the command ends and the final state. -/
def zfs_do_destroy (env : libzfs_env) (opts : List Char) (args : List (List Char)) :
    cmd_result × destroy_state :=
  let cb0 : destroy_cbdata_t :=
    { cb_first := false, cb_force := 0, cb_recurse := 0, cb_error := 0, cb_needforce := 0,
      cb_doclones := 0, cb_target := none, cb_snapname := none }
  let st0 : destroy_state := { cb := cb0, calls := [], reported := [] }
  match destroy_getopt opts cb0 with
  | none => (.exited 2, st0)
  | some cb =>
    let st1 : destroy_state := { st0 with cb := cb }
    match args with
    | [] => (.exited 2, st1)
    | _ :: _ :: _ => (.exited 2, st1)
    | [arg] =>
      if cb.cb_recurse ≠ 0 ∧ has_char arg '@' then
        let fsname := arg.takeWhile (fun c => c ≠ '@')
        let cp := (arg.dropWhile (fun c => c ≠ '@')).drop 1
        match env.zfs_open st1.hist fsname ZFS_TYPE_ANY with
        | none => (.returned 1, st1)
        | some zhp =>
          let st2 : destroy_state :=
            if cb.cb_doclones ≠ 0 then { st1 with cb := { cb with cb_snapname := some cp } }
            else st1
          let r : Int × destroy_state :=
            if cb.cb_doclones ≠ 0 then destroy_snap_clones env zhp st2 else (0, st2)
          if r.1 ≠ 0 then (.returned 1, r.2)
          else
            let d := do_call env r.2 (.zfs_destroy_snaps zhp.zfs_name cp)
            (.returned (if d.1 ≠ 0 then 1 else 0), d.2)
      else
        match env.zfs_open st1.hist arg ZFS_TYPE_ANY with
        | none => (.returned 1, st1)
        | some zhp =>
          let st2 : destroy_state := { st1 with cb := { cb with cb_target := some zhp } }
          if cb.cb_recurse = 0 ∧ !has_char zhp.zfs_name '/' ∧
              zhp.zfs_type = .ZFS_TYPE_FILESYSTEM then (.returned 1, st2)
          else
            let st3 : destroy_state := { st2 with cb := { st2.cb with cb_first := true } }
            let chk : Int × destroy_state :=
              if cb.cb_doclones = 0 then zfs_iter_dependents env zhp true destroy_check_dependent st3
              else (0, st3)
            if chk.1 ≠ 0 then (.returned 1, chk.2)
            else if chk.2.cb.cb_error ≠ 0 then (.returned 1, chk.2)
            else
              let dep := zfs_iter_dependents env zhp false (destroy_callback env) chk.2
              if dep.1 ≠ 0 then (.returned 1, dep.2)
              else
                let fin := destroy_callback env zhp dep.2
                if fin.1 ≠ 0 then (.returned 1, fin.2) else (.returned 0, fin.2)

/-- A compression environment for the examples: the compressor fills the
destination with the byte 7 and reports 100 bytes; fresh buffers hold the
byte 9. -/
def demo_zio_env : zio_env where
  lzjb_compress := fun _ dest _ _ => (100, dest.map (fun _ => 7))
  lzjb_decompress := fun _ dest _ _ => (0, dest)
  zio_buf_alloc := fun n => List.replicate n 9

/-- A source whose first byte is 1 and whose other bytes are 0. -/
def demo_src : Nat → Nat := fun i => if i = 0 then 1 else 0

/-- What `zio_compress_data` leaves for `demo_src` of 1024 bytes under lzjb in
`demo_zio_env`: 100 bytes of output padded with zeros to 512. -/
def demo_zio_out : zio_compress_out :=
  { ret := 1, destp := some (some (List.replicate 100 7 ++ List.replicate 412 0)),
    destsizep := some 512, destbufsizep := some 512,
    compress_calls := [(1024, 512)], allocs := [512], frees := [] }

/-- A compression environment whose compressor reports more than it was given
room for. -/
def demo_zio_env_big : zio_env where
  lzjb_compress := fun _ dest _ d_len => (d_len + 1, dest)
  lzjb_decompress := fun _ dest _ _ => (0, dest)
  zio_buf_alloc := fun n => List.replicate n 9

/-- The handler calls among the events of `zfsdev_ioctl`, in order. -/
def handler_calls : List ioctl_event → List (zfs_ioc_func_t × zfs_cmd_t)
  | [] => []
  | .zvec_func f zc :: rest => (f, zc) :: handler_calls rest
  | _ :: rest => handler_calls rest

/-- The name of the command passes the check of the vector: `pool_namecheck`
for `POOL_NAME`, `dataset_namecheck` for `DATASET_NAME`, nothing for
`NO_NAME`. -/
def name_passes (env : ioctl_env) (nc : zvec_namecheck_t) (zc : zfs_cmd_t) : Bool :=
  match nc with
  | .POOL_NAME => env.pool_namecheck zc.zc_name = 0
  | .DATASET_NAME => env.dataset_namecheck zc.zc_name = 0
  | .NO_NAME => true

/-- The names handed to lower layers by the security policy, among the events
of `zfsdev_ioctl`. -/
def policy_calls : List ioctl_event → List lower_call
  | [] => []
  | .policy c :: rest => c :: policy_calls rest
  | _ :: rest => policy_calls rest

/-- A kernel for the examples: the caller is privileged in the global zone,
every lookup succeeds, `zoned` is off, and the only known properties are
`version` and `quota`. -/
def demo_sec_env : sec_env where
  INGLOBALZONE := true
  zone_dataset_visible := fun _ => (true, true)
  dsl_prop_get_integer := fun _ _ => (0, 0, [])
  secpolicy_zfs := fun _ => 0
  dsl_deleg_access := fun _ _ _ => 0
  secpolicy_sys_config := fun _ => 0
  secpolicy_zinject := fun _ => 0
  secpolicy_nfs := fun _ => 0
  lookupname := fun _ => (0, true, [])
  dmu_objset_open := fun _ => 0
  dsl_dataset_open_obj := fun _ => 0
  dsl_dataset_name := fun n => n
  zfs_name_to_prop := fun s =>
    if s = "version" then .ZFS_PROP_VERSION else if s = "quota" then .ZFS_PROP_QUOTA
    else .ZPROP_INVAL
  zfs_prop_user := fun s => s.toList.contains ':'
  zfs_prop_inheritable := fun _ => true
  zfs_prop_to_name := fun p =>
    if p = .ZFS_PROP_VERSION then "version" else if p = .ZFS_PROP_QUOTA then "quota" else ""
  spa_open := fun _ => 0
  spa_version := fun _ => 10

/-- The four characters `a bc` (with a blank, which no dataset name may hold)
filling a small buffer to its end, with no NUL after them. -/
def demo_bad_name : List Nat := [97, 32, 98, 99]

/-- The name `tank/fs` in a small buffer. -/
def demo_good_name : List Nat := [116, 97, 110, 107, 47, 102, 115, 0]

/-- An ioctl environment for the examples: the command copied in carries the
name at the address `arg` (address 1: `a bc`, any other: `tank/fs`), a name
passes the checks when it is not empty and holds no blank, every handler
succeeds. -/
def demo_ioctl_env : ioctl_env where
  sec := demo_sec_env
  xcopyin := fun arg =>
    (0, { zc_name := if arg = 1 then demo_bad_name else demo_good_name,
          zc_value := [0], zc_rest := 0 })
  xcopyout := fun _ _ => 0
  pool_namecheck := fun n => if cstr n ≠ [] ∧ (cstr n).all (fun c => c ≠ 32) then 0 else -1
  dataset_namecheck := fun n => if cstr n ≠ [] ∧ (cstr n).all (fun c => c ≠ 32) then 0 else -1
  zvec_func := fun _ zc => (0, zc)

/-- A property environment for the examples: `zfs_set_version` fails with
`ENOTSUP`, every other setter succeeds. -/
def demo_prop_env : prop_env where
  sec := demo_sec_env
  zfs_prop_get_type := fun _ => .PROP_TYPE_NUMBER
  zfs_prop_index_to_string := fun _ _ => 0
  setter := fun _ c =>
    match c with
    | .zfs_set_version _ _ => ENOTSUP
    | _ => 0

/-- A library for the examples: the only dataset that opens is the snapshot
`tank/fs@snap`, its one dependent is the clone `tank/clone`, and every
changing call succeeds. -/
def demo_libzfs_env : libzfs_env where
  zfs_open := fun _ name _ =>
    if name = "tank/fs@snap".toList then some ⟨name, .ZFS_TYPE_SNAPSHOT⟩ else none
  get_dependents := fun _ _ _ => some [⟨"tank/clone".toList, .ZFS_TYPE_FILESYSTEM⟩]
  filesystems := fun _ => .nil
  call := fun _ _ => 0

/-! ## zfs_main.c: zfs rollback -/

/-- Size of the dataset name buffers, `ZFS_MAXNAMELEN`. -/
def ZFS_MAXNAMELEN : Nat := 256

/-- What `zfs rollback` takes from libzfs.  Nothing is changed before
`zfs_rollback`, the last call, so the answers do not depend on a history.
`children` is the list `zfs_iter_children` visits (`none` when it fails) and
`get_dependents` the list `zfs_iter_dependents` visits. -/
structure rollback_env where
  zfs_open : List Char → Nat → Option zfs_handle_t
  createtxg : zfs_handle_t → Nat
  children : zfs_handle_t → Option (List zfs_handle_t)
  get_dependents : zfs_handle_t → Bool → Option (List zfs_handle_t)
  zfs_rollback : zfs_handle_t → zfs_handle_t → Int → Int

/-- The structure `rollback_cbdata_t`. -/
structure rollback_cbdata_t where
  cb_create : Nat
  cb_first : Bool
  cb_doclones : Int
  cb_target : List Char
  cb_error : Int
  cb_recurse : Bool
  cb_dependent : Bool
  deriving DecidableEq, Repr

/-- The callback data together with what has happened so far: the dataset
names printed and the calls of `zfs_rollback` (parent, snapshot, force) with
their results. -/
structure rollback_state where
  cb : rollback_cbdata_t
  reported : List (List Char)
  rollback_calls : List ((List Char × List Char × Int) × Int)
  deriving DecidableEq, Repr

/-- The function `rollback_check` as it runs for a dependent, that is when it
is called back by `zfs_iter_dependents` with `cb_dependent` set: the first
test on `cb_doclones` and the `else` branch. -/
def rollback_check_dependent (zhp : zfs_handle_t) (st : rollback_state) :
    Int × rollback_state :=
  if st.cb.cb_doclones ≠ 0 then (0, st)
  else
    let st1 : rollback_state :=
      if st.cb.cb_first ∧ st.cb.cb_recurse then
        { st with cb := { st.cb with cb_first := false, cb_error := 1 } }
      else st
    (0, { st1 with reported := st1.reported ++ [zhp.zfs_name] })

/-- The function `rollback_check`.  Its recursive call runs with
`cb_dependent` set, hence as `rollback_check_dependent`. -/
def rollback_check (env : rollback_env) (zhp : zfs_handle_t) (st : rollback_state) :
    Int × rollback_state :=
  if st.cb.cb_doclones ≠ 0 then (0, st)
  else if !st.cb.cb_dependent then
    if zhp.zfs_name ≠ st.cb.cb_target ∧ zhp.zfs_type = .ZFS_TYPE_SNAPSHOT ∧
        env.createtxg zhp > st.cb.cb_create then
      let st1 : rollback_state :=
        if st.cb.cb_first ∧ !st.cb.cb_recurse then
          { st with cb := { st.cb with cb_first := false, cb_error := 1 } }
        else st
      if st1.cb.cb_recurse then
        let st2 : rollback_state := { st1 with cb := { st1.cb with cb_dependent := true } }
        match env.get_dependents zhp true with
        | none => (-1, st2)
        | some deps =>
          let r := iter_handles rollback_check_dependent deps st2
          if r.1 ≠ 0 then (-1, r.2)
          else (0, { r.2 with cb := { r.2.cb with cb_dependent := false } })
      else (0, { st1 with reported := st1.reported ++ [zhp.zfs_name] })
    else (0, st)
  else rollback_check_dependent zhp st

/-- How `zfs_do_rollback` ends: it returns, it exits through `usage`, or a
`verify` fails. -/
inductive rollback_result where
  | returned (v : Int)
  | exited (status : Int)
  | verify_failed
  deriving DecidableEq, Repr

/-- The option loop of `zfs_do_rollback`: the flag `force` and the callback
data, `none` when a letter leads to `usage`. -/
def rollback_getopt : List Char → Int × rollback_cbdata_t → Option (Int × rollback_cbdata_t)
  | [], acc => some acc
  | c :: rest, acc =>
    if c = 'f' then rollback_getopt rest (1, acc.2)
    else if c = 'r' then rollback_getopt rest (acc.1, { acc.2 with cb_recurse := true })
    else if c = 'R' then
      rollback_getopt rest (acc.1, { acc.2 with cb_recurse := true, cb_doclones := 1 })
    else none

/-- Modelled from the spec: `zfs_iter_children(zhp, func, data)` of libzfs (not
among the files at hand): nonzero when the children cannot be listed, the loop
over them otherwise. -/
def zfs_iter_children (env : rollback_env) (zhp : zfs_handle_t)
    (func : zfs_handle_t → rollback_state → Int × rollback_state) (st : rollback_state) :
    Int × rollback_state :=
  match env.children zhp with
  | none => (-1, st)
  | some kids => iter_handles func kids st

/-- The function `zfs_do_rollback(argc, argv)`: `opts` are the option letters
that `getopt` yields and `args` the operands after them. -/
def zfs_do_rollback (env : rollback_env) (opts : List Char) (args : List (List Char)) :
    rollback_result × rollback_state :=
  let cb0 : rollback_cbdata_t :=
    { cb_create := 0, cb_first := false, cb_doclones := 0, cb_target := [], cb_error := 0,
      cb_recurse := false, cb_dependent := false }
  let st0 : rollback_state := { cb := cb0, reported := [], rollback_calls := [] }
  match rollback_getopt opts (0, cb0) with
  | none => (.exited 2, st0)
  | some (force, cb) =>
    let st1 : rollback_state := { st0 with cb := cb }
    match args with
    | [] => (.exited 2, st1)
    | _ :: _ :: _ => (.exited 2, st1)
    | [arg] =>
      match env.zfs_open arg zfs_type_t.ZFS_TYPE_SNAPSHOT.bit with
      | none => (.returned 1, st1)
      | some snap =>
        let parentname := arg.take (ZFS_MAXNAMELEN - 1)
        match (parentname.reverse).indexOf? '@' with
        | none => (.verify_failed, st1)
        | some i =>
          match env.zfs_open (parentname.take (parentname.length - 1 - i)) ZFS_TYPE_ANY with
          | none => (.returned 1, st1)
          | some zhp =>
            let st2 : rollback_state :=
              { st1 with cb := { cb with cb_target := arg, cb_create := env.createtxg snap,
                                         cb_first := true, cb_error := 0 } }
            let it := zfs_iter_children env zhp (rollback_check env) st2
            if it.1 ≠ 0 then (.returned 1, it.2)
            else if it.2.cb.cb_error ≠ 0 then (.returned 1, it.2)
            else
              let ret := env.zfs_rollback zhp snap force
              (.returned (if ret = 0 then 0 else 1),
                { it.2 with rollback_calls :=
                    it.2.rollback_calls ++ [((zhp.zfs_name, snap.zfs_name, force), ret)] })

/-- A library for the rollback examples: `tank/fs@a` (created in txg 10) and
`tank/fs@b` (txg 20) are the snapshots of `tank/fs`. -/
def demo_rollback_env : rollback_env where
  zfs_open := fun name types =>
    if name = "tank/fs@a".toList then some ⟨name, .ZFS_TYPE_SNAPSHOT⟩
    else if name = "tank/fs".toList ∧ types = ZFS_TYPE_ANY then
      some ⟨name, .ZFS_TYPE_FILESYSTEM⟩
    else none
  createtxg := fun zhp => if zhp.zfs_name = "tank/fs@b".toList then 20 else 10
  children := fun _ =>
    some [⟨"tank/fs@a".toList, .ZFS_TYPE_SNAPSHOT⟩, ⟨"tank/fs@b".toList, .ZFS_TYPE_SNAPSHOT⟩]
  get_dependents := fun _ _ => some []
  zfs_rollback := fun _ _ _ => 0

/-! ## zfs_vfsops.c -/

/-- Input/output error. -/
def EIO : Int := 5
/-- Read-only file system. -/
def EROFS : Int := 30

/-- The flag `VFS_RDONLY` of `sys/vfs.h`: read-only vfs. -/
def VFS_RDONLY : Nat := 0x01
/-- The flag `VFS_NOSETUID`: setuid disallowed. -/
def VFS_NOSETUID : Nat := 0x08
/-- The flag `VFS_NOTRUNC`: long file names are not truncated. -/
def VFS_NOTRUNC : Nat := 0x20
/-- The flag `VFS_NODEVICES`: device-special files disallowed. -/
def VFS_NODEVICES : Nat := 0x800
/-- The flag `VFS_NOEXEC`: executables disallowed. -/
def VFS_NOEXEC : Nat := 0x1000

/-- The mount option names of `sys/mntent.h`. -/
def MNTOPT_RO : String := "ro"
/-- Read and write. -/
def MNTOPT_RW : String := "rw"
/-- No setuid and no devices. -/
def MNTOPT_NOSUID : String := "nosuid"
/-- No devices. -/
def MNTOPT_NODEVICES : String := "nodevices"
/-- Devices allowed. -/
def MNTOPT_DEVICES : String := "devices"
/-- No setuid. -/
def MNTOPT_NOSETUID : String := "nosetuid"
/-- Setuid allowed. -/
def MNTOPT_SETUID : String := "setuid"
/-- No execution. -/
def MNTOPT_NOEXEC : String := "noexec"
/-- Execution allowed. -/
def MNTOPT_EXEC : String := "exec"
/-- Access times are updated. -/
def MNTOPT_ATIME : String := "atime"
/-- Access times are not updated. -/
def MNTOPT_NOATIME : String := "noatime"

/-- The open modes of `sys/dmu.h`. -/
def DS_MODE_PRIMARY : Nat := 2
/-- Open read-only. -/
def DS_MODE_READONLY : Nat := 0x8
/-- The objset type of a ZFS file system. -/
def DMU_OST_ZFS : Nat := 2
/-- Largest block size, `SPA_MAXBLOCKSIZE` (128K). -/
def SPA_MAXBLOCKSIZE : Nat := 131072
/-- The assign mode `TXG_NOWAIT` of `sys/txg.h`. -/
def TXG_NOWAIT : Nat := 2
/-- The value `ZFS_SNAPDIR_VISIBLE` of the snapdir property. -/
def ZFS_SNAPDIR_VISIBLE : Nat := 1
/-- The shift of the smallest block size, `SPA_MINBLOCKSHIFT`. -/
def SPA_MINBLOCKSHIFT : Nat := 9

/-- The statement `flag |= bit` on a `uint_t`. -/
def flag_or (flag bit : Nat) : Nat := flag ||| bit

/-- The statement `flag &= ~bit` on a `uint_t` (32 bits). -/
def flag_andnot (flag bit : Nat) : Nat := flag &&& (0xFFFFFFFF ^^^ bit)

/-- The test `(flag & bit) != 0`. -/
def flag_isset (flag bit : Nat) : Bool := flag &&& bit ≠ 0

/-- The fields of `vfs_t` the code below touches; `vfs_data` tells whether the
pointer is set and `vfs_mntopts` is the mount option table. -/
structure vfs_t where
  vfs_flag : Nat
  vfs_bsize : Nat
  vfs_bcount : Nat
  vfs_fstype : Nat
  vfs_dev : Nat
  vfs_data : Bool
  vfs_mntopts : List String
  deriving DecidableEq, Repr

/-- The fields of `zfsvfs_t` the code below touches.  `z_os` and `z_log` are
pointers (0 is `NULL`); `delete_thread_targets` records the calls
`zfs_delete_thread_target(zfsvfs, n)` in order. -/
structure zfsvfs_t where
  z_os : Nat
  z_assign : Nat
  z_max_blksz : Nat
  z_show_ctldir : Nat
  z_atime : Bool
  z_issnap : Bool
  z_log : Nat
  z_unmounted1 : Bool
  z_op_cnt : Nat
  delete_thread_targets : List Nat
  deriving DecidableEq, Repr

/-- A mounted file system: the `vfs_t` and the `zfsvfs_t` that point to each
other through `vfs_data` and `z_vfs`. -/
structure zfs_mount_t where
  vfs : vfs_t
  zfsvfs : zfsvfs_t
  deriving DecidableEq, Repr

/-- What `zfs_vfsops.c` takes from the rest of the kernel: the mount option
table routines of the vfs layer, the DMU and DSL routines, and the value of
the local `mount_dev`, which nothing initialises. -/
structure vfs_env where
  vfs_optionisset : List String → String → Bool
  vfs_setmntopt : List String → String → List String
  vfs_clearmntopt : List String → String → List String
  dmu_objset_is_snapshot : Nat → Bool
  dsl_prop_get_integer : List Char → String → Int × Nat
  dmu_objset_open : List Char → Nat → Nat → Int × Nat
  zfs_init_fs : Nat → Nat → Int
  vfs_devismounted : Nat → Int
  zil_disable : Bool
  zil_open : Nat → Nat
  zfsfstype : Nat
  mount_dev : Nat
  dmu_objset_space : Nat → Nat × Nat × Nat × Nat

/-- The two calls `vfs_clearmntopt(vfs, off); vfs_setmntopt(vfs, on, NULL, 0)`. -/
def swap_mntopt (env : vfs_env) (vfs : vfs_t) (clr set : String) : vfs_t :=
  { vfs with vfs_mntopts := env.vfs_setmntopt (env.vfs_clearmntopt vfs.vfs_mntopts clr) set }

/-- The function `atime_changed_cb`. -/
def atime_changed_cb (env : vfs_env) (m : zfs_mount_t) (newval : Nat) : zfs_mount_t :=
  if newval = 1 then
    { vfs := swap_mntopt env m.vfs MNTOPT_NOATIME MNTOPT_ATIME,
      zfsvfs := { m.zfsvfs with z_atime := true } }
  else
    { vfs := swap_mntopt env m.vfs MNTOPT_ATIME MNTOPT_NOATIME,
      zfsvfs := { m.zfsvfs with z_atime := false } }

/-- The function `readonly_changed_cb`. -/
def readonly_changed_cb (env : vfs_env) (m : zfs_mount_t) (newval : Nat) : zfs_mount_t :=
  if newval ≠ 0 then
    { vfs := swap_mntopt env { m.vfs with vfs_flag := flag_or m.vfs.vfs_flag VFS_RDONLY }
        MNTOPT_RW MNTOPT_RO,
      zfsvfs := { m.zfsvfs with
        delete_thread_targets := m.zfsvfs.delete_thread_targets ++ [0] } }
  else
    { vfs := swap_mntopt env { m.vfs with vfs_flag := flag_andnot m.vfs.vfs_flag VFS_RDONLY }
        MNTOPT_RO MNTOPT_RW,
      zfsvfs := { m.zfsvfs with
        delete_thread_targets := m.zfsvfs.delete_thread_targets ++ [1] } }

/-- The function `devices_changed_cb`. -/
def devices_changed_cb (env : vfs_env) (m : zfs_mount_t) (newval : Nat) : zfs_mount_t :=
  if newval = 0 then
    let vfs1 : vfs_t := { m.vfs with vfs_flag := flag_or m.vfs.vfs_flag VFS_NODEVICES }
    { m with vfs := swap_mntopt env vfs1 MNTOPT_DEVICES MNTOPT_NODEVICES }
  else
    let vfs1 : vfs_t := { m.vfs with vfs_flag := flag_andnot m.vfs.vfs_flag VFS_NODEVICES }
    { m with vfs := swap_mntopt env vfs1 MNTOPT_NODEVICES MNTOPT_DEVICES }

/-- The function `setuid_changed_cb`. -/
def setuid_changed_cb (env : vfs_env) (m : zfs_mount_t) (newval : Nat) : zfs_mount_t :=
  if newval = 0 then
    let vfs1 : vfs_t := { m.vfs with vfs_flag := flag_or m.vfs.vfs_flag VFS_NOSETUID }
    { m with vfs := swap_mntopt env vfs1 MNTOPT_SETUID MNTOPT_NOSETUID }
  else
    let vfs1 : vfs_t := { m.vfs with vfs_flag := flag_andnot m.vfs.vfs_flag VFS_NOSETUID }
    { m with vfs := swap_mntopt env vfs1 MNTOPT_NOSETUID MNTOPT_SETUID }

/-- The function `exec_changed_cb`. -/
def exec_changed_cb (env : vfs_env) (m : zfs_mount_t) (newval : Nat) : zfs_mount_t :=
  if newval = 0 then
    let vfs1 : vfs_t := { m.vfs with vfs_flag := flag_or m.vfs.vfs_flag VFS_NOEXEC }
    { m with vfs := swap_mntopt env vfs1 MNTOPT_EXEC MNTOPT_NOEXEC }
  else
    let vfs1 : vfs_t := { m.vfs with vfs_flag := flag_andnot m.vfs.vfs_flag VFS_NOEXEC }
    { m with vfs := swap_mntopt env vfs1 MNTOPT_NOEXEC MNTOPT_EXEC }

/-- The test `vfs_optionisset(vfsp, opt, NULL)` on a mount. -/
def optionisset (env : vfs_env) (m : zfs_mount_t) (opt : String) : Bool :=
  env.vfs_optionisset m.vfs.vfs_mntopts opt

/-- The part of `zfs_refresh_properties` after the read-only block: devices,
setuid, exec and atime. -/
def zfs_refresh_properties_rest (env : vfs_env) (m : zfs_mount_t) : zfs_mount_t :=
  let m1 : zfs_mount_t :=
    if optionisset env m MNTOPT_NOSUID then
      setuid_changed_cb env (devices_changed_cb env m 0) 0
    else
      let a : zfs_mount_t :=
        if optionisset env m MNTOPT_NODEVICES then devices_changed_cb env m 0
        else if optionisset env m MNTOPT_DEVICES then devices_changed_cb env m 1
        else m
      if optionisset env a MNTOPT_NOSETUID then setuid_changed_cb env a 0
      else if optionisset env a MNTOPT_SETUID then setuid_changed_cb env a 1
      else a
  let m2 : zfs_mount_t :=
    if optionisset env m1 MNTOPT_NOEXEC then exec_changed_cb env m1 0
    else if optionisset env m1 MNTOPT_EXEC then exec_changed_cb env m1 1
    else m1
  if optionisset env m2 MNTOPT_ATIME then atime_changed_cb env m2 1
  else if optionisset env m2 MNTOPT_NOATIME then atime_changed_cb env m2 0
  else m2

/-- The function `zfs_refresh_properties(vfsp)`: the value returned and the
mount as it leaves it. -/
def zfs_refresh_properties (env : vfs_env) (m : zfs_mount_t) : Int × zfs_mount_t :=
  if optionisset env m MNTOPT_RO then
    (0, zfs_refresh_properties_rest env (readonly_changed_cb env m 1))
  else if !env.dmu_objset_is_snapshot m.zfsvfs.z_os then
    (0, zfs_refresh_properties_rest env (readonly_changed_cb env m 0))
  else if optionisset env m MNTOPT_RW then (EROFS, m)
  else (0, zfs_refresh_properties_rest env m)

/-- Ways in which `zfs_domount` stops without returning. -/
inductive vfs_abort where
  | assert_devismounted
  | assert_mode_readonly
  deriving DecidableEq, Repr

/-- Everything `zfs_domount` leaves behind: the value returned, the `vfs_t`,
the `zfsvfs_t` (`none` once freed), the objsets closed and whether
`zfs_active_fs_count` was incremented. -/
structure domount_out where
  error : Int
  vfs : vfs_t
  zfsvfs : Option zfsvfs_t
  closed : List Nat
  counted : Bool
  deriving DecidableEq, Repr

/-- The label `out` of `zfs_domount`. -/
def zfs_domount_out (error : Int) (m : zfs_mount_t) : domount_out :=
  if error ≠ 0 then
    { error := error, vfs := m.vfs, zfsvfs := none,
      closed := if m.zfsvfs.z_os ≠ 0 then [m.zfsvfs.z_os] else [], counted := false }
  else { error := error, vfs := m.vfs, zfsvfs := some m.zfsvfs, closed := [], counted := true }

/-- The function `zfs_domount(vfsp, osname, cr)`. -/
def zfs_domount (env : vfs_env) (vfsp : vfs_t) (osname : List Char) (cr : Nat) :
    Except vfs_abort domount_out :=
  let zfsvfs0 : zfsvfs_t :=
    { z_os := 0, z_assign := TXG_NOWAIT, z_max_blksz := SPA_MAXBLOCKSIZE,
      z_show_ctldir := ZFS_SNAPDIR_VISIBLE, z_atime := false, z_issnap := false, z_log := 0,
      z_unmounted1 := false, z_op_cnt := 0, delete_thread_targets := [] }
  let vfs0 : vfs_t := { vfsp with vfs_bcount := 0, vfs_data := false }
  if env.vfs_devismounted env.mount_dev ≠ 0 then .error .assert_devismounted
  else
    let rs := env.dsl_prop_get_integer osname "recordsize"
    if rs.1 ≠ 0 then .ok (zfs_domount_out rs.1 { vfs := vfs0, zfsvfs := zfsvfs0 })
    else
      let vfs1 : vfs_t :=
        { vfs0 with vfs_dev := env.mount_dev, vfs_fstype := env.zfsfstype,
                    vfs_bsize := rs.2 % 2 ^ 32,
                    vfs_flag := flag_or vfs0.vfs_flag VFS_NOTRUNC, vfs_data := true }
      let ro := env.dsl_prop_get_integer osname "readonly"
      if ro.1 ≠ 0 then .ok (zfs_domount_out ro.1 { vfs := vfs1, zfsvfs := zfsvfs0 })
      else
        let mode0 : Nat :=
          if ro.2 ≠ 0 then DS_MODE_PRIMARY ||| DS_MODE_READONLY else DS_MODE_PRIMARY
        let o1 := env.dmu_objset_open osname DMU_OST_ZFS mode0
        let mode : Nat := if o1.1 = EROFS then DS_MODE_PRIMARY ||| DS_MODE_READONLY else mode0
        let o : Int × Nat := if o1.1 = EROFS then env.dmu_objset_open osname DMU_OST_ZFS mode
          else o1
        if o.1 ≠ 0 then .ok (zfs_domount_out o.1 { vfs := vfs1, zfsvfs := zfsvfs0 })
        else
          let zfsvfs1 : zfsvfs_t := { zfsvfs0 with z_os := o.2 }
          let m1 : zfs_mount_t := { vfs := vfs1, zfsvfs := zfsvfs1 }
          let e := env.zfs_init_fs o.2 cr
          if e ≠ 0 then .ok (zfs_domount_out e m1)
          else if env.dmu_objset_is_snapshot o.2 then
            if mode &&& DS_MODE_READONLY = 0 then .error .assert_mode_readonly
            else
              let m2 := readonly_changed_cb env (atime_changed_cb env m1 0) 1
              .ok (zfs_domount_out 0 { m2 with zfsvfs := { m2.zfsvfs with z_issnap := true } })
          else
            let z2 : zfsvfs_t :=
              { zfsvfs1 with delete_thread_targets := zfsvfs1.delete_thread_targets ++ [1] }
            let z3 : zfsvfs_t :=
              if !env.zil_disable then { z2 with z_log := env.zil_open o.2 } else z2
            .ok (zfs_domount_out 0 { vfs := vfs1, zfsvfs := z3 })

/-- A kernel for the mount examples: the option table is a list of names, the
objset 7 is a snapshot that opens read-only only. -/
def demo_vfs_env : vfs_env where
  vfs_optionisset := fun opts o => opts.contains o
  vfs_setmntopt := fun opts o => if opts.contains o then opts else opts ++ [o]
  vfs_clearmntopt := fun opts o => opts.filter (fun x => x ≠ o)
  dmu_objset_is_snapshot := fun os => os = 7
  dsl_prop_get_integer := fun _ p => if p = "recordsize" then (0, 131072) else (0, 0)
  dmu_objset_open := fun _ _ mode => if mode &&& DS_MODE_READONLY = 0 then (EROFS, 0) else (0, 7)
  zfs_init_fs := fun _ _ => 0
  vfs_devismounted := fun _ => 0
  zil_disable := false
  zil_open := fun os => os + 100
  zfsfstype := 1
  mount_dev := 0
  dmu_objset_space := fun _ => (1048576, 2097152, 10, 5000)

/-- A snapshot mounted read-only, asked to remount with `rw` and `exec`. -/
def demo_snapshot_mount : zfs_mount_t where
  vfs := { vfs_flag := VFS_RDONLY ||| VFS_NOTRUNC, vfs_bsize := 131072, vfs_bcount := 0,
           vfs_fstype := 1, vfs_dev := 0, vfs_data := true, vfs_mntopts := ["rw", "exec"] }
  zfsvfs := { z_os := 7, z_assign := TXG_NOWAIT, z_max_blksz := SPA_MAXBLOCKSIZE,
              z_show_ctldir := ZFS_SNAPDIR_VISIBLE, z_atime := false, z_issnap := true,
              z_log := 0, z_unmounted1 := false, z_op_cnt := 0, delete_thread_targets := [0] }

/-- A `vfs_t` before its first mount. -/
def demo_vfs_fresh : vfs_t :=
  { vfs_flag := 0, vfs_bsize := 0, vfs_bcount := 5, vfs_fstype := 0, vfs_dev := 0,
    vfs_data := false, vfs_mntopts := [] }

/-- The `zfsvfs_t` that mounting the snapshot in `demo_vfs_env` creates. -/
def demo_snapshot_zfsvfs : zfsvfs_t :=
  { z_os := 7, z_assign := 2, z_max_blksz := 131072, z_show_ctldir := 1, z_atime := false,
    z_issnap := true, z_log := 0, z_unmounted1 := false, z_op_cnt := 0,
    delete_thread_targets := [0] }

/-- What mounting the snapshot in `demo_vfs_env` leaves behind. -/
def demo_domount_out : domount_out :=
  { error := 0,
    vfs := { vfs_flag := 33, vfs_bsize := 131072, vfs_bcount := 0, vfs_fstype := 1,
             vfs_dev := 0, vfs_data := true, vfs_mntopts := ["noatime", "ro"] },
    zfsvfs := some demo_snapshot_zfsvfs, closed := [], counted := true }

/-! ## zfs_ioctl.c: zfs_ioc_pool_import -/

/-- Bad address. -/
def EFAULT : Int := 14

/-- The key `ZPOOL_CONFIG_POOL_GUID` of `sys/fs/zfs.h`. -/
def ZPOOL_CONFIG_POOL_GUID : String := "pool_guid"

/-- Further fields of `zfs_cmd_t`, read by the pool handlers: the two packed
name-value lists of the caller (address and size) and the pool guid. -/
structure zfs_cmd_nvl_t where
  zc_nvlist_conf : Nat
  zc_nvlist_conf_size : Nat
  zc_nvlist_src : Nat
  zc_nvlist_src_size : Nat
  zc_guid : Nat
  deriving DecidableEq, Repr

/-- What `zfs_ioc_pool_import` takes from other files: `xcopyin(addr, size)`
with its error and the bytes copied, `nvlist_unpack` with its error and the
list, and `spa_import(name, config, props)`. -/
structure import_env where
  xcopyin : Nat → Nat → Int × List Nat
  nvlist_unpack : List Nat → Nat → Int × List nvpair_t
  spa_import : List Nat → List nvpair_t → Option (List nvpair_t) → Int

/-- The function `get_nvlist(nvl, size, nvp)`: the error and the list stored
through `nvp`. -/
def get_nvlist (env : import_env) (nvl size : Nat) : Int × Option (List nvpair_t) :=
  if size = 0 then (EINVAL, none)
  else if (env.xcopyin nvl size).1 ≠ 0 then ((env.xcopyin nvl size).1, none)
  else if (env.nvlist_unpack (env.xcopyin nvl size).2 size).1 ≠ 0 then
    ((env.nvlist_unpack (env.xcopyin nvl size).2 size).1, none)
  else (0, some (env.nvlist_unpack (env.xcopyin nvl size).2 size).2)

/-- The accessor `nvlist_lookup_uint64` of libnvpair: the value of the first
pair of that name that holds a 64-bit number, `ENOENT` when there is none. -/
def nvlist_lookup_uint64 (nvl : List nvpair_t) (name : String) : Int × Nat :=
  match nvl.find? (fun p => p.name = name ∧ nvpair_is_uint64 p) with
  | some p => nvpair_value_uint64 p
  | none => (ENOENT, 0)

/-- The function `zfs_ioc_pool_import(zc)`: the value returned and the calls
of `spa_import` with their arguments. -/
def zfs_ioc_pool_import (env : import_env) (zc : zfs_cmd_t) (nv : zfs_cmd_nvl_t) :
    Int × List (List Nat × List nvpair_t × Option (List nvpair_t)) :=
  let c := get_nvlist env nv.zc_nvlist_conf nv.zc_nvlist_conf_size
  match c.2 with
  | none => (c.1, [])
  | some config =>
    if c.1 ≠ 0 then (c.1, [])
    else
      let p : Int × Option (List nvpair_t) :=
        if nv.zc_nvlist_src_size ≠ 0 then get_nvlist env nv.zc_nvlist_src nv.zc_nvlist_src_size
        else (0, none)
      if nv.zc_nvlist_src_size ≠ 0 ∧ p.1 ≠ 0 then (p.1, [])
      else
        let g := nvlist_lookup_uint64 config ZPOOL_CONFIG_POOL_GUID
        if g.1 ≠ 0 ∨ g.2 ≠ nv.zc_guid then (EINVAL, [])
        else (env.spa_import zc.zc_name config p.2, [(zc.zc_name, config, p.2)])

/-- A kernel for the import examples: the configuration at address 1 unpacks
to a list without `pool_guid`, the one at address 2 to a list with
`pool_guid = 42`; copying in from address 9 fails with `EFAULT`. -/
def demo_import_env : import_env where
  xcopyin := fun addr _ => if addr = 9 then (EFAULT, []) else (0, [addr])
  nvlist_unpack := fun bytes _ =>
    if bytes = [2] then (0, [⟨"pool_guid", .uint64 42⟩]) else (0, [⟨"name", .string [116, 0]⟩])
  spa_import := fun _ _ _ => 0

/-! ## libzfs_pool.c: pool names, zpool_create, pool health -/

/-- The reasons `namecheck_err_t` of `zfs_namecheck.h` that `zpool_name_valid`
distinguishes. -/
inductive namecheck_err_t where
  | NAME_ERR_LEADING_SLASH
  | NAME_ERR_EMPTY_COMPONENT
  | NAME_ERR_TRAILING_SLASH
  | NAME_ERR_INVALCHAR
  | NAME_ERR_MULTIPLE_AT
  | NAME_ERR_NOLETTER
  | NAME_ERR_RESERVED
  | NAME_ERR_DISKLIKE
  | NAME_ERR_TOOLONG
  deriving DecidableEq, Repr

/-- The libzfs error codes that `zpool_create` records; `standard e` is what
`zpool_standard_error` makes of the errno `e`. -/
inductive zfs_error_t where
  | EZFS_NOMEM
  | EZFS_BADDEV
  | EZFS_BADPATH
  | EZFS_INVALIDNAME
  | standard (e : Int)
  deriving DecidableEq, Repr

/-- The test `strncmp(pool, word, n) == 0` with `n` the length of `word`. -/
def starts_with (pool word : List Char) : Bool := pool.take word.length = word

/-- The name is one of the reserved ones of `zpool_name_valid`. -/
def name_is_reserved (pool : List Char) : Bool :=
  starts_with pool "mirror".toList || starts_with pool "raidz".toList ||
    starts_with pool "spare".toList

/-- The text `zpool_name_valid` hands to `zfs_error_aux` for a reason. -/
def namecheck_message (why : namecheck_err_t) (what : Char) : String :=
  match why with
  | .NAME_ERR_TOOLONG => "name is too long"
  | .NAME_ERR_INVALCHAR => "invalid character '" ++ String.singleton what ++ "' in pool name"
  | .NAME_ERR_NOLETTER => "name must begin with a letter"
  | .NAME_ERR_RESERVED => "name is reserved"
  | .NAME_ERR_DISKLIKE => "pool name is reserved"
  | .NAME_ERR_LEADING_SLASH => "leading slash in name"
  | .NAME_ERR_EMPTY_COMPONENT => "empty component in name"
  | .NAME_ERR_TRAILING_SLASH => "trailing slash in name"
  | .NAME_ERR_MULTIPLE_AT => "multiple '@' delimiters in name"

/-- The function `zpool_name_valid(hdl, isopen, pool)`: its value and the text
recorded by `zfs_error_aux`, if any.  `pool_namecheck` (of `zfs_namecheck.c`)
yields its value, the reason and the offending character; `hdl` tells whether
the handle is not `NULL`. -/
def zpool_name_valid (pool_namecheck : List Char → Int × namecheck_err_t × Char)
    (hdl : Bool) (isopen : Bool) (pool : List Char) : Bool × Option String :=
  let ret := (pool_namecheck pool).1
  if ret = 0 ∧ !isopen ∧ name_is_reserved pool then (false, some "name is reserved")
  else if ret ≠ 0 then
    if hdl then
      (false, some (namecheck_message (pool_namecheck pool).2.1 (pool_namecheck pool).2.2))
    else (false, none)
  else (true, none)

/-- What `zpool_create` takes from other files: the name check, whether
`nvlist_size`, `zfs_alloc` and `nvlist_pack` succeed, the errno the ioctl
`ZFS_IOC_POOL_CREATE` leaves (0 when it succeeds), and whether `zfs_open` and
`zfs_prop_set` succeed. -/
structure zpool_create_env where
  pool_namecheck : List Char → Int × namecheck_err_t × Char
  nvlist_size_ok : Bool
  zfs_alloc_ok : Bool
  nvlist_pack_ok : Bool
  ioctl_pool_create : List Char → Option (List Char) → Int
  zfs_open_ok : Bool
  zfs_prop_set_ok : Bool

/-- Everything `zpool_create` leaves behind: the value returned, the error
code and the auxiliary text recorded in the handle, the request codes issued
and the properties set. -/
structure zpool_create_out where
  ret : Int
  libzfs_error : Option zfs_error_t
  aux : Option String
  ioctls : List zfs_ioc_t
  prop_sets : List (List Char × String × String)
  deriving DecidableEq, Repr

/-- Modelled from the spec: `zfs_error(hdl, error, msg)` of `libzfs_util.c`
(not among the files at hand): it records the error code in the handle and
returns -1; `no_memory` is `zfs_error` with `EZFS_NOMEM` and
`zpool_standard_error` maps the errno and does the same. -/
def zfs_error (code : zfs_error_t) (aux : Option String) (ioctls : List zfs_ioc_t) :
    zpool_create_out :=
  { ret := -1, libzfs_error := some code, aux := aux, ioctls := ioctls, prop_sets := [] }

/-- Ways in which `zpool_create` stops without returning. -/
inductive zpool_abort where
  | verify_zfs_open
  | verify_zfs_prop_set
  deriving DecidableEq, Repr

/-- Device or resource busy. -/
def EBUSY : Int := 16
/-- No space left on device. -/
def ENOSPC : Int := 28
/-- Value too large. -/
def EOVERFLOW : Int := 75

/-- The function `zpool_create(hdl, pool, nvroot, altroot)`; `altroot` is
`none` for `NULL`. -/
def zpool_create (env : zpool_create_env) (pool : List Char) (altroot : Option (List Char)) :
    Except zpool_abort zpool_create_out :=
  let v := zpool_name_valid env.pool_namecheck true false pool
  if !v.1 then .ok (zfs_error .EZFS_INVALIDNAME v.2 [])
  else if altroot ≠ none ∧ (altroot.getD []).head? ≠ some '/' then
    .ok (zfs_error .EZFS_BADPATH none [])
  else if !env.nvlist_size_ok then .ok (zfs_error .EZFS_NOMEM none [])
  else if !env.zfs_alloc_ok then
    .ok { ret := -1, libzfs_error := none, aux := none, ioctls := [], prop_sets := [] }
  else if !env.nvlist_pack_ok then .ok (zfs_error .EZFS_NOMEM none [])
  else
    let errno := env.ioctl_pool_create pool altroot
    if errno ≠ 0 then
      if errno = EBUSY then
        .ok (zfs_error .EZFS_BADDEV (some "one or more vdevs refer to the same device")
          [.ZFS_IOC_POOL_CREATE])
      else if errno = EOVERFLOW then
        .ok (zfs_error .EZFS_BADDEV (some "one or more devices is less than the minimum size")
          [.ZFS_IOC_POOL_CREATE])
      else if errno = ENOSPC then
        .ok (zfs_error .EZFS_BADDEV (some "one or more devices is out of space")
          [.ZFS_IOC_POOL_CREATE])
      else .ok (zfs_error (.standard errno) none [.ZFS_IOC_POOL_CREATE])
    else if altroot ≠ none then
      if !env.zfs_open_ok then .error .verify_zfs_open
      else if !env.zfs_prop_set_ok then .error .verify_zfs_prop_set
      else
        .ok { ret := 0, libzfs_error := none, aux := none, ioctls := [.ZFS_IOC_POOL_CREATE],
              prop_sets := [(pool, "mountpoint", "/")] }
    else
      .ok { ret := 0, libzfs_error := none, aux := none, ioctls := [.ZFS_IOC_POOL_CREATE],
            prop_sets := [] }

/-- A library for the pool creation examples: every name passes
`pool_namecheck` and every step succeeds. -/
def demo_zpool_create_env : zpool_create_env where
  pool_namecheck := fun _ => (0, .NAME_ERR_TOOLONG, 'x')
  nvlist_size_ok := true
  zfs_alloc_ok := true
  nvlist_pack_ok := true
  ioctl_pool_create := fun _ _ => 0
  zfs_open_ok := true
  zfs_prop_set_ok := true

/-! ## libzfs_mount.c: remove_mountpoint -/

/-- The states `vdev_state_t` of `sys/fs/zfs.h`, as numbers. -/
def VDEV_STATE_UNKNOWN : Nat := 0
/-- Not currently open. -/
def VDEV_STATE_CLOSED : Nat := 1
/-- Not allowed to open. -/
def VDEV_STATE_OFFLINE : Nat := 2
/-- Tried to open, but failed. -/
def VDEV_STATE_CANT_OPEN : Nat := 3
/-- Replicated vdev with unhealthy kids. -/
def VDEV_STATE_DEGRADED : Nat := 4
/-- Presumed good. -/
def VDEV_STATE_HEALTHY : Nat := 5

/-- The keys of the pool configuration used by `set_pool_health`. -/
def ZPOOL_CONFIG_VDEV_TREE : String := "vdev_tree"
/-- The statistics of a vdev. -/
def ZPOOL_CONFIG_STATS : String := "stats"
/-- The health of the pool. -/
def ZPOOL_CONFIG_POOL_HEALTH : String := "pool_health"

/-- A value of a pool configuration that is not itself a list. -/
inductive cfg_leaf where
  | uint64 (v : Nat)
  | string (s : String)
  | uint64_array (a : List Nat)
  deriving DecidableEq, Repr

/-- A value of a pool configuration: a leaf or a nested list of leaves. -/
inductive cfg_value where
  | leaf (v : cfg_leaf)
  | nvlist (l : List (String × cfg_leaf))
  deriving DecidableEq, Repr

/-- The call `nvlist_lookup_nvlist(config, name, &nvroot)`: the first pair of
that name that holds a list. -/
def cfg_lookup_nvlist : List (String × cfg_value) → String → Option (List (String × cfg_leaf))
  | [], _ => none
  | (k, .nvlist l) :: rest, name =>
    if k = name then some l else cfg_lookup_nvlist rest name
  | _ :: rest, name => cfg_lookup_nvlist rest name

/-- The call `nvlist_lookup_uint64_array(nvroot, name, &vs, &vsc)`: the first
pair of that name that holds an array of 64-bit numbers. -/
def cfg_lookup_uint64_array : List (String × cfg_leaf) → String → Option (List Nat)
  | [], _ => none
  | (k, .uint64_array a) :: rest, name =>
    if k = name then some a else cfg_lookup_uint64_array rest name
  | _ :: rest, name => cfg_lookup_uint64_array rest name

/-- The field `vs_state` of a `vdev_stat_t` laid over an array of 64-bit
numbers: the second one, after `vs_timestamp`. -/
def vs_state (vs : List Nat) : Nat := vs.getD 1 0

/-- How `set_pool_health` ends: it returns the value of `nvlist_add_string`
after that call was made with a health string, or it aborts (a `verify`
fails, or the state is none of the cases of the switch). -/
inductive health_result where
  | returned (v : Int) (health : String)
  | aborted
  deriving DecidableEq, Repr

/-- The function `set_pool_health(config)`.  `dgettext` is the message
catalogue and `nvlist_add_string` the result of adding the string under the
key. -/
def set_pool_health (dgettext : String → String)
    (nvlist_add_string : List (String × cfg_value) → String → String → Int)
    (config : List (String × cfg_value)) : health_result :=
  match cfg_lookup_nvlist config ZPOOL_CONFIG_VDEV_TREE with
  | none => .aborted
  | some nvroot =>
    match cfg_lookup_uint64_array nvroot ZPOOL_CONFIG_STATS with
    | none => .aborted
    | some vs =>
      let finish (health : String) : health_result :=
        .returned (nvlist_add_string config ZPOOL_CONFIG_POOL_HEALTH health) health
      if vs_state vs = VDEV_STATE_CLOSED ∨ vs_state vs = VDEV_STATE_CANT_OPEN ∨
          vs_state vs = VDEV_STATE_OFFLINE then finish (dgettext "FAULTED")
      else if vs_state vs = VDEV_STATE_DEGRADED then finish (dgettext "DEGRADED")
      else if vs_state vs = VDEV_STATE_HEALTHY then finish (dgettext "ONLINE")
      else .aborted

/-- A pool configuration whose root vdev reports the state `st`. -/
def demo_pool_config (st : Nat) : List (String × cfg_value) :=
  [("name", .leaf (.string "tank")),
   ("vdev_tree", .nvlist [("type", .string "root"), ("stats", .uint64_array [1000, st, 0])])]

/-! ## zfs_vfsops.c: zfs_statvfs -/

/-- The fields of `struct statvfs64` that `zfs_statvfs` writes. -/
structure statvfs64 where
  f_frsize : Nat
  f_bsize : Nat
  f_blocks : Nat
  f_bfree : Nat
  f_bavail : Nat
  f_files : Nat
  f_ffree : Nat
  f_favail : Nat
  f_namemax : Nat
  f_fstr : List Nat
  deriving DecidableEq, Repr

/-- Modelled from the spec: the macro `ZFS_ENTER(zfsvfs)` of
`sys/zfs_znode.h`, which is not among the files at hand: it counts the caller
in `z_op_cnt` and lets it in unless the file system is being unmounted by
force (`z_unmounted1`, set by `zfs_umount`), in which case the enclosing
function returns `EIO`.  The value is `none` in that case. -/
def ZFS_ENTER (z : zfsvfs_t) : Option zfsvfs_t :=
  if z.z_unmounted1 then none else some { z with z_op_cnt := z.z_op_cnt + 1 }

/-- Modelled from the spec: the macro `ZFS_EXIT(zfsvfs)` of
`sys/zfs_znode.h`: it counts the caller out of `z_op_cnt`. -/
def ZFS_EXIT (z : zfsvfs_t) : zfsvfs_t := { z with z_op_cnt := z.z_op_cnt - 1 }

/-- The function `zfs_statvfs(vfsp, statp)`: the value returned, the
structure behind `statp` and the `zfsvfs_t` afterwards.  The four values of
`dmu_objset_space` are `uint64_t`. -/
def zfs_statvfs (env : vfs_env) (m : zfs_mount_t) (statp : statvfs64) :
    Int × statvfs64 × zfsvfs_t :=
  match ZFS_ENTER m.zfsvfs with
  | none => ( EIO, statp, m.zfsvfs)
  | some z =>
    let sp := env.dmu_objset_space z.z_os
    let refdbytes := sp.1 % U64
    let availbytes := sp.2.1 % U64
    let usedobjs := sp.2.2.1 % U64
    let availobjs := sp.2.2.2 % U64
    let f_blocks := ((refdbytes + availbytes) % U64) >>> SPA_MINBLOCKSHIFT
    let f_bfree := availbytes >>> SPA_MINBLOCKSHIFT
    let f_ffree := min availobjs f_bfree
    (0,
      { statp with
        f_frsize := 1 <<< SPA_MINBLOCKSHIFT, f_bsize := z.z_max_blksz,
        f_blocks := f_blocks, f_bfree := f_bfree, f_bavail := f_bfree,
        f_ffree := f_ffree, f_favail := f_ffree,
        f_files := (f_ffree + usedobjs) % U64,
        f_namemax := ZFS_MAXNAMELEN, f_fstr := statp.f_fstr.map (fun _ => 0) },
      ZFS_EXIT z)

/-- A `struct statvfs64` before the call. -/
def demo_statvfs : statvfs64 :=
  { f_frsize := 0, f_bsize := 0, f_blocks := 0, f_bfree := 0, f_bavail := 0, f_files := 0,
    f_ffree := 0, f_favail := 0, f_namemax := 0, f_fstr := List.replicate 32 7 }

/-! ## zfs_main.c: unshare_unmount -/

/-- The constant `OP_SHARE`. -/
def OP_SHARE : Nat := 0x1

/-- The constant `OP_MOUNT`. -/
def OP_MOUNT : Nat := 0x2

/-- The constant `MS_FORCE`, which `sys/mount.h` of libsolcompat defines as the
`MNT_FORCE` of the platform. -/
def MS_FORCE : Int := 1

/-- The file system type `MNTTYPE_ZFS` of a mount table entry. -/
def MNTTYPE_ZFS : List Char := "zfs".toList

/-- The function `strcmp` of the C library on strings without a NUL: negative,
zero or positive as the first string is below, equal to or above the second in
the byte-wise order. -/
def strcmp : List Char → List Char → Int
  | [], [] => 0
  | [], _ :: _ => -1
  | _ :: _, [] => 1
  | a :: l, b :: r => if a = b then strcmp l r else if a < b then -1 else 1

/-- The structure `struct mnttab`, as far as `unshare_unmount` reads it. -/
structure mnttab where
  mnt_special : List Char
  mnt_mountp : List Char
  mnt_fstype : List Char
  deriving DecidableEq, Repr

/-- The structure `unshare_unmount_node_t`. -/
structure unshare_unmount_node_t where
  un_zhp : zfs_handle_t
  un_mountp : List Char
  deriving DecidableEq, Repr

/-- The function `unshare_unmount_compare`. -/
def unshare_unmount_compare (l r : unshare_unmount_node_t) : Int :=
  strcmp l.un_mountp r.un_mountp

/-- Modelled from the spec: `uu_avl_find` of libuutil, which is not among the
files at hand.  The tree is the list of its nodes in ascending order of the
comparison function; the node found is one that compares equal. -/
def uu_avl_find {α : Type} (cmp : α → α → Int) (tree : List α) (node : α) : Option α :=
  tree.find? (fun x => cmp x node == 0)

/-- Modelled from the spec: `uu_avl_insert` of libuutil at the place
`uu_avl_find` reported: before the first node above the new one. -/
def uu_avl_insert {α : Type} (cmp : α → α → Int) : List α → α → List α
  | [], node => [node]
  | x :: t, node => if cmp node x < 0 then node :: x :: t else x :: uu_avl_insert cmp t node

/-- Modelled from the spec: the walk of libuutil started with
`UU_WALK_REVERSE`: the nodes from the last to the first. -/
def uu_avl_walk_reverse {α : Type} (tree : List α) : List α := tree.reverse

/-- A call that the walk of `unshare_unmount` makes. -/
inductive unmount_call where
  | zfs_unshare (zhp : zfs_handle_t) (mountp : List Char)
  | zfs_unmount (zhp : zfs_handle_t) (mountp : List Char) (flags : Int)
  deriving DecidableEq, Repr

/-- The mountpoint passed in a call. -/
def unmount_call.mountp : unmount_call → List Char
  | .zfs_unshare _ m => m
  | .zfs_unmount _ m _ => m

/-- The surroundings of `unshare_unmount`: the entries `getmntent` yields,
`zfs_open(g_zfs, name, ZFS_TYPE_FILESYSTEM)`, `zfs_prop_get` of the property
chosen by the operation (`none` when it fails), the results of `zfs_unshare` and
`zfs_unmount` after the calls made so far, and the result of the branch for a
single operand. -/
structure unmount_env where
  mnttab_file : List mnttab
  zfs_open : List Char → Option zfs_handle_t
  zfs_prop_get : zfs_handle_t → Nat → Option (List Char)
  zfs_unshare : List unmount_call → zfs_handle_t → List Char → Int
  zfs_unmount : List unmount_call → zfs_handle_t → List Char → Int → Int
  one_operand : Nat → Int → List Char → Int

/-- How `unshare_unmount` ends: it returns, it exits through `usage`, or a
`verify` fails. -/
inductive unmount_result where
  | returned (v : Int)
  | exited (status : Int)
  | verify_failed
  deriving DecidableEq, Repr

/-- The result of `unshare_unmount` and the calls of its walk, in order. -/
structure unmount_out where
  result : unmount_result
  calls : List unmount_call
  deriving DecidableEq, Repr

/-- The option loop of `unshare_unmount`: `do_all` and `flags`, `none` when a
letter leads to `usage`.  The letters are "a" for `OP_SHARE` and "af"
otherwise. -/
def unshare_unmount_getopt (type : Nat) : List Char → Bool × Int → Option (Bool × Int)
  | [], s => some s
  | c :: rest, s =>
    if c = 'a' then unshare_unmount_getopt type rest (true, s.2)
    else if c = 'f' ∧ type ≠ OP_SHARE then unshare_unmount_getopt type rest (s.1, MS_FORCE)
    else none

/-- The loop of `unshare_unmount` over the mount table: `ret` and the tree
after it, `none` when the `verify` of `zfs_prop_get` fails. -/
def unshare_unmount_collect (env : unmount_env) (type : Nat) :
    List mnttab → Int × List unshare_unmount_node_t →
      Option (Int × List unshare_unmount_node_t)
  | [], s => some s
  | entry :: rest, (ret, tree) =>
    if strcmp entry.mnt_fstype MNTTYPE_ZFS ≠ 0 then
      unshare_unmount_collect env type rest (ret, tree)
    else if has_char entry.mnt_special '@' then
      unshare_unmount_collect env type rest (ret, tree)
    else
      match env.zfs_open entry.mnt_special with
      | none => unshare_unmount_collect env type rest (1, tree)
      | some zhp =>
        match env.zfs_prop_get zhp type with
        | none => none
        | some property =>
          if (type = OP_SHARE ∧ strcmp property "off".toList = 0) ∨
              (type = OP_MOUNT ∧ strcmp property "legacy".toList = 0) then
            unshare_unmount_collect env type rest (ret, tree)
          else
            let node : unshare_unmount_node_t := { un_zhp := zhp, un_mountp := entry.mnt_mountp }
            match uu_avl_find unshare_unmount_compare tree node with
            | none =>
              unshare_unmount_collect env type rest
                (ret, uu_avl_insert unshare_unmount_compare tree node)
            | some _ => unshare_unmount_collect env type rest (ret, tree)

/-- The loop of `unshare_unmount` over the nodes the walk yields: `ret` and
the calls made. -/
def unshare_unmount_walk (env : unmount_env) (type : Nat) (flags : Int) :
    List unshare_unmount_node_t → Int × List unmount_call → Int × List unmount_call
  | [], s => s
  | node :: rest, (ret, calls) =>
    if type = OP_SHARE then
      unshare_unmount_walk env type flags rest
        (if env.zfs_unshare calls node.un_zhp node.un_mountp ≠ 0 then 1 else ret,
          calls ++ [.zfs_unshare node.un_zhp node.un_mountp])
    else if type = OP_MOUNT then
      unshare_unmount_walk env type flags rest
        (if env.zfs_unmount calls node.un_zhp node.un_mountp flags ≠ 0 then 1 else ret,
          calls ++ [.zfs_unmount node.un_zhp node.un_mountp flags])
    else unshare_unmount_walk env type flags rest (ret, calls)

/-- The function `unshare_unmount(type, argc, argv)`: `opts` are the option
letters that `getopt` yields and `args` the operands after them.  The creation
of the pool, the tree, the nodes and the walk is taken to succeed; the branch
for one operand is the field `one_operand` of the surroundings. -/
def unshare_unmount (env : unmount_env) (type : Nat) (opts : List Char)
    (args : List (List Char)) : unmount_out :=
  match unshare_unmount_getopt type opts (false, 0) with
  | none => { result := .exited 2, calls := [] }
  | some (do_all, flags) =>
    if do_all then
      if args.length ≠ 0 then { result := .exited 2, calls := [] }
      else
        match unshare_unmount_collect env type env.mnttab_file (0, []) with
        | none => { result := .verify_failed, calls := [] }
        | some (ret, tree) =>
          let w := unshare_unmount_walk env type flags (uu_avl_walk_reverse tree) (ret, [])
          { result := .returned w.1, calls := w.2 }
    else
      match args with
      | [arg] => { result := .returned (env.one_operand type flags arg), calls := [] }
      | _ => { result := .exited 2, calls := [] }

/-- A mount table with a file system beneath another, an entry of another
type, a snapshot, a legacy mount and a repeated mountpoint. -/
def demo_unmount_env : unmount_env :=
  { mnttab_file :=
      [ { mnt_special := "tank".toList, mnt_mountp := "/tank".toList, mnt_fstype := "zfs".toList },
        { mnt_special := "proc".toList, mnt_mountp := "/proc".toList, mnt_fstype := "proc".toList },
        { mnt_special := "tank/a/b".toList, mnt_mountp := "/tank/a/b".toList,
          mnt_fstype := "zfs".toList },
        { mnt_special := "tank/a".toList, mnt_mountp := "/tank/a".toList,
          mnt_fstype := "zfs".toList },
        { mnt_special := "tank@s".toList, mnt_mountp := "/snap".toList,
          mnt_fstype := "zfs".toList },
        { mnt_special := "old".toList, mnt_mountp := "/old".toList, mnt_fstype := "zfs".toList },
        { mnt_special := "tank/c".toList, mnt_mountp := "/tank/a".toList,
          mnt_fstype := "zfs".toList },
        { mnt_special := "home".toList, mnt_mountp := "/home".toList,
          mnt_fstype := "zfs".toList } ],
    zfs_open := fun name => some { zfs_name := name, zfs_type := .ZFS_TYPE_FILESYSTEM },
    zfs_prop_get := fun zhp _ =>
      some (if zhp.zfs_name = "old".toList then "legacy".toList else '/' :: zhp.zfs_name),
    zfs_unshare := fun _ _ _ => 0,
    zfs_unmount := fun _ zhp _ _ => if zhp.zfs_name = "home".toList then 1 else 0,
    one_operand := fun _ _ _ => 0 }

/-! ## libzfs_pool.c: zpool_get_errlog -/

/-- Out of memory. -/
def ENOMEM : Int := 12

/-- The key `ZPOOL_CONFIG_ERRCOUNT`. -/
def ZPOOL_CONFIG_ERRCOUNT : String := "error_count"
/-- The key `ZPOOL_ERR_DATASET`. -/
def ZPOOL_ERR_DATASET : String := "dataset"
/-- The key `ZPOOL_ERR_OBJECT`. -/
def ZPOOL_ERR_OBJECT : String := "object"
/-- The key `ZPOOL_ERR_RANGE`. -/
def ZPOOL_ERR_RANGE : String := "range"

/-- Modelled from the spec: the type `zbookmark_t`, whose declaration is not
among the files at hand: the four 64-bit words `zpool_get_errlog` reads
(`zb_level` is an `int64_t`, held here as its bit pattern). -/
structure zbookmark_t where
  zb_objset : Nat
  zb_object : Nat
  zb_level : Nat
  zb_blkid : Nat
  deriving DecidableEq, Repr

/-- The `n` bytes of a word in memory, lowest first. -/
def le_bytes : Nat → Nat → List Nat
  | 0, _ => []
  | n + 1, x => x % 256 :: le_bytes n (x / 256)

/-- The bytes of a `zbookmark_t` in memory: the four words one after another,
without padding. -/
def zbookmark_bytes (zb : zbookmark_t) : List Nat :=
  le_bytes 8 zb.zb_objset ++ le_bytes 8 zb.zb_object ++ le_bytes 8 zb.zb_level ++
    le_bytes 8 zb.zb_blkid

/-- The size `sizeof (zbookmark_t)`. -/
def sizeof_zbookmark_t : Nat := 32

/-- The function `memcmp` of the C library on two areas of at least `n` bytes:
negative, zero or positive as the first differing byte is lower or higher in
the first area. -/
def memcmp : List Nat → List Nat → Nat → Int
  | _, _, 0 => 0
  | [], _, _ + 1 => 0
  | _ :: _, [], _ + 1 => 0
  | a :: l, b :: r, n + 1 => if a = b then memcmp l r n else if a < b then -1 else 1

/-- The function `zbookmark_compare`. -/
def zbookmark_compare (a b : zbookmark_t) : Int :=
  memcmp (zbookmark_bytes a) (zbookmark_bytes b) sizeof_zbookmark_t

/-- The function `qsort` of the C library with a comparison function.  Where
only equal elements compare equal, as with `zbookmark_compare`, every sorting
routine yields the same array; this one inserts each element in turn. -/
def qsort {α : Type} (cmp : α → α → Int) (base : List α) : List α :=
  base.insertionSort (fun a b => cmp a b ≤ 0)

/-- What `ZFS_IOC_ERROR_LOG` leaves behind: the value of `ioctl`, `errno`, the
area behind `zc_config_dst` and `zc_config_dst_size`. -/
structure errlog_reply where
  ret : Int
  errno : Int
  dst : List zbookmark_t
  dst_size : Nat
  deriving DecidableEq, Repr

/-- The surroundings of `zpool_get_errlog`: whether `zfs_alloc` of a size
yields memory, the reply of the n-th `ZFS_IOC_ERROR_LOG` request for a
`zc_config_dst_size`, the three strings of `ZFS_IOC_BOOKMARK_NAME` (`none` when
the request fails), and the values of `nvlist_alloc` for the j-th list and of
`nvlist_add_string`. -/
structure errlog_env where
  zfs_alloc : Nat → Bool
  ioctl_error_log : Nat → Nat → errlog_reply
  ioctl_bookmark_name : zbookmark_t → Option (String × String × String)
  nvlist_alloc : Nat → Int
  nvlist_add_string : List (String × String) → String → String → Int

/-- The structure `zpool_handle_t`, as far as `zpool_get_errlog` uses it. -/
structure zpool_handle_t where
  zpool_name : String
  zpool_config : List (String × cfg_value)
  zpool_error_log : Option (List (List (String × String)))
  zpool_error_count : Nat
  deriving DecidableEq, Repr

/-- The call `nvlist_lookup_uint64(config, name, &count)`: the first pair of
that name that holds a 64-bit number. -/
def cfg_lookup_uint64 : List (String × cfg_value) → String → Option Nat
  | [], _ => none
  | (k, .leaf (.uint64 v)) :: rest, name =>
    if k = name then some v else cfg_lookup_uint64 rest name
  | _ :: rest, name => cfg_lookup_uint64 rest name

/-- The loop `for (;;)` around `ZFS_IOC_ERROR_LOG`, with the number of the
request and `zc_config_dst_size`: `none` while the loop has not ended after
`fuel` requests, `some none` when the function returns -1, otherwise the area
and `zc_config_dst_size` after the request that succeeded. -/
def errlog_ioctl_loop (env : errlog_env) :
    Nat → Nat → Nat → Option (Option (List zbookmark_t × Nat))
  | 0, _, _ => none
  | fuel + 1, attempt, dst_size =>
    let r := env.ioctl_error_log attempt dst_size
    if r.ret ≠ 0 then
      if r.errno = ENOMEM then
        if env.zfs_alloc r.dst_size then errlog_ioctl_loop env fuel (attempt + 1) r.dst_size
        else some none
      else some none
    else some (some (r.dst, r.dst_size))

/-- The test `i > 0 && memcmp(&zb[i - 1], &zb[i], sizeof (zbookmark_t)) == 0`
of both loops over the sorted array, with the element before when there is
one. -/
def errlog_repeated (prev : Option zbookmark_t) (zb_i : zbookmark_t) : Bool :=
  match prev with
  | none => false
  | some p => zbookmark_compare p zb_i == 0

/-- The loop that counts the unique elements, from the element before, the
rest of the array and `j`. -/
def errlog_count : Option zbookmark_t → List zbookmark_t → Nat → Nat
  | _, [], j => j
  | prev, zb_i :: rest, j =>
    if errlog_repeated prev zb_i then errlog_count (some zb_i) rest j
    else errlog_count (some zb_i) rest (j + 1)

/-- A call of `nvlist_add_string` on a list made with `NV_UNIQUE_NAME`: `none`
when it fails. -/
def errlog_add_string (env : errlog_env) (nv : List (String × String)) (name val : String) :
    Option (List (String × String)) :=
  if env.nvlist_add_string nv name val ≠ 0 then none
  else some (nv.filter (fun p => p.1 ≠ name) ++ [(name, val)])

/-- The conversion `%llx` of `snprintf`. -/
def fmt_llx (v : Nat) : String := String.mk (Nat.toDigits 16 (v % U64))

/-- The format "lvl=%u blkid=%llu" of `snprintf` with `(int)zb_level` and
`zb_blkid`. -/
def fmt_range (zb : zbookmark_t) : String :=
  "lvl=" ++ toString (zb.zb_level % 2 ^ 32) ++ " blkid=" ++ toString (zb.zb_blkid % U64)

/-- The body of the loop that fills in the results, for the j-th list and the
bookmark `zb[i]`: the list made, `none` on the way to `nomem`. -/
def errlog_entry (env : errlog_env) (j : Nat) (zb_i : zbookmark_t) :
    Option (List (String × String)) :=
  if env.nvlist_alloc j ≠ 0 then none
  else
    match env.ioctl_bookmark_name zb_i with
    | some (zc_prop_name, zc_prop_value, zc_filename) =>
      (errlog_add_string env [] ZPOOL_ERR_DATASET zc_prop_name).bind fun nv1 =>
      (errlog_add_string env nv1 ZPOOL_ERR_OBJECT zc_prop_value).bind fun nv2 =>
      errlog_add_string env nv2 ZPOOL_ERR_RANGE zc_filename
    | none =>
      (errlog_add_string env [] ZPOOL_ERR_DATASET (fmt_llx zb_i.zb_objset)).bind fun nv1 =>
      (errlog_add_string env nv1 ZPOOL_ERR_OBJECT (fmt_llx zb_i.zb_object)).bind fun nv2 =>
      errlog_add_string env nv2 ZPOOL_ERR_RANGE (fmt_range zb_i)

/-- The loop that fills in the results, from the element before, the rest of
the array and the lists made so far (`j` is their number): `none` on the way to
`nomem`. -/
def errlog_fill (env : errlog_env) :
    Option zbookmark_t → List zbookmark_t → List (List (String × String)) →
      Option (List (List (String × String)))
  | _, [], log => some log
  | prev, zb_i :: rest, log =>
    if errlog_repeated prev zb_i then errlog_fill env (some zb_i) rest log
    else
      match errlog_entry env log.length zb_i with
      | none => none
      | some nv => errlog_fill env (some zb_i) rest (log ++ [nv])

/-- How `zpool_get_errlog` ends: it returns a value with what it stored through
`list` and `nelem`, it stops (the `verify` fails, or it stores through a null
`list`), or the loop around `ZFS_IOC_ERROR_LOG` has not ended yet. -/
inductive errlog_result where
  | returned (ret : Int) (list : Option (List (List (String × String)))) (nelem : Option Nat)
  | aborted
  | looping
  deriving DecidableEq, Repr

/-- The function `zpool_get_errlog(zhp, list, nelem)`; `list` tells whether
the pointer `list` is not null, `fuel` bounds the requests of the loop.  The
result is how the call ends and the handle afterwards. -/
def zpool_get_errlog (env : errlog_env) (fuel : Nat) (zhp : zpool_handle_t) (list : Bool) :
    errlog_result × zpool_handle_t :=
  match zhp.zpool_error_log with
  | some log =>
    if list then (.returned 0 (some log) (some zhp.zpool_error_count), zhp)
    else (.aborted, zhp)
  | none =>
    match cfg_lookup_uint64 zhp.zpool_config ZPOOL_CONFIG_ERRCOUNT with
    | none => (.aborted, zhp)
    | some count0 =>
      let count := count0 % U64
      if ¬ env.zfs_alloc ((count * sizeof_zbookmark_t) % U64) then (.returned (-1) none none, zhp)
      else
        match errlog_ioctl_loop env fuel 0 count with
        | none => (.looping, zhp)
        | some none => (.returned (-1) none none, zhp)
        | some (some (dst, dst_size)) =>
          let count1 := (count + U64 - dst_size % U64) % U64
          let zb := qsort zbookmark_compare ((dst.drop dst_size).take count1)
          let j := errlog_count none zb 0
          if ¬ list then (.returned 0 none (some j), zhp)
          else
            let zhp1 := { zhp with zpool_error_count := j }
            if ¬ env.zfs_alloc ((j * 8) % U64) then (.returned (-1) none none, zhp1)
            else
              match errlog_fill env none zb [] with
              | none => (.returned (-1) none none, { zhp1 with zpool_error_log := none })
              | some log =>
                (.returned 0 (some log) (some zhp1.zpool_error_count),
                  { zhp1 with zpool_error_log := some log })

/-- An error log of five bookmarks, three of them different, in an area of six
of which the first is not filled, and a name service that knows one of them. -/
def demo_errlog_env : errlog_env :=
  { zfs_alloc := fun _ => true,
    ioctl_error_log := fun _ _ =>
      { ret := 0, errno := 0,
        dst := [⟨0, 0, 0, 0⟩, ⟨21, 7, 0, 3⟩, ⟨5, 260, 0, 1⟩, ⟨21, 7, 0, 3⟩, ⟨5, 4, 1, 0⟩,
          ⟨5, 260, 0, 1⟩],
        dst_size := 1 },
    ioctl_bookmark_name := fun zb =>
      if zb.zb_objset = 21 then some ("tank/home", "/a/file", "0-1ffff") else none,
    nvlist_alloc := fun _ => 0,
    nvlist_add_string := fun _ _ _ => 0 }

/-- A pool handle with six errors announced and no list cached. -/
def demo_errlog_zhp : zpool_handle_t :=
  { zpool_name := "tank", zpool_config := [("error_count", .leaf (.uint64 6))],
    zpool_error_log := none, zpool_error_count := 0 }

/-! ## dbuf.h: the buffer layer -/

/-- The type `dbuf_states_t` of `sys/dbuf.h`. -/
inductive dbuf_states_t where
  | DB_UNCACHED
  | DB_FILL
  | DB_READ
  | DB_CACHED
  | DB_EVICTING
  deriving DecidableEq, Repr

/-- The constant `TXG_SIZE` of `sys/txg.h`, which is not among the files at
hand: the number of transaction groups a buffer can be dirty in at once. -/
def TXG_SIZE : Nat := 4

/-- The constant `TXG_MASK`. -/
def TXG_MASK : Nat := TXG_SIZE - 1

/-- The fields of `dmu_buf_impl_t` of `sys/dbuf.h` that the life of a buffer
turns on: `db_data_old` tells for each slot whether the pointer is set, and
`freed` whether the buffer has been destroyed. -/
structure dmu_buf_impl_t where
  db_state : dbuf_states_t
  db_holds : Nat
  db_dirtycnt : Nat
  db_data_old : List Bool
  freed : Bool
  deriving DecidableEq, Repr

/-- An operation of `dbuf.c` on one buffer; `dbuf.c` itself is not among the
files at hand, the names are those of `sys/dbuf.h`.  `dbuf_hold` may ask for
the data, `dbuf_rele` may go on to evict, `dbuf_read_done` tells whether the
checksum verified, `dbuf_dirty` and `dbuf_sync` name the transaction group,
`dbuf_destroy` is the last arrow of the diagram of `sys/dbuf.h`. -/
inductive dbuf_op where
  | dbuf_hold (read : Bool)
  | dbuf_rele (evict : Bool)
  | dbuf_read
  | dbuf_read_done (checksum_ok : Bool)
  | dmu_buf_will_fill
  | dbuf_fill_done
  | dbuf_dirty (txg : Nat)
  | dbuf_sync (txg : Nat)
  | dbuf_clear
  | dbuf_evict
  | dbuf_destroy
  deriving DecidableEq, Repr

/-- Modelled from the spec: the allocation of a buffer of `dbuf.c`: "(alloc)"
leads to UNCACHED, with no reference and no dirty record. -/
def dbuf_create : dmu_buf_impl_t :=
  { db_state := .DB_UNCACHED, db_holds := 0, db_dirtycnt := 0,
    db_data_old := List.replicate TXG_SIZE false, freed := false }

/-- Modelled from the spec: the condition of the transition of `dbuf.c`
"CACHED --no references, no pending dirty record--> EVICTING". -/
def dbuf_evictable (db : dmu_buf_impl_t) : Bool :=
  db.db_state = .DB_CACHED ∧ db.db_holds = 0 ∧ db.db_dirtycnt = 0

/-- Modelled from the spec: one operation of `dbuf.c` on a buffer, after
section 4.2: `none` when the operation cannot be taken in this state (the
caller waits, or the buffer is gone).
* hold increments the reference count, with a READ transition if necessary; it
  waits while the buffer is mid-eviction;
* release decrements, and may take the eviction transition when its condition
  holds afterwards;
* UNCACHED goes to READ on a read request, READ to CACHED when the I/O
  completes and the checksum verifies, back to UNCACHED on a mismatch;
* UNCACHED goes to FILL on a full-block overwrite, FILL to CACHED when the
  write completes;
* a CACHED buffer dirtied in txg N remains CACHED and records an old-data
  snapshot for N if not already dirtied in N; the sync of N releases it;
* CACHED with no references and no pending dirty record goes to EVICTING, and
  from there the buffer is freed. -/
def dbuf_step (db : dmu_buf_impl_t) (op : dbuf_op) : Option dmu_buf_impl_t :=
  if db.freed then none
  else
    match op with
    | .dbuf_hold read =>
      if db.db_state = .DB_EVICTING then none
      else
        some { db with
          db_holds := db.db_holds + 1,
          db_state := if read ∧ db.db_state = .DB_UNCACHED then .DB_READ else db.db_state }
    | .dbuf_rele evict =>
      if db.db_holds = 0 then none
      else
        let db1 := { db with db_holds := db.db_holds - 1 }
        if evict ∧ dbuf_evictable db1 then some { db1 with db_state := .DB_EVICTING }
        else some db1
    | .dbuf_read =>
      if db.db_state = .DB_UNCACHED then some { db with db_state := .DB_READ }
      else if db.db_state = .DB_CACHED then some db
      else none
    | .dbuf_read_done checksum_ok =>
      if db.db_state = .DB_READ then
        some { db with db_state := if checksum_ok then .DB_CACHED else .DB_UNCACHED }
      else none
    | .dmu_buf_will_fill =>
      if db.db_state = .DB_UNCACHED then some { db with db_state := .DB_FILL } else none
    | .dbuf_fill_done =>
      if db.db_state = .DB_FILL then some { db with db_state := .DB_CACHED } else none
    | .dbuf_dirty txg =>
      if db.db_state = .DB_CACHED then
        if db.db_data_old.getD (txg &&& TXG_MASK) false then some db
        else
          some { db with
            db_data_old := db.db_data_old.set (txg &&& TXG_MASK) true,
            db_dirtycnt := db.db_dirtycnt + 1 }
      else none
    | .dbuf_sync txg =>
      if db.db_data_old.getD (txg &&& TXG_MASK) false then
        some { db with
          db_data_old := db.db_data_old.set (txg &&& TXG_MASK) false,
          db_dirtycnt := db.db_dirtycnt - 1 }
      else some db
    | .dbuf_clear =>
      if dbuf_evictable db then some { db with db_state := .DB_EVICTING } else none
    | .dbuf_evict =>
      if dbuf_evictable db then some { db with db_state := .DB_EVICTING, freed := true }
      else none
    | .dbuf_destroy =>
      if db.db_state = .DB_EVICTING then some { db with freed := true } else none

/-- The buffer after a sequence of operations, `none` when one of them cannot
be taken. -/
def dbuf_run : dmu_buf_impl_t → List dbuf_op → Option dmu_buf_impl_t
  | db, [] => some db
  | db, op :: rest =>
    match dbuf_step db op with
    | none => none
    | some db1 => dbuf_run db1 rest

/-- A property environment for the examples in which every setter succeeds. -/
def demo_prop_env_ok : prop_env where
  sec := demo_sec_env
  zfs_prop_get_type := fun _ => .PROP_TYPE_NUMBER
  zfs_prop_index_to_string := fun _ _ => 0
  setter := fun _ _ => 0

/-! # Theorems -/

/-! ## zio_compress.c -/

theorem scan_allzero_le_one (src : Nat → Nat) (srcsize : Nat) :
    ∀ fuel w, scan_allzero src srcsize fuel w = 0 ∨ scan_allzero src srcsize fuel w = 1 := by
  intro fuel
  induction fuel with
  | zero => intro w; right; rfl
  | succ n ih =>
    intro w
    simp only [scan_allzero]
    split_ifs
    · left; rfl
    · exact ih (w + 1)
    · right; rfl

theorem scan_allzero_iff (src : Nat → Nat) (srcsize : Nat) :
    ∀ fuel w, srcsize ≤ 8 * (w + fuel) →
      (scan_allzero src srcsize fuel w ≠ 0 ↔
        ∀ v, w ≤ v → 8 * v < srcsize → word64 src v = 0) := by
  intro fuel
  induction fuel with
  | zero =>
    intro w hw
    simp only [scan_allzero]
    constructor
    · intro _ v hv hlt; omega
    · intro _; exact one_ne_zero
  | succ n ih =>
    intro w hw
    simp only [scan_allzero]
    by_cases h1 : 8 * w < srcsize
    · by_cases h2 : word64 src w ≠ 0
      · rw [if_pos h1, if_pos h2]
        constructor
        · intro h; exact absurd rfl h
        · intro hall; exact absurd (hall w (le_refl w) h1) h2
      · have h2z : word64 src w = 0 := not_not.mp h2
        rw [if_pos h1, if_neg h2, ih (w + 1) (by omega)]
        constructor
        · intro hall v hv hlt
          rcases Nat.eq_or_lt_of_le hv with heq | hgt
          · rw [← heq]; exact h2z
          · exact hall v hgt hlt
        · intro hall v hv hlt
          exact hall v (by omega) hlt
    · rw [if_neg h1]
      constructor
      · intro _ v hv hlt; omega
      · intro _; exact one_ne_zero

theorem scan_allzero_top (src : Nat → Nat) (srcsize : Nat) :
    scan_allzero src srcsize (srcsize / 8 + 1) 0 ≠ 0 ↔ src_allzero src srcsize := by
  rw [scan_allzero_iff src srcsize (srcsize / 8 + 1) 0 (by omega)]
  unfold src_allzero
  constructor
  · intro h w hw; exact h w (Nat.zero_le w) hw
  · intro h w _ hw; exact h w hw

theorem src_allzero_of_bytes (src : Nat → Nat) (srcsize : Nat) (h8 : srcsize % 8 = 0)
    (hz : ∀ i, i < srcsize → src i = 0) : src_allzero src srcsize := by
  intro w hw
  unfold word64
  rw [hz (8 * w) (by omega), hz (8 * w + 1) (by omega), hz (8 * w + 2) (by omega),
    hz (8 * w + 3) (by omega), hz (8 * w + 4) (by omega), hz (8 * w + 5) (by omega),
    hz (8 * w + 6) (by omega), hz (8 * w + 7) (by omega)]
  rfl

theorem p2align_le (x : Nat) : P2ALIGN x SPA_MINBLOCKSIZE ≤ x := by
  unfold P2ALIGN; omega

theorem p2align_phase (x : Nat) : P2ALIGN x SPA_MINBLOCKSIZE % SPA_MINBLOCKSIZE = 0 := by
  unfold P2ALIGN SPA_MINBLOCKSIZE; omega

theorem p2roundup_small (x c : Nat) (hx : x < U64) (hc : c ≤ P2ALIGN x SPA_MINBLOCKSIZE) :
    P2ROUNDUP c SPA_MINBLOCKSIZE = (c + 511) / 512 * 512 ∧
      (c + 511) / 512 * 512 ≤ P2ALIGN x SPA_MINBLOCKSIZE ∧ c ≤ (c + 511) / 512 * 512 := by
  unfold P2ROUNDUP P2ALIGN SPA_MINBLOCKSIZE U64 at *
  norm_num at *
  omega

/-- The size after padding, as `zio_compress_data` computes it from the size
`c` the compressor reported: `gapsize` and the padded `ciosize`. -/
theorem padded_ciosize (x c : Nat) (hx : x < U64) (hc : c ≤ P2ALIGN x SPA_MINBLOCKSIZE) :
    (if (P2ROUNDUP c SPA_MINBLOCKSIZE + U64 - c) % U64 ≠ 0
      then (c + (P2ROUNDUP c SPA_MINBLOCKSIZE + U64 - c) % U64) % U64 else c)
      = (c + 511) / 512 * 512 := by
  obtain ⟨h1, h2, h3⟩ := p2roundup_small x c hx hc
  have hle := p2align_le x
  rw [h1]
  have hg : ((c + 511) / 512 * 512 + U64 - c) % U64 = (c + 511) / 512 * 512 - c := by
    unfold U64 at *
    norm_num at *
    omega
  rw [hg]
  unfold U64 at *
  norm_num at *
  split_ifs <;> omega

/-- The bound `destbufsize` of `zio_compress_data`. -/
theorem destbufsize_le (srcsize : Nat) :
    P2ALIGN (srcsize - (srcsize >>> 3)) SPA_MINBLOCKSIZE ≤ srcsize - srcsize / 8 := by
  have h := p2align_le (srcsize - (srcsize >>> 3))
  rw [Nat.shiftRight_eq_div_pow] at h
  rw [Nat.shiftRight_eq_div_pow]
  exact h

theorem zio_compress_data_empty (env : zio_env) (src : Nat → Nat) (srcsize : Nat) :
    zio_compress_data env ZIO_COMPRESS_EMPTY src srcsize =
      if scan_allzero src srcsize (srcsize / 8 + 1) 0 ≠ 0 then
        .ok { ret := 1, destp := some none, destsizep := some 0, destbufsizep := some 0,
              compress_calls := [], allocs := [], frees := [] }
      else
        .ok { ret := 0, destp := none, destsizep := none, destbufsizep := none,
              compress_calls := [], allocs := [], frees := [] } := by
  simp [zio_compress_data, zio_compress_table, ZIO_COMPRESS_EMPTY]

theorem zio_compress_data_lzjb (env : zio_env) (src : Nat → Nat) (srcsize : Nat)
    (hs : srcsize < U64) :
    zio_compress_data env ZIO_COMPRESS_LZJB src srcsize =
      if scan_allzero src srcsize (srcsize / 8 + 1) 0 ≠ 0 then
        .ok { ret := 1, destp := some none, destsizep := some 0, destbufsizep := some 0,
              compress_calls := [], allocs := [], frees := [] }
      else if P2ALIGN (srcsize - (srcsize >>> 3)) SPA_MINBLOCKSIZE = 0 then
        .ok { ret := 0, destp := none, destsizep := none, destbufsizep := none,
              compress_calls := [], allocs := [], frees := [] }
      else
        let destbufsize := P2ALIGN (srcsize - (srcsize >>> 3)) SPA_MINBLOCKSIZE
        let r := env.lzjb_compress src (env.zio_buf_alloc destbufsize) srcsize destbufsize
        let c := r.1 % U64
        if c > destbufsize then
          .ok { ret := 0, destp := none, destsizep := none, destbufsizep := none,
                compress_calls := [(srcsize, destbufsize)], allocs := [destbufsize],
                frees := [destbufsize] }
        else
          .ok { ret := 1,
                destp := some (some (if (c + 511) / 512 * 512 - c ≠ 0
                  then bzero r.2 c ((c + 511) / 512 * 512 - c) else r.2)),
                destsizep := some ((c + 511) / 512 * 512),
                destbufsizep := some destbufsize,
                compress_calls := [(srcsize, destbufsize)], allocs := [destbufsize],
                frees := [] } := by
  have hx : srcsize - (srcsize >>> 3) < U64 := by
    have := Nat.sub_le srcsize (srcsize >>> 3); omega
  have key : ∀ c, c ≤ P2ALIGN (srcsize - (srcsize >>> 3)) SPA_MINBLOCKSIZE →
      (P2ROUNDUP c SPA_MINBLOCKSIZE + U64 - c) % U64 = (c + 511) / 512 * 512 - c ∧
      (if (P2ROUNDUP c SPA_MINBLOCKSIZE + U64 - c) % U64 ≠ 0
        then (c + (P2ROUNDUP c SPA_MINBLOCKSIZE + U64 - c) % U64) % U64 else c)
        = (c + 511) / 512 * 512 ∧
      (c + 511) / 512 * 512 ≤ P2ALIGN (srcsize - (srcsize >>> 3)) SPA_MINBLOCKSIZE ∧
      P2PHASE ((c + 511) / 512 * 512) SPA_MINBLOCKSIZE = 0 := by
    intro c hc
    obtain ⟨h1, h2, h3⟩ := p2roundup_small _ c hx hc
    refine ⟨?_, padded_ciosize _ c hx hc, h2, ?_⟩
    · rw [h1]
      have := p2align_le (srcsize - (srcsize >>> 3))
      unfold U64 at *
      omega
    · unfold P2PHASE SPA_MINBLOCKSIZE; omega
  simp only [zio_compress_data, zio_compress_table, ZIO_COMPRESS_LZJB, ZIO_COMPRESS_EMPTY]
  simp only [List.getElem?_cons_succ, List.getElem?_cons_zero, Option.isSome_some,
    or_true, not_true_eq_false, if_false, Nat.reduceEqDiff]
  generalize P2ALIGN (srcsize - (srcsize >>> 3)) SPA_MINBLOCKSIZE = db at *
  generalize env.lzjb_compress src (env.zio_buf_alloc db) srcsize db = r
  generalize r.1 % U64 = c
  by_cases hz : scan_allzero src srcsize (srcsize / 8 + 1) 0 ≠ 0
  · rw [if_pos hz, if_pos hz]
  · rw [if_neg hz, if_neg hz]
    by_cases hd : db = 0
    · rw [if_pos hd, if_pos hd]
    · rw [if_neg hd, if_neg hd]
      by_cases hc : c > db
      · simp only [hc, if_true]
      · obtain ⟨k1, k2, k3, k4⟩ := key c (Nat.le_of_not_gt hc)
        rw [k1] at k2
        simp only [hc, if_false, k1, k2, k3, k4, not_true_eq_false]

/-- C1: zero-block elision.  For an admissible `cpfunc` (lzjb or empty) and a
source of `srcsize` bytes, `srcsize` a multiple of 8, all of them zero,
`zio_compress_data` returns 1 with `*destp = NULL`, `*destsizep = 0` and
`*destbufsizep = 0`, calls no compression function and allocates nothing. -/
theorem zio_compress_data_zero_elision (env : zio_env) (cpfunc : Nat) (src : Nat → Nat)
    (srcsize : Nat) (hcp : cpfunc = ZIO_COMPRESS_LZJB ∨ cpfunc = ZIO_COMPRESS_EMPTY)
    (h8 : srcsize % 8 = 0) (hz : ∀ i, i < srcsize → src i = 0) :
    zio_compress_data env cpfunc src srcsize =
      .ok { ret := 1, destp := some none, destsizep := some 0, destbufsizep := some 0,
            compress_calls := [], allocs := [], frees := [] } := by
  have hscan := (scan_allzero_top src srcsize).mpr (src_allzero_of_bytes src srcsize h8 hz)
  rcases hcp with h | h <;> subst h <;>
    simp [zio_compress_data, zio_compress_table, ZIO_COMPRESS_LZJB, ZIO_COMPRESS_EMPTY, hscan]

/-- Witness of C1: a zero source of 1024 bytes under lzjb. -/
theorem zio_compress_data_zero_elision_witness :
    zio_compress_data demo_zio_env ZIO_COMPRESS_LZJB (fun _ => 0) 1024 =
      .ok { ret := 1, destp := some none, destsizep := some 0, destbufsizep := some 0,
            compress_calls := [], allocs := [], frees := [] } :=
  zio_compress_data_zero_elision demo_zio_env ZIO_COMPRESS_LZJB (fun _ => 0) 1024
    (Or.inl rfl) (by decide) (fun _ _ => rfl)

theorem zio_compress_data_inadmissible (env : zio_env) (cpfunc : Nat) (src : Nat → Nat)
    (srcsize : Nat) (h3 : cpfunc ≠ ZIO_COMPRESS_LZJB) (h4 : cpfunc ≠ ZIO_COMPRESS_EMPTY)
    (r : zio_compress_out) : zio_compress_data env cpfunc src srcsize ≠ .ok r := by
  unfold ZIO_COMPRESS_LZJB at h3
  unfold ZIO_COMPRESS_EMPTY at h4
  match cpfunc, h3, h4 with
  | 0, _, _ => simp [zio_compress_data, zio_compress_table, ZIO_COMPRESS_EMPTY]
  | 1, _, _ => simp [zio_compress_data, zio_compress_table, ZIO_COMPRESS_EMPTY]
  | 2, _, _ => simp [zio_compress_data, zio_compress_table, ZIO_COMPRESS_EMPTY]
  | 3, h3, _ => exact absurd rfl h3
  | 4, _, h4 => exact absurd rfl h4
  | n + 5, _, _ => simp [zio_compress_data, zio_compress_table]

/-- C2: minimum saving.  For a source that is not all zero, whenever
`zio_compress_data` returns 1 the size it reports satisfies
`*destsizep ≤ *destbufsizep = P2ALIGN(srcsize - (srcsize >> 3), 512)
≤ srcsize - srcsize / 8`; for `srcsize` a multiple of 8 this is a saving of at
least one eighth. -/
theorem zio_compress_data_min_saving (env : zio_env) (cpfunc : Nat) (src : Nat → Nat)
    (srcsize : Nat) (hs : srcsize < U64) (hnz : ¬ src_allzero src srcsize)
    (r : zio_compress_out) (hr : zio_compress_data env cpfunc src srcsize = .ok r)
    (h1 : r.ret = 1) :
    ∃ ds db, r.destsizep = some ds ∧ r.destbufsizep = some db ∧ ds ≤ db ∧
      db = P2ALIGN (srcsize - (srcsize >>> 3)) SPA_MINBLOCKSIZE ∧
      db ≤ srcsize - srcsize / 8 ∧ (srcsize % 8 = 0 → 8 * ds ≤ 7 * srcsize) := by
  have hscan : ¬ scan_allzero src srcsize (srcsize / 8 + 1) 0 ≠ 0 :=
    fun h => hnz ((scan_allzero_top src srcsize).mp h)
  have hdb := destbufsize_le srcsize
  by_cases h4 : cpfunc = ZIO_COMPRESS_EMPTY
  · subst h4
    rw [zio_compress_data_empty, if_neg hscan] at hr
    cases hr
    exact absurd h1 (by decide)
  by_cases h3 : cpfunc = ZIO_COMPRESS_LZJB
  · subst h3
    have hx : srcsize - (srcsize >>> 3) < U64 := by
      have := Nat.sub_le srcsize (srcsize >>> 3); omega
    rw [zio_compress_data_lzjb env src srcsize hs, if_neg hscan] at hr
    by_cases hd : P2ALIGN (srcsize - (srcsize >>> 3)) SPA_MINBLOCKSIZE = 0
    · rw [if_pos hd] at hr
      cases hr
      simp at h1
    · rw [if_neg hd] at hr
      simp only [] at hr
      by_cases hc : (env.lzjb_compress src
          (env.zio_buf_alloc (P2ALIGN (srcsize - (srcsize >>> 3)) SPA_MINBLOCKSIZE)) srcsize
          (P2ALIGN (srcsize - (srcsize >>> 3)) SPA_MINBLOCKSIZE)).1 % U64 >
          P2ALIGN (srcsize - (srcsize >>> 3)) SPA_MINBLOCKSIZE
      · rw [if_pos hc] at hr
        cases hr
        simp at h1
      · rw [if_neg hc] at hr
        obtain ⟨_, k2, _⟩ := p2roundup_small _ _ hx (Nat.le_of_not_gt hc)
        cases hr
        refine ⟨_, _, rfl, rfl, k2, rfl, hdb, ?_⟩
        intro h8
        have := Nat.le_trans k2 hdb
        omega
  · exact absurd hr (zio_compress_data_inadmissible env cpfunc src srcsize h3 h4 r)

theorem demo_src_not_allzero : ¬ src_allzero demo_src 1024 :=
  fun h => absurd (h 0 (by decide)) (by decide)

set_option maxRecDepth 100000 in
theorem demo_zio_run :
    zio_compress_data demo_zio_env ZIO_COMPRESS_LZJB demo_src 1024 = .ok demo_zio_out := by
  rfl

/-- Witness of C2: 1024 bytes compressed to 100 are stored in 512. -/
theorem zio_compress_data_min_saving_witness :
    ∃ ds db, demo_zio_out.destsizep = some ds ∧ demo_zio_out.destbufsizep = some db ∧ ds ≤ db ∧
      db = P2ALIGN (1024 - (1024 >>> 3)) SPA_MINBLOCKSIZE ∧
      db ≤ 1024 - 1024 / 8 ∧ (1024 % 8 = 0 → 8 * ds ≤ 7 * 1024) :=
  zio_compress_data_min_saving demo_zio_env ZIO_COMPRESS_LZJB demo_src 1024 (by decide)
    demo_src_not_allzero demo_zio_out demo_zio_run rfl

/-- C3: the store-uncompressed decision.  For an admissible `cpfunc` the
function returns, and it returns 0 exactly when the source is not all zero and
`cpfunc` is `ZIO_COMPRESS_EMPTY`, or the bound
`P2ALIGN(srcsize - (srcsize >> 3), 512)` is 0, or the size the compression
function returns exceeds the bound.  Whenever it returns 0 the three output
parameters are left unwritten, and no compression function is called in the
first two cases. -/
theorem zio_compress_data_store_uncompressed (env : zio_env) (cpfunc : Nat) (src : Nat → Nat)
    (srcsize : Nat) (hcp : cpfunc = ZIO_COMPRESS_LZJB ∨ cpfunc = ZIO_COMPRESS_EMPTY)
    (hs : srcsize < U64) :
    ∃ r, zio_compress_data env cpfunc src srcsize = .ok r ∧
      (r.ret = 0 ↔ (¬ src_allzero src srcsize ∧
        (cpfunc = ZIO_COMPRESS_EMPTY ∨
          P2ALIGN (srcsize - (srcsize >>> 3)) SPA_MINBLOCKSIZE = 0 ∨
          (cpfunc = ZIO_COMPRESS_LZJB ∧
            P2ALIGN (srcsize - (srcsize >>> 3)) SPA_MINBLOCKSIZE <
              (env.lzjb_compress src
                (env.zio_buf_alloc (P2ALIGN (srcsize - (srcsize >>> 3)) SPA_MINBLOCKSIZE))
                srcsize (P2ALIGN (srcsize - (srcsize >>> 3)) SPA_MINBLOCKSIZE)).1 % U64)))) ∧
      (r.ret = 0 → r.destp = none ∧ r.destsizep = none ∧ r.destbufsizep = none) ∧
      (r.ret = 0 → (cpfunc = ZIO_COMPRESS_EMPTY ∨
          P2ALIGN (srcsize - (srcsize >>> 3)) SPA_MINBLOCKSIZE = 0) → r.compress_calls = []) := by
  have hscan := scan_allzero_top src srcsize
  rcases hcp with h | h
  · subst h
    rw [zio_compress_data_lzjb env src srcsize hs]
    by_cases hz : scan_allzero src srcsize (srcsize / 8 + 1) 0 ≠ 0
    · have hall := hscan.mp hz
      rw [if_pos hz]
      exact ⟨_, rfl, by simp [hall], by simp, by simp⟩
    · have hall : ¬ src_allzero src srcsize := fun h => hz (hscan.mpr h)
      rw [if_neg hz]
      by_cases hd : P2ALIGN (srcsize - (srcsize >>> 3)) SPA_MINBLOCKSIZE = 0
      · rw [if_pos hd]
        exact ⟨_, rfl, by simp [hall, hd], by simp, by simp⟩
      · rw [if_neg hd]
        simp only []
        by_cases hc : (env.lzjb_compress src
            (env.zio_buf_alloc (P2ALIGN (srcsize - (srcsize >>> 3)) SPA_MINBLOCKSIZE)) srcsize
            (P2ALIGN (srcsize - (srcsize >>> 3)) SPA_MINBLOCKSIZE)).1 % U64 >
            P2ALIGN (srcsize - (srcsize >>> 3)) SPA_MINBLOCKSIZE
        · rw [if_pos hc]
          refine ⟨_, rfl, ?_, by simp, ?_⟩
          · constructor
            · intro _; exact ⟨hall, Or.inr (Or.inr ⟨trivial, hc⟩)⟩
            · intro _; rfl
          · intro _ h
            rcases h with h | h
            · exact absurd h (by decide)
            · exact absurd h hd
        · rw [if_neg hc]
          refine ⟨_, rfl, ?_, by simp, by simp⟩
          constructor
          · intro h; simp at h
          · rintro ⟨_, h | h | ⟨_, h⟩⟩
            · exact absurd h (by decide)
            · exact absurd h hd
            · exact absurd h hc
  · subst h
    rw [zio_compress_data_empty]
    by_cases hz : scan_allzero src srcsize (srcsize / 8 + 1) 0 ≠ 0
    · have hall := hscan.mp hz
      rw [if_pos hz]
      exact ⟨_, rfl, by simp [hall], by simp, by simp⟩
    · have hall : ¬ src_allzero src srcsize := fun h => hz (hscan.mpr h)
      rw [if_neg hz]
      exact ⟨_, rfl, by simp [hall], by simp, by simp⟩

/-- Witness of C3: a compressor that overruns its bound leaves the block
uncompressed. -/
theorem zio_compress_data_store_uncompressed_witness :
    ∃ r, zio_compress_data demo_zio_env_big ZIO_COMPRESS_LZJB demo_src 1024 = .ok r ∧
      (r.ret = 0 ↔ (¬ src_allzero demo_src 1024 ∧
        (ZIO_COMPRESS_LZJB = ZIO_COMPRESS_EMPTY ∨
          P2ALIGN (1024 - (1024 >>> 3)) SPA_MINBLOCKSIZE = 0 ∨
          (ZIO_COMPRESS_LZJB = ZIO_COMPRESS_LZJB ∧
            P2ALIGN (1024 - (1024 >>> 3)) SPA_MINBLOCKSIZE <
              (demo_zio_env_big.lzjb_compress demo_src
                (demo_zio_env_big.zio_buf_alloc (P2ALIGN (1024 - (1024 >>> 3)) SPA_MINBLOCKSIZE))
                1024 (P2ALIGN (1024 - (1024 >>> 3)) SPA_MINBLOCKSIZE)).1 % U64)))) ∧
      (r.ret = 0 → r.destp = none ∧ r.destsizep = none ∧ r.destbufsizep = none) ∧
      (r.ret = 0 → (ZIO_COMPRESS_LZJB = ZIO_COMPRESS_EMPTY ∨
          P2ALIGN (1024 - (1024 >>> 3)) SPA_MINBLOCKSIZE = 0) → r.compress_calls = []) :=
  zio_compress_data_store_uncompressed demo_zio_env_big ZIO_COMPRESS_LZJB demo_src 1024
    (Or.inl rfl) (by decide)

/-- C4: compression selection.  For `child` and `parent` below
`ZIO_COMPRESS_FUNCTIONS` with `parent` neither INHERIT nor ON,
`zio_compress_select` returns `parent` when `child` is INHERIT,
`ZIO_COMPRESS_ON_VALUE` when `child` is ON and `child` otherwise; the result
is a concrete algorithm identifier, and selecting again with the result as
child returns the same value. -/
theorem zio_compress_select_spec (child parent : Nat)
    (hc : child < ZIO_COMPRESS_FUNCTIONS) (hp : parent < ZIO_COMPRESS_FUNCTIONS)
    (hpi : parent ≠ ZIO_COMPRESS_INHERIT) (hpo : parent ≠ ZIO_COMPRESS_ON) :
    ∃ r, zio_compress_select child parent = .ok r ∧
      r = (if child = ZIO_COMPRESS_INHERIT then parent
            else if child = ZIO_COMPRESS_ON then ZIO_COMPRESS_ON_VALUE else child) ∧
      r < ZIO_COMPRESS_FUNCTIONS ∧ r ≠ ZIO_COMPRESS_INHERIT ∧ r ≠ ZIO_COMPRESS_ON ∧
      zio_compress_select r parent = .ok r := by
  unfold ZIO_COMPRESS_FUNCTIONS at hc hp
  unfold ZIO_COMPRESS_INHERIT at hpi
  unfold ZIO_COMPRESS_ON at hpo
  interval_cases child <;> interval_cases parent <;>
    first
      | exact absurd rfl hpi
      | exact absurd rfl hpo
      | exact ⟨_, rfl, rfl, by decide, by decide, by decide, rfl⟩

/-- Witness of C4: a child set to "on" under a parent set to "uncompressed". -/
theorem zio_compress_select_spec_witness :
    ∃ r, zio_compress_select ZIO_COMPRESS_ON ZIO_COMPRESS_OFF = .ok r ∧
      r = (if ZIO_COMPRESS_ON = ZIO_COMPRESS_INHERIT then ZIO_COMPRESS_OFF
            else if ZIO_COMPRESS_ON = ZIO_COMPRESS_ON then ZIO_COMPRESS_ON_VALUE
            else ZIO_COMPRESS_ON) ∧
      r < ZIO_COMPRESS_FUNCTIONS ∧ r ≠ ZIO_COMPRESS_INHERIT ∧ r ≠ ZIO_COMPRESS_ON ∧
      zio_compress_select r ZIO_COMPRESS_OFF = .ok r :=
  zio_compress_select_spec ZIO_COMPRESS_ON ZIO_COMPRESS_OFF (by decide) (by decide)
    (by decide) (by decide)

/-! ## zfs_ioctl.c: dispatch -/

theorem handler_calls_append (a b : List ioctl_event) :
    handler_calls (a ++ b) = handler_calls a ++ handler_calls b := by
  induction a with
  | nil => rfl
  | cons x xs ih => cases x <;> simp [handler_calls, ih]

theorem handler_calls_policy (l : List lower_call) :
    handler_calls (l.map ioctl_event.policy) = [] := by
  induction l with
  | nil => rfl
  | cons x xs ih => simp [handler_calls, ih]

theorem handler_calls_namecheck (env : ioctl_env) (nc : zvec_namecheck_t) (zc : zfs_cmd_t) :
    handler_calls (ioctl_namecheck env nc zc).2 = [] := by
  cases nc <;> simp [ioctl_namecheck, handler_calls]

theorem ioctl_namecheck_error (env : ioctl_env) (nc : zvec_namecheck_t) (zc : zfs_cmd_t) :
    (ioctl_namecheck env nc zc).1 = if name_passes env nc zc then 0 else EINVAL := by
  cases nc <;> simp [ioctl_namecheck, name_passes]

/-- C6: gating of the handlers.  For an in-range command with vector entry `v`,
`zfsdev_ioctl` calls the handler `zvec_func` (once, on the terminated command)
exactly when the copy-in succeeded, the security policy of the entry returned
0 and the name passed the check of the entry; otherwise the handler is not
called and the first failure is returned: the copy-in error, else the policy
error, else `EINVAL` for the bad name. -/
theorem zfsdev_ioctl_gating (env : ioctl_env) (cmd : Int) (arg cr : Nat) (v : zfs_ioc_vec_t)
    (hv : zfs_ioc_vec[ioctl_vec_index cmd]? = some v) :
    (handler_calls (zfsdev_ioctl env cmd arg cr).2 =
      if (env.xcopyin arg).1 = 0 ∧
          (zvec_secpolicy env.sec v.zvec_secpolicy (env.xcopyin arg).2 cr).1 = 0 ∧
          name_passes env v.zvec_namecheck (terminate_name (env.xcopyin arg).2) = true
      then [(v.zvec_func, terminate_name (env.xcopyin arg).2)] else []) ∧
    ((env.xcopyin arg).1 ≠ 0 → (zfsdev_ioctl env cmd arg cr).1 = (env.xcopyin arg).1) ∧
    ((env.xcopyin arg).1 = 0 →
      (zvec_secpolicy env.sec v.zvec_secpolicy (env.xcopyin arg).2 cr).1 ≠ 0 →
      (zfsdev_ioctl env cmd arg cr).1 =
        (zvec_secpolicy env.sec v.zvec_secpolicy (env.xcopyin arg).2 cr).1) ∧
    ((env.xcopyin arg).1 = 0 →
      (zvec_secpolicy env.sec v.zvec_secpolicy (env.xcopyin arg).2 cr).1 = 0 →
      name_passes env v.zvec_namecheck (terminate_name (env.xcopyin arg).2) = false →
      (zfsdev_ioctl env cmd arg cr).1 = EINVAL) := by
  unfold zfsdev_ioctl
  rw [hv]
  simp only []
  by_cases h0 : (env.xcopyin arg).1 = 0
  · by_cases h1 : (zvec_secpolicy env.sec v.zvec_secpolicy (env.xcopyin arg).2 cr).1 = 0
    · by_cases h2 : name_passes env v.zvec_namecheck (terminate_name (env.xcopyin arg).2) = true
      · have hc : (ioctl_namecheck env v.zvec_namecheck
            (terminate_name (env.xcopyin arg).2)).1 = 0 := by
          rw [ioctl_namecheck_error, if_pos h2]
        simp only [h0, h1, h2, hc, if_true, and_self, ne_eq, not_true_eq_false,
          false_implies, true_implies, implies_true, and_true, Bool.true_eq_false]
        split_ifs <;>
          simp [handler_calls_append, handler_calls_policy, handler_calls_namecheck,
            handler_calls]
      · have h2f : name_passes env v.zvec_namecheck (terminate_name (env.xcopyin arg).2)
            = false := by simpa using h2
        have hc : (ioctl_namecheck env v.zvec_namecheck
            (terminate_name (env.xcopyin arg).2)).1 = EINVAL := by
          rw [ioctl_namecheck_error, h2f]; rfl
        have hne : EINVAL ≠ 0 := by decide
        simp [h0, h1, h2f, hc, hne, handler_calls_append, handler_calls_policy,
          handler_calls_namecheck, handler_calls]
    · simp [h0, h1, handler_calls_append, handler_calls_policy, handler_calls]
  · simp [h0, handler_calls_append, handler_calls]

/-- Witness of C6: the entry of index 25 with a good name runs its handler. -/
theorem zfsdev_ioctl_gating_witness :
    zfs_ioc_vec[ioctl_vec_index (ZFS_IOC + 25)]? =
        some ⟨.zfs_ioc_destroy, .zfs_secpolicy_destroy, .DATASET_NAME, true⟩ ∧
      handler_calls (zfsdev_ioctl demo_ioctl_env (ZFS_IOC + 25) 0 0).2 =
        if (demo_ioctl_env.xcopyin 0).1 = 0 ∧
            (zvec_secpolicy demo_ioctl_env.sec .zfs_secpolicy_destroy
              (demo_ioctl_env.xcopyin 0).2 0).1 = 0 ∧
            name_passes demo_ioctl_env .DATASET_NAME
              (terminate_name (demo_ioctl_env.xcopyin 0).2) = true
        then [(.zfs_ioc_destroy, terminate_name (demo_ioctl_env.xcopyin 0).2)] else [] :=
  ⟨by decide, (zfsdev_ioctl_gating demo_ioctl_env (ZFS_IOC + 25) 0 0
    ⟨.zfs_ioc_destroy, .zfs_secpolicy_destroy, .DATASET_NAME, true⟩ (by decide)).1⟩

/-- C7, the code at the failing input: for the entry of index 25
(`zfs_ioc_destroy`, a `DATASET_NAME` entry) and a command whose `zc_name` is
`a bc` with no NUL in the buffer, the security policy hands the raw buffer to
`dsl_prop_get_integer` although the name is not terminated and the name check,
made afterwards, rejects it: the command fails with `EINVAL` and the handler
is not called. -/
theorem zfsdev_ioctl_policy_before_namecheck :
    policy_calls (zfsdev_ioctl demo_ioctl_env (ZFS_IOC + 25) 1 0).2 =
      [.dsl_prop_get_integer demo_bad_name "zoned",
        .dsl_prop_get_integer demo_bad_name "zoned"] ∧
    0 ∉ demo_bad_name ∧
    demo_ioctl_env.dataset_namecheck demo_bad_name ≠ 0 ∧
    demo_ioctl_env.dataset_namecheck (terminate_name (demo_ioctl_env.xcopyin 1).2).zc_name ≠ 0 ∧
    (zfsdev_ioctl demo_ioctl_env (ZFS_IOC + 25) 1 0).1 = EINVAL ∧
    handler_calls (zfsdev_ioctl demo_ioctl_env (ZFS_IOC + 25) 1 0).2 = [] := by
  refine ⟨by decide, by decide, by decide, by decide, by decide, by decide⟩

/-! ## zfs_ioctl.c: zfs_set_prop_nvlist -/

/-- C8, the code at the failing inputs: for the list holding only
`version = 9`, `zfs_set_version` is called and fails with `ENOTSUP`, yet
`zfs_set_prop_nvlist` returns 0; for the list holding only `version` with a
string value, no setter is called at all and 0 is returned as well. -/
theorem zfs_set_prop_nvlist_version_silent :
    (∃ r, zfs_set_prop_nvlist demo_prop_env demo_good_name [⟨"version", .uint64 9⟩] 0 = .ok r ∧
      r.error = 0 ∧ r.setter_calls = [(.zfs_set_version demo_good_name 9, ENOTSUP)]) ∧
    (∃ r, zfs_set_prop_nvlist demo_prop_env demo_good_name [⟨"version", .string [57, 0]⟩] 0
        = .ok r ∧ r.error = 0 ∧ r.setter_calls = []) :=
  ⟨⟨_, rfl, rfl, rfl⟩, ⟨_, rfl, rfl, rfl⟩⟩

theorem zfs_set_prop_validate_cons (env : sec_env) (name : List Nat) (cr : Nat)
    (elem : nvpair_t) (rest : List nvpair_t) :
    (zfs_set_prop_validate env name cr (elem :: rest)).1 =
      if (zfs_set_prop_validate env name cr [elem]).1 ≠ 0
      then (zfs_set_prop_validate env name cr [elem]).1
      else (zfs_set_prop_validate env name cr rest).1 := by
  have hE : EINVAL ≠ 0 := by decide
  simp only [zfs_set_prop_validate, pol_then]
  split_ifs <;> simp_all

theorem zfs_set_prop_validate_first_failure (env : sec_env) (name : List Nat) (cr : Nat) :
    ∀ (nvl : List nvpair_t) (elem : nvpair_t), elem ∈ nvl →
      (zfs_set_prop_validate env name cr [elem]).1 ≠ 0 →
      ∃ pre e post, nvl = pre ++ e :: post ∧
        (∀ p ∈ pre, (zfs_set_prop_validate env name cr [p]).1 = 0) ∧
        (zfs_set_prop_validate env name cr [e]).1 ≠ 0 ∧
        (zfs_set_prop_validate env name cr nvl).1 = (zfs_set_prop_validate env name cr [e]).1 := by
  intro nvl
  induction nvl with
  | nil => intro elem h; exact absurd h (List.not_mem_nil elem)
  | cons a rest ih =>
    intro elem hmem hfail
    by_cases ha : (zfs_set_prop_validate env name cr [a]).1 ≠ 0
    · refine ⟨[], a, rest, rfl, ?_, ha, ?_⟩
      · intro p hp; exact absurd hp (List.not_mem_nil p)
      · rw [zfs_set_prop_validate_cons, if_pos ha]
    · have hmem2 : elem ∈ rest := by
        rcases List.mem_cons.mp hmem with h | h
        · subst h; exact absurd hfail ha
        · exact h
      obtain ⟨pre, e, post, hsplit, hpre, he, herr⟩ := ih elem hmem2 hfail
      refine ⟨a :: pre, e, post, by rw [hsplit]; rfl, ?_, he, ?_⟩
      · intro p hp
        rcases List.mem_cons.mp hp with h | h
        · subst h; exact not_not.mp ha
        · exact hpre p h
      · rw [zfs_set_prop_validate_cons, if_neg ha, herr]

/-- C9: validate, then apply.  If any pair of the list fails the first pass
(its validation on its own returns an error: an unknown name that is not a
user property, a user property whose value is not a string, a denied
permission, a value the pool version does not support), then
`zfs_set_prop_nvlist` returns the error of the first such pair and no setter
has been called for any property of the list. -/
theorem zfs_set_prop_nvlist_validates_first (env : prop_env) (name : List Nat)
    (nvl : List nvpair_t) (cr : Nat) (elem : nvpair_t) (hmem : elem ∈ nvl)
    (hfail : (zfs_set_prop_validate env.sec name cr [elem]).1 ≠ 0) :
    ∃ r, zfs_set_prop_nvlist env name nvl cr = .ok r ∧ r.error ≠ 0 ∧ r.setter_calls = [] ∧
      ∃ pre e post, nvl = pre ++ e :: post ∧
        (∀ p ∈ pre, (zfs_set_prop_validate env.sec name cr [p]).1 = 0) ∧
        (zfs_set_prop_validate env.sec name cr [e]).1 ≠ 0 ∧
        r.error = (zfs_set_prop_validate env.sec name cr [e]).1 := by
  obtain ⟨pre, e, post, hsplit, hpre, he, herr⟩ :=
    zfs_set_prop_validate_first_failure env.sec name cr nvl elem hmem hfail
  have hne : (zfs_set_prop_validate env.sec name cr nvl).1 ≠ 0 := by rw [herr]; exact he
  refine ⟨{ error := (zfs_set_prop_validate env.sec name cr nvl).1,
             policy_calls := (zfs_set_prop_validate env.sec name cr nvl).2,
             setter_calls := [] }, ?_, ?_, ?_, pre, e, post, hsplit, hpre, he, ?_⟩
  · unfold zfs_set_prop_nvlist
    simp only []
    rw [if_pos hne]
  · exact hne
  · rfl
  · exact herr

/-- Witness of C9: a quota followed by an unknown name that is no user
property; the quota is not set. -/
theorem zfs_set_prop_nvlist_validates_first_witness :
    (⟨"bogus", .uint64 1⟩ : nvpair_t) ∈ [⟨"quota", .uint64 5⟩, ⟨"bogus", .uint64 1⟩] ∧
    (zfs_set_prop_validate demo_prop_env.sec demo_good_name 0 [⟨"bogus", .uint64 1⟩]).1 ≠ 0 ∧
    ∃ r, zfs_set_prop_nvlist demo_prop_env demo_good_name
        [⟨"quota", .uint64 5⟩, ⟨"bogus", .uint64 1⟩] 0 = .ok r ∧
      r.error ≠ 0 ∧ r.setter_calls = [] ∧
      ∃ pre e post, [⟨"quota", .uint64 5⟩, ⟨"bogus", .uint64 1⟩] = pre ++ e :: post ∧
        (∀ p ∈ pre, (zfs_set_prop_validate demo_prop_env.sec demo_good_name 0 [p]).1 = 0) ∧
        (zfs_set_prop_validate demo_prop_env.sec demo_good_name 0 [e]).1 ≠ 0 ∧
        r.error = (zfs_set_prop_validate demo_prop_env.sec demo_good_name 0 [e]).1 :=
  ⟨by decide, by decide,
    zfs_set_prop_nvlist_validates_first demo_prop_env demo_good_name
      [⟨"quota", .uint64 5⟩, ⟨"bogus", .uint64 1⟩] 0 ⟨"bogus", .uint64 1⟩ (by decide)
      (by decide)⟩

/-! ## zfs_main.c: zfs destroy -/

theorem destroy_getopt_force (opts : List Char) (hopts : ∀ c ∈ opts, c = 'f') :
    ∀ cb : destroy_cbdata_t, ∃ f, destroy_getopt opts cb = some { cb with cb_force := f } := by
  induction opts with
  | nil => intro cb; exact ⟨cb.cb_force, rfl⟩
  | cons c rest ih =>
    intro cb
    have hc : c = 'f' := hopts c (List.mem_cons_self c rest)
    obtain ⟨f, hf⟩ := ih (fun x hx => hopts x (List.mem_cons_of_mem c hx))
      { cb with cb_force := 1 }
    refine ⟨f, ?_⟩
    subst hc
    simp only [destroy_getopt, if_true]
    rw [hf]

theorem destroy_check_dependent_snapshot (zhp target : zfs_handle_t) (st : destroy_state)
    (ht : st.cb.cb_target = some target) (hty : target.zfs_type = .ZFS_TYPE_SNAPSHOT)
    (hr : st.cb.cb_recurse = 0) (hinv : st.cb.cb_first = true ∨ st.cb.cb_error = 1) :
    (destroy_check_dependent zhp st).1 = 0 ∧
      (destroy_check_dependent zhp st).2.cb.cb_target = some target ∧
      (destroy_check_dependent zhp st).2.cb.cb_recurse = 0 ∧
      (destroy_check_dependent zhp st).2.cb.cb_error = 1 ∧
      (destroy_check_dependent zhp st).2.calls = st.calls ∧
      (destroy_check_dependent zhp st).2.reported = st.reported ++ [zhp.zfs_name] := by
  unfold destroy_check_dependent
  rw [ht]
  simp only [hr, hty]
  rcases hinv with h | h <;> split_ifs <;> simp_all

theorem iter_check_dependent_snapshot (target : zfs_handle_t)
    (hty : target.zfs_type = .ZFS_TYPE_SNAPSHOT) :
    ∀ (deps : List zfs_handle_t) (st : destroy_state), st.cb.cb_target = some target →
      st.cb.cb_recurse = 0 → (st.cb.cb_first = true ∨ st.cb.cb_error = 1) → deps ≠ [] →
      (iter_handles destroy_check_dependent deps st).1 = 0 ∧
        (iter_handles destroy_check_dependent deps st).2.cb.cb_error = 1 ∧
        (iter_handles destroy_check_dependent deps st).2.calls = st.calls ∧
        (iter_handles destroy_check_dependent deps st).2.reported =
          st.reported ++ deps.map zfs_handle_t.zfs_name := by
  intro deps
  induction deps with
  | nil => intro st _ _ _ h; exact absurd rfl h
  | cons d rest ih =>
    intro st ht hr hinv _
    obtain ⟨h1, h2, h3, h4, h5, h6⟩ := destroy_check_dependent_snapshot d target st ht hty hr hinv
    simp only [iter_handles]
    rw [if_neg (not_not.mpr h1)]
    by_cases hrest : rest = []
    · subst hrest
      simp only [iter_handles, List.map_cons, List.map_nil]
      exact ⟨trivial, h4, h5, h6⟩
    · obtain ⟨i1, i2, i3, i4⟩ := ih _ h2 h3 (Or.inr h4) hrest
      refine ⟨i1, i2, by rw [i3, h5], ?_⟩
      rw [i4, h6]
      simp

/-- C10: destroy is blocked by dependent clones.  When `zfs destroy` is run
with neither `-r` nor `-R` on a dataset that opens as a snapshot and has at
least one dependent, `zfs_do_destroy` returns 1 and calls neither
`zfs_unmount` nor `zfs_destroy` (no changing call at all);
`destroy_check_dependent` has set `cb_error` and reported every dependent. -/
theorem zfs_do_destroy_blocked_by_clone (env : libzfs_env) (opts : List Char)
    (name : List Char) (zhp : zfs_handle_t) (deps : List zfs_handle_t) (d : zfs_handle_t)
    (hopts : ∀ c ∈ opts, c = 'f')
    (hopen : env.zfs_open [] name ZFS_TYPE_ANY = some zhp)
    (hsnap : zhp.zfs_type = .ZFS_TYPE_SNAPSHOT)
    (hdeps : env.get_dependents [] zhp true = some deps) (hd : d ∈ deps) :
    (zfs_do_destroy env opts [name]).1 = .returned 1 ∧
      (zfs_do_destroy env opts [name]).2.calls = [] ∧
      (zfs_do_destroy env opts [name]).2.cb.cb_error = 1 ∧
      (zfs_do_destroy env opts [name]).2.reported = deps.map zfs_handle_t.zfs_name := by
  obtain ⟨f, hf⟩ := destroy_getopt_force opts hopts
    { cb_first := false, cb_force := 0, cb_recurse := 0, cb_error := 0, cb_needforce := 0,
      cb_doclones := 0, cb_target := none, cb_snapname := none }
  have hne : deps ≠ [] := List.ne_nil_of_mem hd
  obtain ⟨i1, i2, i3, i4⟩ := iter_check_dependent_snapshot zhp hsnap deps
    { cb := { cb_first := true, cb_force := f, cb_recurse := 0, cb_error := 0,
              cb_needforce := 0, cb_doclones := 0, cb_target := some zhp,
              cb_snapname := none },
      calls := [], reported := [] } rfl rfl (Or.inl rfl) hne
  simp only [List.nil_append] at i3 i4
  have hf2 : destroy_getopt opts
      { cb_first := false, cb_force := 0, cb_recurse := 0, cb_error := 0, cb_needforce := 0,
        cb_doclones := 0, cb_target := none, cb_snapname := none } =
      some { cb_first := false, cb_force := f, cb_recurse := 0, cb_error := 0,
             cb_needforce := 0, cb_doclones := 0, cb_target := none, cb_snapname := none } := hf
  unfold zfs_do_destroy
  simp only [hf2]
  simp only [destroy_state.hist, List.map_nil, ne_eq, not_true_eq_false, false_and, if_false,
    hopen, hsnap, zfs_iter_dependents, hdeps, true_and, i1, i2, i3, i4, if_true,
    one_ne_zero, and_false, reduceCtorEq, and_self, not_false_eq_true]

/-- Witness of C10: `zfs destroy -f tank/fs@snap` with the clone `tank/clone`
depending on the snapshot. -/
theorem zfs_do_destroy_blocked_by_clone_witness :
    demo_libzfs_env.zfs_open [] "tank/fs@snap".toList ZFS_TYPE_ANY =
        some ⟨"tank/fs@snap".toList, .ZFS_TYPE_SNAPSHOT⟩ ∧
      demo_libzfs_env.get_dependents [] ⟨"tank/fs@snap".toList, .ZFS_TYPE_SNAPSHOT⟩ true =
        some [⟨"tank/clone".toList, .ZFS_TYPE_FILESYSTEM⟩] ∧
      (zfs_do_destroy demo_libzfs_env ['f'] ["tank/fs@snap".toList]).1 = .returned 1 ∧
      (zfs_do_destroy demo_libzfs_env ['f'] ["tank/fs@snap".toList]).2.calls = [] ∧
      (zfs_do_destroy demo_libzfs_env ['f'] ["tank/fs@snap".toList]).2.cb.cb_error = 1 ∧
      (zfs_do_destroy demo_libzfs_env ['f'] ["tank/fs@snap".toList]).2.reported =
        [⟨"tank/clone".toList, zfs_type_t.ZFS_TYPE_FILESYSTEM⟩].map zfs_handle_t.zfs_name :=
  ⟨by decide, rfl,
    zfs_do_destroy_blocked_by_clone demo_libzfs_env ['f'] "tank/fs@snap".toList
      ⟨"tank/fs@snap".toList, .ZFS_TYPE_SNAPSHOT⟩ [⟨"tank/clone".toList, .ZFS_TYPE_FILESYSTEM⟩]
      ⟨"tank/clone".toList, .ZFS_TYPE_FILESYSTEM⟩
      (by intro c hc; simpa using hc) (by decide) rfl rfl (List.mem_singleton.mpr rfl)⟩

/-! ## zfs_main.c: zfs rollback -/

theorem rollback_getopt_force (opts : List Char) (hopts : ∀ c ∈ opts, c = 'f') :
    ∀ (f0 : Int) (cb : rollback_cbdata_t),
      ∃ force, rollback_getopt opts (f0, cb) = some (force, cb) := by
  induction opts with
  | nil => intro f0 cb; exact ⟨f0, rfl⟩
  | cons c rest ih =>
    intro f0 cb
    have hc : c = 'f' := hopts c (List.mem_cons_self c rest)
    obtain ⟨f, hf⟩ := ih (fun x hx => hopts x (List.mem_cons_of_mem c hx)) 1 cb
    refine ⟨f, ?_⟩
    subst hc
    simp only [rollback_getopt, if_true]
    exact hf

theorem rollback_check_plain (env : rollback_env) (zhp : zfs_handle_t) (st : rollback_state)
    (hd : st.cb.cb_doclones = 0) (hdep : st.cb.cb_dependent = false)
    (hr : st.cb.cb_recurse = false)
    (hP : st.cb.cb_first = true ∨ st.cb.cb_error = 1) :
    (rollback_check env zhp st).1 = 0 ∧
      (rollback_check env zhp st).2.cb.cb_doclones = 0 ∧
      (rollback_check env zhp st).2.cb.cb_dependent = false ∧
      (rollback_check env zhp st).2.cb.cb_recurse = false ∧
      (rollback_check env zhp st).2.cb.cb_target = st.cb.cb_target ∧
      (rollback_check env zhp st).2.cb.cb_create = st.cb.cb_create ∧
      (rollback_check env zhp st).2.rollback_calls = st.rollback_calls ∧
      ((rollback_check env zhp st).2.cb.cb_first = true ∨
        (rollback_check env zhp st).2.cb.cb_error = 1) ∧
      (st.cb.cb_error = 1 → (rollback_check env zhp st).2.cb.cb_error = 1) ∧
      ((zhp.zfs_name ≠ st.cb.cb_target ∧ zhp.zfs_type = .ZFS_TYPE_SNAPSHOT ∧
          env.createtxg zhp > st.cb.cb_create) →
        (rollback_check env zhp st).2.cb.cb_error = 1) := by
  unfold rollback_check
  simp only [hd, hdep, hr]
  rcases hP with h | h <;> split_ifs <;> simp_all

theorem iter_rollback_check_plain (env : rollback_env) (target : List Char) (create : Nat) :
    ∀ (kids : List zfs_handle_t) (st : rollback_state),
      st.cb.cb_doclones = 0 → st.cb.cb_dependent = false → st.cb.cb_recurse = false →
      st.cb.cb_target = target → st.cb.cb_create = create →
      (st.cb.cb_first = true ∨ st.cb.cb_error = 1) →
      (st.cb.cb_error = 1 ∨ ∃ k ∈ kids, k.zfs_name ≠ target ∧
        k.zfs_type = .ZFS_TYPE_SNAPSHOT ∧ env.createtxg k > create) →
      (iter_handles (rollback_check env) kids st).1 = 0 ∧
        (iter_handles (rollback_check env) kids st).2.cb.cb_error = 1 ∧
        (iter_handles (rollback_check env) kids st).2.rollback_calls = st.rollback_calls := by
  intro kids
  induction kids with
  | nil =>
    intro st _ _ _ _ _ _ h
    rcases h with h | ⟨k, hk, _⟩
    · exact ⟨rfl, h, rfl⟩
    · exact absurd hk (List.not_mem_nil k)
  | cons d rest ih =>
    intro st hd hdep hr ht hc hP h
    obtain ⟨s1, s2, s3, s4, s5, s6, s7, s8, s9, s10⟩ :=
      rollback_check_plain env d st hd hdep hr hP
    simp only [iter_handles]
    rw [if_neg (not_not.mpr s1)]
    have hnext : (rollback_check env d st).2.cb.cb_error = 1 ∨ ∃ k ∈ rest,
        k.zfs_name ≠ target ∧ k.zfs_type = .ZFS_TYPE_SNAPSHOT ∧ env.createtxg k > create := by
      rcases h with h | ⟨k, hk, hq⟩
      · exact Or.inl (s9 h)
      · rcases List.mem_cons.mp hk with hkd | hkr
        · subst hkd
          left
          apply s10
          rw [ht, hc]
          exact hq
        · exact Or.inr ⟨k, hkr, hq⟩
    obtain ⟨i1, i2, i3⟩ := ih _ s2 s3 s4 (s5.trans ht) (s6.trans hc) s8 hnext
    exact ⟨i1, i2, i3.trans s7⟩

/-- C11: rollback is blocked by later snapshots.  When `zfs rollback` is run
with neither `-r` nor `-R` on a snapshot S and the children of the parent
dataset include another snapshot whose creation txg is greater than that of
S, `zfs_do_rollback` returns 1 and never calls `zfs_rollback`. -/
theorem zfs_do_rollback_blocked_by_later_snapshot (env : rollback_env) (opts : List Char)
    (arg : List Char) (snap zhp : zfs_handle_t) (i : Nat) (kids : List zfs_handle_t)
    (k : zfs_handle_t)
    (hopts : ∀ c ∈ opts, c = 'f')
    (hsnap : env.zfs_open arg zfs_type_t.ZFS_TYPE_SNAPSHOT.bit = some snap)
    (hat : ((arg.take (ZFS_MAXNAMELEN - 1)).reverse).indexOf? '@' = some i)
    (hparent : env.zfs_open ((arg.take (ZFS_MAXNAMELEN - 1)).take
      ((arg.take (ZFS_MAXNAMELEN - 1)).length - 1 - i)) ZFS_TYPE_ANY = some zhp)
    (hkids : env.children zhp = some kids) (hk : k ∈ kids)
    (hname : k.zfs_name ≠ arg) (htype : k.zfs_type = .ZFS_TYPE_SNAPSHOT)
    (hlater : env.createtxg k > env.createtxg snap) :
    (zfs_do_rollback env opts [arg]).1 = .returned 1 ∧
      (zfs_do_rollback env opts [arg]).2.rollback_calls = [] := by
  obtain ⟨force, hf⟩ := rollback_getopt_force opts hopts 0
    { cb_create := 0, cb_first := false, cb_doclones := 0, cb_target := [], cb_error := 0,
      cb_recurse := false, cb_dependent := false }
  obtain ⟨i1, i2, i3⟩ := iter_rollback_check_plain env arg (env.createtxg snap) kids
    { cb := { cb_create := env.createtxg snap, cb_first := true, cb_doclones := 0,
              cb_target := arg, cb_error := 0, cb_recurse := false, cb_dependent := false },
      reported := [], rollback_calls := [] } rfl rfl rfl rfl rfl (Or.inl rfl)
    (Or.inr ⟨k, hk, hname, htype, hlater⟩)
  unfold zfs_do_rollback
  simp only [hf, hsnap, hat, hparent, zfs_iter_children, hkids, i1, i2, i3, ne_eq,
    not_true_eq_false, if_false, one_ne_zero, not_false_eq_true, if_true, and_self]

/-- Witness of C11: `zfs rollback tank/fs@a` while `tank/fs@b` is newer. -/
theorem zfs_do_rollback_blocked_by_later_snapshot_witness :
    demo_rollback_env.zfs_open "tank/fs@a".toList zfs_type_t.ZFS_TYPE_SNAPSHOT.bit =
        some ⟨"tank/fs@a".toList, .ZFS_TYPE_SNAPSHOT⟩ ∧
      demo_rollback_env.createtxg ⟨"tank/fs@b".toList, .ZFS_TYPE_SNAPSHOT⟩ >
        demo_rollback_env.createtxg ⟨"tank/fs@a".toList, .ZFS_TYPE_SNAPSHOT⟩ ∧
      (zfs_do_rollback demo_rollback_env [] ["tank/fs@a".toList]).1 = .returned 1 ∧
      (zfs_do_rollback demo_rollback_env [] ["tank/fs@a".toList]).2.rollback_calls = [] :=
  ⟨by decide, by decide,
    zfs_do_rollback_blocked_by_later_snapshot demo_rollback_env [] "tank/fs@a".toList
      ⟨"tank/fs@a".toList, .ZFS_TYPE_SNAPSHOT⟩ ⟨"tank/fs".toList, .ZFS_TYPE_FILESYSTEM⟩ 1
      [⟨"tank/fs@a".toList, .ZFS_TYPE_SNAPSHOT⟩, ⟨"tank/fs@b".toList, .ZFS_TYPE_SNAPSHOT⟩]
      ⟨"tank/fs@b".toList, .ZFS_TYPE_SNAPSHOT⟩
      (by intro c hc; simp at hc) (by decide) (by decide) (by decide) rfl (by decide)
      (by decide) rfl (by decide)⟩

/-! ## zfs_vfsops.c -/

theorem rdonly_after_or (f : Nat) : flag_isset (flag_or f VFS_RDONLY) VFS_RDONLY = true := by
  have h : ((f ||| 1) &&& 1).testBit 0 = true := by
    simp [Nat.testBit_and, Nat.testBit_or]
  simp only [flag_isset, flag_or, VFS_RDONLY, decide_eq_true_eq]
  intro h0
  rw [h0] at h
  simp at h

theorem rdonly_or_other (f b : Nat) (hb : b.testBit 0 = false)
    (h : flag_isset f VFS_RDONLY = true) : flag_isset (flag_or f b) VFS_RDONLY = true := by
  have e : (f ||| b) &&& 1 = f &&& 1 := by
    apply Nat.eq_of_testBit_eq
    intro i
    simp only [Nat.testBit_and, Nat.testBit_or]
    rcases i with _ | i
    · simp [hb]
    · simp [Nat.testBit_succ]
  simp only [flag_isset, flag_or, VFS_RDONLY, e] at h ⊢
  exact h

theorem rdonly_andnot_other (f b : Nat) (hb : (0xFFFFFFFF ^^^ b).testBit 0 = true)
    (h : flag_isset f VFS_RDONLY = true) : flag_isset (flag_andnot f b) VFS_RDONLY = true := by
  have e : (f &&& (0xFFFFFFFF ^^^ b)) &&& 1 = f &&& 1 := by
    apply Nat.eq_of_testBit_eq
    intro i
    simp only [Nat.testBit_and]
    rcases i with _ | i
    · simp [hb]
    · simp [Nat.testBit_succ]
  simp only [flag_isset, flag_andnot, VFS_RDONLY, e] at h ⊢
  exact h

theorem devices_changed_cb_rdonly (env : vfs_env) (m : zfs_mount_t) (v : Nat)
    (h : flag_isset m.vfs.vfs_flag VFS_RDONLY = true) :
    flag_isset (devices_changed_cb env m v).vfs.vfs_flag VFS_RDONLY = true := by
  unfold devices_changed_cb swap_mntopt
  split_ifs
  · exact rdonly_or_other _ _ (by decide) h
  · exact rdonly_andnot_other _ _ (by decide) h

theorem setuid_changed_cb_rdonly (env : vfs_env) (m : zfs_mount_t) (v : Nat)
    (h : flag_isset m.vfs.vfs_flag VFS_RDONLY = true) :
    flag_isset (setuid_changed_cb env m v).vfs.vfs_flag VFS_RDONLY = true := by
  unfold setuid_changed_cb swap_mntopt
  split_ifs
  · exact rdonly_or_other _ _ (by decide) h
  · exact rdonly_andnot_other _ _ (by decide) h

theorem exec_changed_cb_rdonly (env : vfs_env) (m : zfs_mount_t) (v : Nat)
    (h : flag_isset m.vfs.vfs_flag VFS_RDONLY = true) :
    flag_isset (exec_changed_cb env m v).vfs.vfs_flag VFS_RDONLY = true := by
  unfold exec_changed_cb swap_mntopt
  split_ifs
  · exact rdonly_or_other _ _ (by decide) h
  · exact rdonly_andnot_other _ _ (by decide) h

theorem atime_changed_cb_rdonly (env : vfs_env) (m : zfs_mount_t) (v : Nat)
    (h : flag_isset m.vfs.vfs_flag VFS_RDONLY = true) :
    flag_isset (atime_changed_cb env m v).vfs.vfs_flag VFS_RDONLY = true := by
  unfold atime_changed_cb swap_mntopt
  split_ifs <;> exact h

theorem readonly_changed_cb_on (env : vfs_env) (m : zfs_mount_t) :
    flag_isset (readonly_changed_cb env m 1).vfs.vfs_flag VFS_RDONLY = true := by
  unfold readonly_changed_cb swap_mntopt
  rw [if_pos one_ne_zero]
  exact rdonly_after_or _

theorem zfs_refresh_properties_rest_rdonly (env : vfs_env) (m : zfs_mount_t)
    (h : flag_isset m.vfs.vfs_flag VFS_RDONLY = true) :
    flag_isset (zfs_refresh_properties_rest env m).vfs.vfs_flag VFS_RDONLY = true := by
  have s0 : flag_isset (if optionisset env m MNTOPT_NODEVICES then devices_changed_cb env m 0
      else if optionisset env m MNTOPT_DEVICES then devices_changed_cb env m 1
      else m).vfs.vfs_flag VFS_RDONLY = true := by
    split_ifs
    · exact devices_changed_cb_rdonly _ _ _ h
    · exact devices_changed_cb_rdonly _ _ _ h
    · exact h
  have s1 : ∀ a : zfs_mount_t, flag_isset a.vfs.vfs_flag VFS_RDONLY = true →
      flag_isset (if optionisset env a MNTOPT_NOSETUID then setuid_changed_cb env a 0
        else if optionisset env a MNTOPT_SETUID then setuid_changed_cb env a 1
        else a).vfs.vfs_flag VFS_RDONLY = true := by
    intro a ha
    split_ifs
    · exact setuid_changed_cb_rdonly _ _ _ ha
    · exact setuid_changed_cb_rdonly _ _ _ ha
    · exact ha
  have s2 : ∀ a : zfs_mount_t, flag_isset a.vfs.vfs_flag VFS_RDONLY = true →
      flag_isset (if optionisset env a MNTOPT_NOEXEC then exec_changed_cb env a 0
        else if optionisset env a MNTOPT_EXEC then exec_changed_cb env a 1
        else a).vfs.vfs_flag VFS_RDONLY = true := by
    intro a ha
    split_ifs
    · exact exec_changed_cb_rdonly _ _ _ ha
    · exact exec_changed_cb_rdonly _ _ _ ha
    · exact ha
  have s3 : ∀ a : zfs_mount_t, flag_isset a.vfs.vfs_flag VFS_RDONLY = true →
      flag_isset (if optionisset env a MNTOPT_ATIME then atime_changed_cb env a 1
        else if optionisset env a MNTOPT_NOATIME then atime_changed_cb env a 0
        else a).vfs.vfs_flag VFS_RDONLY = true := by
    intro a ha
    split_ifs
    · exact atime_changed_cb_rdonly _ _ _ ha
    · exact atime_changed_cb_rdonly _ _ _ ha
    · exact ha
  unfold zfs_refresh_properties_rest
  by_cases hn : optionisset env m MNTOPT_NOSUID = true
  · have hm1 := setuid_changed_cb_rdonly env _ 0 (devices_changed_cb_rdonly env m 0 h)
    have := s3 _ (s2 _ hm1)
    simpa only [hn, if_true] using this
  · have hm1 := s1 _ s0
    have := s3 _ (s2 _ hm1)
    simpa only [hn, if_false] using this

/-- C12: a mounted snapshot never becomes writable.  A `zfs_domount` that
returns 0 on an objset that is a snapshot leaves `VFS_RDONLY` set in
`vfs_flag` and `z_issnap` true; and for a mounted snapshot with `VFS_RDONLY`
set, `zfs_refresh_properties` leaves `VFS_RDONLY` set whatever the mount
options are, and returns `EROFS` when `rw` is set and `ro` is not. -/
theorem snapshot_mount_stays_readonly (env : vfs_env) (vfsp : vfs_t) (osname : List Char)
    (cr : Nat) (out : domount_out) (z : zfsvfs_t) (m : zfs_mount_t)
    (hrun : zfs_domount env vfsp osname cr = .ok out) (hok : out.error = 0)
    (hz : out.zfsvfs = some z) (hsnap : env.dmu_objset_is_snapshot z.z_os = true)
    (hmsnap : env.dmu_objset_is_snapshot m.zfsvfs.z_os = true)
    (hmro : flag_isset m.vfs.vfs_flag VFS_RDONLY = true) :
    (flag_isset out.vfs.vfs_flag VFS_RDONLY = true ∧ z.z_issnap = true) ∧
      flag_isset (zfs_refresh_properties env m).2.vfs.vfs_flag VFS_RDONLY = true ∧
      (optionisset env m MNTOPT_RW = true → optionisset env m MNTOPT_RO = false →
        (zfs_refresh_properties env m).1 = EROFS ∧ (zfs_refresh_properties env m).2 = m) := by
  refine ⟨?_, ?_, ?_⟩
  · unfold zfs_domount at hrun
    simp only [] at hrun
    by_cases h1 : env.vfs_devismounted env.mount_dev ≠ 0
    · rw [if_pos h1] at hrun; cases hrun
    rw [if_neg h1] at hrun
    by_cases h2 : (env.dsl_prop_get_integer osname "recordsize").1 ≠ 0
    · rw [if_pos h2] at hrun; cases hrun
      simp only [zfs_domount_out, if_pos h2] at hok
      exact absurd hok h2
    rw [if_neg h2] at hrun
    by_cases h3 : (env.dsl_prop_get_integer osname "readonly").1 ≠ 0
    · rw [if_pos h3] at hrun; cases hrun
      simp only [zfs_domount_out, if_pos h3] at hok
      exact absurd hok h3
    rw [if_neg h3] at hrun
    generalize (if (env.dsl_prop_get_integer osname "readonly").2 ≠ 0
      then DS_MODE_PRIMARY ||| DS_MODE_READONLY else DS_MODE_PRIMARY) = mode0 at hrun
    generalize env.dmu_objset_open osname DMU_OST_ZFS mode0 = o1 at hrun
    generalize (if o1.1 = EROFS then DS_MODE_PRIMARY ||| DS_MODE_READONLY else mode0)
      = mode at hrun
    generalize (if o1.1 = EROFS then env.dmu_objset_open osname DMU_OST_ZFS mode else o1)
      = o at hrun
    by_cases h4 : o.1 ≠ 0
    · rw [if_pos h4] at hrun; cases hrun
      simp only [zfs_domount_out, if_pos h4] at hok
      exact absurd hok h4
    rw [if_neg h4] at hrun
    by_cases h5 : env.zfs_init_fs o.2 cr ≠ 0
    · rw [if_pos h5] at hrun; cases hrun
      simp only [zfs_domount_out, if_pos h5] at hok
      exact absurd hok h5
    rw [if_neg h5] at hrun
    by_cases h6 : env.dmu_objset_is_snapshot o.2 = true
    · rw [if_pos h6] at hrun
      by_cases h7 : mode &&& DS_MODE_READONLY = 0
      · rw [if_pos h7] at hrun; cases hrun
      rw [if_neg h7] at hrun
      cases hrun
      simp only [zfs_domount_out, ne_eq, not_true_eq_false, if_false, Option.some.injEq] at hz ⊢
      subst hz
      exact ⟨readonly_changed_cb_on _ _, rfl⟩
    · rw [if_neg h6] at hrun
      cases hrun
      simp only [zfs_domount_out, ne_eq, not_true_eq_false, if_false, Option.some.injEq] at hz
      subst hz
      exact absurd hsnap (by split_ifs <;> exact h6)
  · unfold zfs_refresh_properties
    by_cases hro : optionisset env m MNTOPT_RO = true
    · rw [if_pos hro]
      exact zfs_refresh_properties_rest_rdonly _ _ (readonly_changed_cb_on _ _)
    · rw [if_neg hro]
      have hs : ¬ ((!env.dmu_objset_is_snapshot m.zfsvfs.z_os) = true) := by
        rw [hmsnap]; decide
      rw [if_neg hs]
      by_cases hrw : optionisset env m MNTOPT_RW = true
      · rw [if_pos hrw]; exact hmro
      · rw [if_neg hrw]
        exact zfs_refresh_properties_rest_rdonly _ _ hmro
  · intro hrw hro
    unfold zfs_refresh_properties
    have hro2 : ¬ (optionisset env m MNTOPT_RO = true) := by rw [hro]; decide
    have hs : ¬ ((!env.dmu_objset_is_snapshot m.zfsvfs.z_os) = true) := by
      rw [hmsnap]; decide
    rw [if_neg hro2, if_neg hs, if_pos hrw]
    exact ⟨rfl, rfl⟩

/-- Witness of C12: a snapshot is mounted, and a mounted snapshot is asked to
remount with `rw`. -/
theorem snapshot_mount_stays_readonly_witness :
    zfs_domount demo_vfs_env demo_vfs_fresh "tank/fs@s".toList 0 = .ok demo_domount_out ∧
      (flag_isset demo_domount_out.vfs.vfs_flag VFS_RDONLY = true ∧
        demo_snapshot_zfsvfs.z_issnap = true) ∧
      flag_isset (zfs_refresh_properties demo_vfs_env demo_snapshot_mount).2.vfs.vfs_flag
        VFS_RDONLY = true ∧
      (optionisset demo_vfs_env demo_snapshot_mount MNTOPT_RW = true →
        optionisset demo_vfs_env demo_snapshot_mount MNTOPT_RO = false →
        (zfs_refresh_properties demo_vfs_env demo_snapshot_mount).1 = EROFS ∧
          (zfs_refresh_properties demo_vfs_env demo_snapshot_mount).2 = demo_snapshot_mount) :=
  ⟨by rfl,
    snapshot_mount_stays_readonly demo_vfs_env demo_vfs_fresh "tank/fs@s".toList 0
      demo_domount_out demo_snapshot_zfsvfs demo_snapshot_mount (by rfl) rfl rfl (by decide)
      (by decide) (by decide)⟩

/-! ## zfs_ioctl.c: zfs_ioc_pool_import -/

/-- C13, the claim as stated fails: the configuration at address 1 unpacks
and has no `pool_guid` entry, but the property list of the same command (at
address 9) cannot be copied in; `zfs_ioc_pool_import` returns `EFAULT`, not
`EINVAL`. -/
theorem zfs_ioc_pool_import_not_always_einval :
    get_nvlist demo_import_env 1 8 = (0, some [⟨"name", .string [116, 0]⟩]) ∧
      (nvlist_lookup_uint64 [⟨"name", .string [116, 0]⟩] ZPOOL_CONFIG_POOL_GUID).1 ≠ 0 ∧
      (zfs_ioc_pool_import demo_import_env ⟨demo_good_name, [0], 0⟩
        ⟨1, 8, 9, 8, 42⟩).1 = EFAULT ∧
      EFAULT ≠ EINVAL := by
  refine ⟨by rfl, by decide, by rfl, by decide⟩

/-- C13, amended: when the configuration unpacks, the property list is
absent or unpacks as well, and the configuration has no `pool_guid` entry or
one that differs from `zc_guid`, `zfs_ioc_pool_import` returns `EINVAL`;
whenever the configuration has no such entry or a different one `spa_import`
is not called; and `spa_import` is called, once, exactly when both lists
unpacked and the two guids are equal (never when the configuration did not
unpack). -/
theorem zfs_ioc_pool_import_guid_check (env : import_env) (zc : zfs_cmd_t)
    (nv : zfs_cmd_nvl_t) :
    (∀ config : List nvpair_t,
      get_nvlist env nv.zc_nvlist_conf nv.zc_nvlist_conf_size = (0, some config) →
      ((nv.zc_nvlist_src_size = 0 ∨
            (get_nvlist env nv.zc_nvlist_src nv.zc_nvlist_src_size).1 = 0) →
          ((nvlist_lookup_uint64 config ZPOOL_CONFIG_POOL_GUID).1 ≠ 0 ∨
            (nvlist_lookup_uint64 config ZPOOL_CONFIG_POOL_GUID).2 ≠ nv.zc_guid) →
          (zfs_ioc_pool_import env zc nv).1 = EINVAL) ∧
        (((nvlist_lookup_uint64 config ZPOOL_CONFIG_POOL_GUID).1 ≠ 0 ∨
            (nvlist_lookup_uint64 config ZPOOL_CONFIG_POOL_GUID).2 ≠ nv.zc_guid) →
          (zfs_ioc_pool_import env zc nv).2 = []) ∧
        ((zfs_ioc_pool_import env zc nv).2 =
          if (nv.zc_nvlist_src_size = 0 ∨
                (get_nvlist env nv.zc_nvlist_src nv.zc_nvlist_src_size).1 = 0) ∧
              (nvlist_lookup_uint64 config ZPOOL_CONFIG_POOL_GUID).1 = 0 ∧
              (nvlist_lookup_uint64 config ZPOOL_CONFIG_POOL_GUID).2 = nv.zc_guid
          then [(zc.zc_name, config,
            if nv.zc_nvlist_src_size ≠ 0
            then (get_nvlist env nv.zc_nvlist_src nv.zc_nvlist_src_size).2 else none)]
          else [])) ∧
    ((∀ config : List nvpair_t,
        get_nvlist env nv.zc_nvlist_conf nv.zc_nvlist_conf_size ≠ (0, some config)) →
      (zfs_ioc_pool_import env zc nv).2 = []) := by
  constructor
  · intro config hconf
    unfold zfs_ioc_pool_import
    simp only [hconf, ne_eq, not_true_eq_false, if_false]
    by_cases hs : nv.zc_nvlist_src_size = 0
    · by_cases hg : (nvlist_lookup_uint64 config ZPOOL_CONFIG_POOL_GUID).1 = 0
      · by_cases he : (nvlist_lookup_uint64 config ZPOOL_CONFIG_POOL_GUID).2 = nv.zc_guid
        · simp [hs, hg, he]
        · simp [hs, hg, he]
      · simp [hs, hg]
    · by_cases hp : (get_nvlist env nv.zc_nvlist_src nv.zc_nvlist_src_size).1 = 0
      · by_cases hg : (nvlist_lookup_uint64 config ZPOOL_CONFIG_POOL_GUID).1 = 0
        · by_cases he : (nvlist_lookup_uint64 config ZPOOL_CONFIG_POOL_GUID).2 = nv.zc_guid
          · simp [hs, hp, hg, he]
          · simp [hs, hp, hg, he]
        · simp [hs, hp, hg]
      · simp [hs, hp]
  · intro hno
    unfold zfs_ioc_pool_import
    generalize hc : get_nvlist env nv.zc_nvlist_conf nv.zc_nvlist_conf_size = c at hno
    obtain ⟨e, o⟩ := c
    cases o with
    | none => rfl
    | some config =>
      have he : e ≠ 0 := fun h => hno config (by rw [h])
      simp only [ne_eq, he, not_false_eq_true, if_true]

/-- Witness of C13: a configuration without `pool_guid` and no property
list. -/
theorem zfs_ioc_pool_import_guid_check_witness :
    get_nvlist demo_import_env 1 8 = (0, some [⟨"name", .string [116, 0]⟩]) ∧
      (zfs_ioc_pool_import demo_import_env ⟨demo_good_name, [0], 0⟩ ⟨1, 8, 0, 0, 42⟩).1
        = EINVAL ∧
      (zfs_ioc_pool_import demo_import_env ⟨demo_good_name, [0], 0⟩ ⟨1, 8, 0, 0, 42⟩).2 = [] :=
  ⟨by rfl,
    ((zfs_ioc_pool_import_guid_check demo_import_env ⟨demo_good_name, [0], 0⟩
      ⟨1, 8, 0, 0, 42⟩).1 [⟨"name", .string [116, 0]⟩] (by rfl)).1 (Or.inl rfl)
      (Or.inl (by decide)),
    ((zfs_ioc_pool_import_guid_check demo_import_env ⟨demo_good_name, [0], 0⟩
      ⟨1, 8, 0, 0, 42⟩).1 [⟨"name", .string [116, 0]⟩] (by rfl)).2.1 (Or.inl (by decide))⟩

/-! ## libzfs_pool.c -/

/-- C14: reserved pool names.  On create or import (`isopen` false)
`zpool_name_valid` rejects every name that begins with `mirror`, `raidz` or
`spare`, whatever `pool_namecheck` says; on open (`isopen` true) it accepts
exactly the names `pool_namecheck` accepts; hence `zpool_create` with such a
name returns the `EZFS_INVALIDNAME` error and issues no request. -/
theorem zpool_reserved_names (env : zpool_create_env) (hdl : Bool) (pool : List Char)
    (altroot : Option (List Char)) (hres : name_is_reserved pool = true) :
    (zpool_name_valid env.pool_namecheck hdl false pool).1 = false ∧
      (∀ name : List Char, (zpool_name_valid env.pool_namecheck hdl true name).1 = true ↔
        (env.pool_namecheck name).1 = 0) ∧
      ∃ out, zpool_create env pool altroot = .ok out ∧ out.ret = -1 ∧
        out.libzfs_error = some .EZFS_INVALIDNAME ∧ out.ioctls = [] := by
  have h1 : ∀ h : Bool, (zpool_name_valid env.pool_namecheck h false pool).1 = false := by
    intro h
    unfold zpool_name_valid
    simp only [hres]
    split_ifs <;> simp_all
  refine ⟨h1 hdl, ?_, ?_⟩
  · intro name
    unfold zpool_name_valid
    by_cases h : (env.pool_namecheck name).1 = 0
    · simp [h]
    · simp only [h, false_and, if_false, ne_eq, not_false_eq_true, if_true, iff_false]
      split_ifs <;> simp
  · refine ⟨zfs_error .EZFS_INVALIDNAME
      (zpool_name_valid env.pool_namecheck true false pool).2 [], ?_, rfl, rfl, rfl⟩
    unfold zpool_create
    simp only [h1 true, Bool.not_false, if_true]

/-- Witness of C14: the name `mirror0`, which `pool_namecheck` accepts. -/
theorem zpool_reserved_names_witness :
    name_is_reserved "mirror0".toList = true ∧
      (zpool_name_valid demo_zpool_create_env.pool_namecheck true false "mirror0".toList).1
        = false ∧
      (∀ name : List Char,
        (zpool_name_valid demo_zpool_create_env.pool_namecheck true true name).1 = true ↔
          (demo_zpool_create_env.pool_namecheck name).1 = 0) ∧
      ∃ out, zpool_create demo_zpool_create_env "mirror0".toList none = .ok out ∧ out.ret = -1 ∧
        out.libzfs_error = some .EZFS_INVALIDNAME ∧ out.ioctls = [] :=
  ⟨by decide, zpool_reserved_names demo_zpool_create_env true "mirror0".toList none (by decide)⟩

/-! ## libzfs_mount.c: remove_mountpoint -/

/-- C19, the claim as stated fails: `VDEV_STATE_UNKNOWN` is at or below
`VDEV_STATE_CANT_OPEN`, and for a root vdev in that state `set_pool_health`
aborts instead of recording `FAULTED`. -/
theorem set_pool_health_unknown_aborts :
    VDEV_STATE_UNKNOWN ≤ VDEV_STATE_CANT_OPEN ∧
      set_pool_health (fun s => s) (fun _ _ _ => 0) (demo_pool_config VDEV_STATE_UNKNOWN)
        = .aborted := by
  decide

/-- C19, amended: for a configuration whose root vdev statistics can be looked
up, `set_pool_health` records `FAULTED` for the states `VDEV_STATE_CLOSED`,
`VDEV_STATE_OFFLINE` and `VDEV_STATE_CANT_OPEN`, `DEGRADED` for
`VDEV_STATE_DEGRADED` and `ONLINE` for `VDEV_STATE_HEALTHY`, and returns the
result of adding that string under the `pool_health` key; for
`VDEV_STATE_UNKNOWN` and for any value beyond `VDEV_STATE_HEALTHY` it aborts
and records nothing. -/
theorem set_pool_health_by_state (dgettext : String → String)
    (nvlist_add_string : List (String × cfg_value) → String → String → Int)
    (config : List (String × cfg_value)) (nvroot : List (String × cfg_leaf)) (vs : List Nat)
    (h1 : cfg_lookup_nvlist config ZPOOL_CONFIG_VDEV_TREE = some nvroot)
    (h2 : cfg_lookup_uint64_array nvroot ZPOOL_CONFIG_STATS = some vs) :
    ((VDEV_STATE_CLOSED ≤ vs_state vs ∧ vs_state vs ≤ VDEV_STATE_CANT_OPEN) →
        set_pool_health dgettext nvlist_add_string config =
          .returned (nvlist_add_string config "pool_health" (dgettext "FAULTED"))
            (dgettext "FAULTED")) ∧
      (vs_state vs = VDEV_STATE_DEGRADED →
        set_pool_health dgettext nvlist_add_string config =
          .returned (nvlist_add_string config "pool_health" (dgettext "DEGRADED"))
            (dgettext "DEGRADED")) ∧
      (vs_state vs = VDEV_STATE_HEALTHY →
        set_pool_health dgettext nvlist_add_string config =
          .returned (nvlist_add_string config "pool_health" (dgettext "ONLINE"))
            (dgettext "ONLINE")) ∧
      ((vs_state vs = VDEV_STATE_UNKNOWN ∨ VDEV_STATE_HEALTHY < vs_state vs) →
        set_pool_health dgettext nvlist_add_string config = .aborted) := by
  unfold set_pool_health
  simp only [h1, h2]
  unfold VDEV_STATE_CLOSED VDEV_STATE_CANT_OPEN VDEV_STATE_OFFLINE VDEV_STATE_DEGRADED
    VDEV_STATE_HEALTHY VDEV_STATE_UNKNOWN ZPOOL_CONFIG_POOL_HEALTH
  generalize vs_state vs = s
  refine ⟨?_, ?_, ?_, ?_⟩
  · intro ⟨ha, hb⟩
    have : s = 1 ∨ s = 3 ∨ s = 2 := by omega
    rw [if_pos this]
  · intro h
    subst h
    simp
  · intro h
    subst h
    simp
  · intro h
    have n1 : ¬ (s = 1 ∨ s = 3 ∨ s = 2) := by omega
    have n2 : ¬ s = 4 := by omega
    have n3 : ¬ s = 5 := by omega
    rw [if_neg n1, if_neg n2, if_neg n3]

/-- Witness of C19: a root vdev that cannot be opened makes the pool
`FAULTED`. -/
theorem set_pool_health_by_state_witness :
    set_pool_health (fun s => s) (fun _ _ _ => 0) (demo_pool_config VDEV_STATE_CANT_OPEN) =
      .returned 0 "FAULTED" :=
  (set_pool_health_by_state (fun s => s) (fun _ _ _ => 0)
    (demo_pool_config VDEV_STATE_CANT_OPEN)
    [("type", .string "root"), ("stats", .uint64_array [1000, VDEV_STATE_CANT_OPEN, 0])]
    [1000, VDEV_STATE_CANT_OPEN, 0] (by decide) (by decide)).1 (by decide)

/-! ## zfs_vfsops.c: zfs_statvfs -/

/-- C18: the arithmetic of `zfs_statvfs`.  On a file system that is not being
unmounted by force, for all 64-bit `refdbytes`, `availbytes`, `usedobjs` and
`availobjs` reported by `dmu_objset_space`, `zfs_statvfs` returns 0 with
`f_frsize = 512`, `f_bsize = z_max_blksz`,
`f_blocks = (refdbytes + availbytes) >> 9`,
`f_bfree = f_bavail = availbytes >> 9`,
`f_ffree = f_favail = min(availobjs, f_bfree)` and
`f_files = f_ffree + usedobjs`, all in 64-bit arithmetic; hence
`f_ffree ≤ f_bfree`, and `f_bfree ≤ f_blocks` when `refdbytes + availbytes`
does not overflow. -/
theorem zfs_statvfs_arithmetic (env : vfs_env) (m : zfs_mount_t) (statp : statvfs64)
    (refdbytes availbytes usedobjs availobjs : Nat)
    (hmounted : m.zfsvfs.z_unmounted1 = false)
    (hsp : env.dmu_objset_space m.zfsvfs.z_os = (refdbytes, availbytes, usedobjs, availobjs))
    (hr : refdbytes < U64) (ha : availbytes < U64) (hu : usedobjs < U64)
    (ho : availobjs < U64) :
    (zfs_statvfs env m statp).1 = 0 ∧
      (zfs_statvfs env m statp).2.1.f_frsize = 512 ∧
      (zfs_statvfs env m statp).2.1.f_bsize = m.zfsvfs.z_max_blksz ∧
      (zfs_statvfs env m statp).2.1.f_blocks = ((refdbytes + availbytes) % U64) >>> 9 ∧
      (zfs_statvfs env m statp).2.1.f_bfree = availbytes >>> 9 ∧
      (zfs_statvfs env m statp).2.1.f_bavail = availbytes >>> 9 ∧
      (zfs_statvfs env m statp).2.1.f_ffree = min availobjs (availbytes >>> 9) ∧
      (zfs_statvfs env m statp).2.1.f_favail = min availobjs (availbytes >>> 9) ∧
      (zfs_statvfs env m statp).2.1.f_files =
        (min availobjs (availbytes >>> 9) + usedobjs) % U64 ∧
      (zfs_statvfs env m statp).2.1.f_ffree ≤ (zfs_statvfs env m statp).2.1.f_bfree ∧
      (refdbytes + availbytes < U64 →
        (zfs_statvfs env m statp).2.1.f_blocks = (refdbytes + availbytes) >>> 9 ∧
        (zfs_statvfs env m statp).2.1.f_bfree ≤ (zfs_statvfs env m statp).2.1.f_blocks) ∧
      (min availobjs (availbytes >>> 9) + usedobjs < U64 →
        (zfs_statvfs env m statp).2.1.f_files =
          (zfs_statvfs env m statp).2.1.f_ffree + usedobjs) := by
  have e : zfs_statvfs env m statp =
      (0,
        { statp with
          f_frsize := 512, f_bsize := m.zfsvfs.z_max_blksz,
          f_blocks := ((refdbytes + availbytes) % U64) >>> 9, f_bfree := availbytes >>> 9,
          f_bavail := availbytes >>> 9,
          f_ffree := min availobjs (availbytes >>> 9),
          f_favail := min availobjs (availbytes >>> 9),
          f_files := (min availobjs (availbytes >>> 9) + usedobjs) % U64,
          f_namemax := ZFS_MAXNAMELEN, f_fstr := statp.f_fstr.map (fun _ => 0) },
        ZFS_EXIT { m.zfsvfs with z_op_cnt := m.zfsvfs.z_op_cnt + 1 }) := by
    unfold zfs_statvfs ZFS_ENTER
    simp only [hmounted, Bool.false_eq_true, if_false, hsp, Nat.mod_eq_of_lt hr,
      Nat.mod_eq_of_lt ha, Nat.mod_eq_of_lt hu, Nat.mod_eq_of_lt ho, SPA_MINBLOCKSHIFT]
    rfl
  rw [e]
  refine ⟨rfl, rfl, rfl, rfl, rfl, rfl, rfl, rfl, rfl, Nat.min_le_right _ _, ?_, ?_⟩
  · intro h
    simp only [Nat.mod_eq_of_lt h, Nat.shiftRight_eq_div_pow]
    exact ⟨trivial, Nat.div_le_div_right (Nat.le_add_left _ _)⟩
  · intro h
    simp only [Nat.mod_eq_of_lt h]

/-- Witness of C18: the space report of `demo_vfs_env` on the mounted
snapshot. -/
theorem zfs_statvfs_arithmetic_witness :
    (zfs_statvfs demo_vfs_env demo_snapshot_mount demo_statvfs).1 = 0 ∧
      (zfs_statvfs demo_vfs_env demo_snapshot_mount demo_statvfs).2.1.f_frsize = 512 ∧
      (zfs_statvfs demo_vfs_env demo_snapshot_mount demo_statvfs).2.1.f_blocks = 6144 ∧
      (zfs_statvfs demo_vfs_env demo_snapshot_mount demo_statvfs).2.1.f_bfree = 4096 ∧
      (zfs_statvfs demo_vfs_env demo_snapshot_mount demo_statvfs).2.1.f_ffree = 4096 ∧
      (zfs_statvfs demo_vfs_env demo_snapshot_mount demo_statvfs).2.1.f_files = 4106 :=
  have h := zfs_statvfs_arithmetic demo_vfs_env demo_snapshot_mount demo_statvfs
    1048576 2097152 10 5000 rfl rfl (by decide) (by decide) (by decide) (by decide)
  ⟨h.1, h.2.1, h.2.2.2.1, h.2.2.2.2.1, h.2.2.2.2.2.2.1, h.2.2.2.2.2.2.2.2.1⟩

/-! ## zfs_main.c: unshare_unmount -/

theorem strcmp_self (a : List Char) : strcmp a a = 0 := by
  induction a with
  | nil => rfl
  | cons x t ih => simp [strcmp, ih]

theorem strcmp_eq_zero : ∀ (a b : List Char), strcmp a b = 0 → a = b
  | [], [], _ => rfl
  | [], _ :: _, h => by simp [strcmp] at h
  | _ :: _, [], h => by simp [strcmp] at h
  | x :: l, y :: r, h => by
    unfold strcmp at h
    by_cases hxy : x = y
    · rw [if_pos hxy] at h
      rw [hxy, strcmp_eq_zero l r h]
    · rw [if_neg hxy] at h
      split_ifs at h
      omega

theorem strcmp_neg_iff_pos : ∀ (a b : List Char), strcmp a b < 0 ↔ 0 < strcmp b a
  | [], [] => by simp [strcmp]
  | [], _ :: _ => by simp [strcmp]
  | _ :: _, [] => by simp [strcmp]
  | x :: l, y :: r => by
    unfold strcmp
    by_cases hxy : x = y
    · rw [if_pos hxy, if_pos hxy.symm]
      exact strcmp_neg_iff_pos l r
    · rw [if_neg hxy, if_neg (Ne.symm hxy)]
      rcases lt_or_gt_of_ne hxy with h | h
      · rw [if_pos h, if_neg (not_lt_of_gt h)]
        simp
      · rw [if_neg (not_lt_of_gt h), if_pos h]
        simp

theorem strcmp_lt_trans : ∀ (a b c : List Char), strcmp a b < 0 → strcmp b c < 0 →
    strcmp a c < 0
  | [], [], _, h, _ => by simp [strcmp] at h
  | [], _ :: _, [], _, h => by simp [strcmp] at h
  | [], _ :: _, _ :: _, _, _ => by simp [strcmp]
  | _ :: _, [], _, h, _ => by simp [strcmp] at h
  | _ :: _, _ :: _, [], _, h => by simp [strcmp] at h
  | x :: l, y :: r, z :: s, h1, h2 => by
    unfold strcmp at h1 h2 ⊢
    by_cases hxy : x = y
    · subst hxy
      rw [if_pos rfl] at h1
      by_cases hxz : x = z
      · subst hxz
        rw [if_pos rfl] at h2 ⊢
        exact strcmp_lt_trans l r s h1 h2
      · rw [if_neg hxz] at h2 ⊢
        exact h2
    · rw [if_neg hxy] at h1
      have hlt : x < y := by
        by_contra hn
        rw [if_neg hn] at h1
        exact absurd h1 (by decide)
      by_cases hyz : y = z
      · subst hyz
        rw [if_neg hxy, if_pos hlt]
        decide
      · rw [if_neg hyz] at h2
        have hlt2 : y < z := by
          by_contra hn
          rw [if_neg hn] at h2
          exact absurd h2 (by decide)
        have hxz : x < z := lt_trans hlt hlt2
        rw [if_neg (ne_of_lt hxz), if_pos hxz]
        decide

theorem strcmp_prefix : ∀ (a b : List Char), a <+: b → a ≠ b → strcmp a b < 0
  | [], [], _, h => absurd rfl h
  | [], _ :: _, _, _ => by simp [strcmp]
  | _ :: _, [], h, _ => by simp at h
  | x :: l, y :: r, h, hne => by
    rw [List.cons_prefix_cons] at h
    obtain ⟨hxy, hp⟩ := h
    subst hxy
    unfold strcmp
    rw [if_pos rfl]
    exact strcmp_prefix l r hp (fun e => hne (by rw [e]))

theorem uu_avl_find_none (tree : List unshare_unmount_node_t) (node : unshare_unmount_node_t)
    (h : uu_avl_find unshare_unmount_compare tree node = none) :
    ∀ x ∈ tree, x.un_mountp ≠ node.un_mountp := by
  intro x hx e
  unfold uu_avl_find at h
  rw [List.find?_eq_none] at h
  have := h x hx
  apply this
  simp [unshare_unmount_compare, e, strcmp_self]

theorem uu_avl_find_some (tree : List unshare_unmount_node_t) (node found : unshare_unmount_node_t)
    (h : uu_avl_find unshare_unmount_compare tree node = some found) :
    found ∈ tree ∧ found.un_mountp = node.un_mountp := by
  unfold uu_avl_find at h
  have h1 := List.mem_of_find?_eq_some h
  have h2 := List.find?_some h
  refine ⟨h1, ?_⟩
  simp only [unshare_unmount_compare, beq_iff_eq] at h2
  exact strcmp_eq_zero _ _ h2

theorem mem_uu_avl_insert {α : Type} (cmp : α → α → Int) (tree : List α) (node a : α) :
    a ∈ uu_avl_insert cmp tree node ↔ a = node ∨ a ∈ tree := by
  induction tree with
  | nil => simp [uu_avl_insert]
  | cons x t ih =>
    unfold uu_avl_insert
    by_cases h : cmp node x < 0
    · rw [if_pos h]
      simp
    · rw [if_neg h]
      simp only [List.mem_cons, ih]
      tauto

/-- The nodes of a tree in strictly ascending order of mountpoint. -/
theorem uu_avl_insert_sorted (tree : List unshare_unmount_node_t) (node : unshare_unmount_node_t)
    (hs : tree.Pairwise (fun a b => strcmp a.un_mountp b.un_mountp < 0))
    (hn : ∀ x ∈ tree, x.un_mountp ≠ node.un_mountp) :
    (uu_avl_insert unshare_unmount_compare tree node).Pairwise
      (fun a b => strcmp a.un_mountp b.un_mountp < 0) := by
  induction tree with
  | nil => simp [uu_avl_insert]
  | cons x t ih =>
    rw [List.pairwise_cons] at hs
    unfold uu_avl_insert
    by_cases h : unshare_unmount_compare node x < 0
    · rw [if_pos h]
      refine List.Pairwise.cons ?_ (List.Pairwise.cons hs.1 hs.2)
      intro a ha
      rcases List.mem_cons.1 ha with e | ha
      · rw [e]; exact h
      · exact strcmp_lt_trans _ _ _ h (hs.1 a ha)
    · rw [if_neg h]
      have hx : strcmp x.un_mountp node.un_mountp < 0 := by
        rw [strcmp_neg_iff_pos]
        have h0 : strcmp node.un_mountp x.un_mountp ≠ 0 := fun e =>
          hn x (List.mem_cons_self _ _) (strcmp_eq_zero _ _ e).symm
        unfold unshare_unmount_compare at h
        omega
      refine List.Pairwise.cons ?_ (ih hs.2 (fun y hy => hn y (List.mem_cons_of_mem _ hy)))
      intro a ha
      rcases (mem_uu_avl_insert _ _ _ _).1 ha with e | ha
      · rw [e]; exact hx
      · exact hs.1 a ha

/-- The loop over the mount table keeps the tree in strictly ascending order,
and adds to it exactly the mountpoints of the entries it does not skip. -/
theorem unshare_unmount_collect_spec (env : unmount_env) (type : Nat) :
    ∀ (entries : List mnttab) (ret : Int) (tree : List unshare_unmount_node_t) (ret1 : Int)
      (tree1 : List unshare_unmount_node_t),
      unshare_unmount_collect env type entries (ret, tree) = some (ret1, tree1) →
      tree.Pairwise (fun a b => strcmp a.un_mountp b.un_mountp < 0) →
      tree1.Pairwise (fun a b => strcmp a.un_mountp b.un_mountp < 0) ∧
        ∀ p, (∃ n ∈ tree1, n.un_mountp = p) ↔
          ((∃ n ∈ tree, n.un_mountp = p) ∨
            ∃ e ∈ entries, e.mnt_mountp = p ∧ strcmp e.mnt_fstype MNTTYPE_ZFS = 0 ∧
              has_char e.mnt_special '@' = false ∧
              ∃ zhp property, env.zfs_open e.mnt_special = some zhp ∧
                env.zfs_prop_get zhp type = some property ∧
                ¬ ((type = OP_SHARE ∧ strcmp property "off".toList = 0) ∨
                  (type = OP_MOUNT ∧ strcmp property "legacy".toList = 0)))
  | [], ret, tree, ret1, tree1, h, hs => by
    unfold unshare_unmount_collect at h
    cases h
    exact ⟨hs, fun p => by simp⟩
  | entry :: rest, ret, tree, ret1, tree1, h, hs => by
    unfold unshare_unmount_collect at h
    by_cases h1 : strcmp entry.mnt_fstype MNTTYPE_ZFS ≠ 0
    · rw [if_pos h1] at h
      obtain ⟨k1, k2⟩ := unshare_unmount_collect_spec env type rest ret tree ret1 tree1 h hs
      refine ⟨k1, fun p => ?_⟩
      rw [k2 p, List.exists_mem_cons_iff]
      constructor
      · rintro (a | a)
        · exact Or.inl a
        · exact Or.inr (Or.inr a)
      · rintro (a | ⟨a | a⟩)
        · exact Or.inl a
        · exact absurd a.2.1 h1
        · exact Or.inr a
    · rw [if_neg h1] at h
      by_cases h2 : has_char entry.mnt_special '@' = true
      · rw [if_pos h2] at h
        obtain ⟨k1, k2⟩ := unshare_unmount_collect_spec env type rest ret tree ret1 tree1 h hs
        refine ⟨k1, fun p => ?_⟩
        rw [k2 p, List.exists_mem_cons_iff]
        constructor
        · rintro (a | a)
          · exact Or.inl a
          · exact Or.inr (Or.inr a)
        · rintro (a | ⟨a | a⟩)
          · exact Or.inl a
          · rw [h2] at a
            exact absurd a.2.2.1 (by decide)
          · exact Or.inr a
      · rw [if_neg h2] at h
        cases h3 : env.zfs_open entry.mnt_special with
        | none =>
          rw [h3] at h
          obtain ⟨k1, k2⟩ := unshare_unmount_collect_spec env type rest 1 tree ret1 tree1 h hs
          refine ⟨k1, fun p => ?_⟩
          rw [k2 p, List.exists_mem_cons_iff]
          constructor
          · rintro (a | a)
            · exact Or.inl a
            · exact Or.inr (Or.inr a)
          · rintro (a | ⟨a | a⟩)
            · exact Or.inl a
            · obtain ⟨_, _, _, zhp, property, a1, _⟩ := a
              rw [h3] at a1
              cases a1
            · exact Or.inr a
        | some zhp =>
          rw [h3] at h
          simp only [] at h
          cases h4 : env.zfs_prop_get zhp type with
          | none =>
            rw [h4] at h
            cases h
          | some property =>
            rw [h4] at h
            simp only [] at h
            by_cases h5 : (type = OP_SHARE ∧ strcmp property "off".toList = 0) ∨
                (type = OP_MOUNT ∧ strcmp property "legacy".toList = 0)
            · rw [if_pos h5] at h
              obtain ⟨k1, k2⟩ :=
                unshare_unmount_collect_spec env type rest ret tree ret1 tree1 h hs
              refine ⟨k1, fun p => ?_⟩
              rw [k2 p, List.exists_mem_cons_iff]
              constructor
              · rintro (a | a)
                · exact Or.inl a
                · exact Or.inr (Or.inr a)
              · rintro (a | ⟨a | a⟩)
                · exact Or.inl a
                · obtain ⟨_, _, _, zhp1, property1, a1, a2, a3⟩ := a
                  rw [h3] at a1
                  cases a1
                  rw [h4] at a2
                  cases a2
                  exact absurd h5 a3
                · exact Or.inr a
            · rw [if_neg h5] at h
              have hq : strcmp entry.mnt_fstype MNTTYPE_ZFS = 0 ∧
                  has_char entry.mnt_special '@' = false ∧
                  ∃ zhp property, env.zfs_open entry.mnt_special = some zhp ∧
                    env.zfs_prop_get zhp type = some property ∧
                    ¬ ((type = OP_SHARE ∧ strcmp property "off".toList = 0) ∨
                      (type = OP_MOUNT ∧ strcmp property "legacy".toList = 0)) :=
                ⟨not_not.1 h1, by simpa using h2, zhp, property, h3, h4, h5⟩
              cases h6 : uu_avl_find unshare_unmount_compare tree
                  { un_zhp := zhp, un_mountp := entry.mnt_mountp } with
              | none =>
                rw [h6] at h
                have hn := uu_avl_find_none _ _ h6
                obtain ⟨k1, k2⟩ := unshare_unmount_collect_spec env type rest ret _ ret1 tree1 h
                  (uu_avl_insert_sorted _ _ hs hn)
                refine ⟨k1, fun p => ?_⟩
                rw [k2 p, List.exists_mem_cons_iff]
                constructor
                · rintro (⟨n, hn1, hn2⟩ | a)
                  · rcases (mem_uu_avl_insert _ _ _ _).1 hn1 with e | hn1
                    · rw [e] at hn2
                      exact Or.inr (Or.inl ⟨hn2, hq⟩)
                    · exact Or.inl ⟨n, hn1, hn2⟩
                  · exact Or.inr (Or.inr a)
                · rintro (⟨n, hn1, hn2⟩ | ⟨a | a⟩)
                  · exact Or.inl ⟨n, (mem_uu_avl_insert _ _ _ _).2 (Or.inr hn1), hn2⟩
                  · exact Or.inl ⟨_, (mem_uu_avl_insert _ _ _ _).2 (Or.inl rfl), a.1⟩
                  · exact Or.inr a
              | some found =>
                rw [h6] at h
                have hf := uu_avl_find_some _ _ _ h6
                obtain ⟨k1, k2⟩ :=
                  unshare_unmount_collect_spec env type rest ret tree ret1 tree1 h hs
                refine ⟨k1, fun p => ?_⟩
                rw [k2 p, List.exists_mem_cons_iff]
                constructor
                · rintro (a | a)
                  · exact Or.inl a
                  · exact Or.inr (Or.inr a)
                · rintro (a | ⟨a | a⟩)
                  · exact Or.inl a
                  · exact Or.inl ⟨found, hf.1, hf.2.trans a.1⟩
                  · exact Or.inr a

/-- The calls of the walk: one for each node, in the order of the nodes. -/
theorem unshare_unmount_walk_calls (env : unmount_env) (type : Nat) (flags : Int) :
    ∀ (nodes : List unshare_unmount_node_t) (ret : Int) (calls : List unmount_call),
      (unshare_unmount_walk env type flags nodes (ret, calls)).2 =
        calls ++ nodes.filterMap (fun n =>
          if type = OP_SHARE then some (.zfs_unshare n.un_zhp n.un_mountp)
          else if type = OP_MOUNT then some (.zfs_unmount n.un_zhp n.un_mountp flags)
          else none)
  | [], ret, calls => by simp [unshare_unmount_walk]
  | n :: rest, ret, calls => by
    unfold unshare_unmount_walk
    by_cases h1 : type = OP_SHARE
    · rw [if_pos h1, unshare_unmount_walk_calls env type flags rest, List.filterMap_cons,
        if_pos h1, List.append_assoc, List.singleton_append]
    · rw [if_neg h1]
      by_cases h2 : type = OP_MOUNT
      · rw [if_pos h2, unshare_unmount_walk_calls env type flags rest, List.filterMap_cons,
          if_neg h1, if_pos h2, List.append_assoc, List.singleton_append]
      · rw [if_neg h2, unshare_unmount_walk_calls env type flags rest, List.filterMap_cons,
          if_neg h1, if_neg h2]

/-- Of two different members of a list ordered by a relation, the one that is
not related to the other comes second. -/
theorem sublist_pair_of_pairwise {α : Type} (R : α → α → Prop) :
    ∀ (l : List α), l.Pairwise R → ∀ a b, a ∈ l → b ∈ l → ¬ R a b → a ≠ b →
      List.Sublist [b, a] l
  | [], _, _, _, ha, _, _, _ => by simp at ha
  | x :: t, hp, a, b, ha, hb, hab, hne => by
    rw [List.pairwise_cons] at hp
    rcases List.mem_cons.1 ha with e | ha
    · rcases List.mem_cons.1 hb with e2 | hb
      · exact absurd (e.trans e2.symm) hne
      · rw [e] at hab
        exact absurd (hp.1 b hb) hab
    · rcases List.mem_cons.1 hb with e2 | hb
      · rw [e2]
        exact List.Sublist.cons₂ _ (List.singleton_sublist.2 ha)
      · exact List.Sublist.cons _ (sublist_pair_of_pairwise R t hp.2 a b ha hb hab hne)

/-- The mountpoints of the calls of the walk are those of the nodes, in the
order of the nodes. -/
theorem unshare_unmount_walk_mountps (env : unmount_env) (type : Nat) (flags : Int)
    (htype : type = OP_SHARE ∨ type = OP_MOUNT) (nodes : List unshare_unmount_node_t)
    (ret : Int) :
    (unshare_unmount_walk env type flags nodes (ret, [])).2.map unmount_call.mountp =
      nodes.map (fun n => n.un_mountp) := by
  rw [unshare_unmount_walk_calls, List.nil_append]
  induction nodes with
  | nil => rfl
  | cons n t ih =>
    rw [List.filterMap_cons, List.map_cons, ← ih]
    rcases htype with h | h
    · rw [if_pos h]
      rfl
    · have h1 : ¬ type = OP_SHARE := by rw [h]; decide
      rw [if_neg h1, if_pos h]
      rfl

/-- In a list of mountpoints in strictly descending order no mountpoint
occurs twice, and a mountpoint beneath another comes before it. -/
theorem descending_mountps (mps : List (List Char))
    (hp : mps.Pairwise (fun a b => strcmp b a < 0)) :
    mps.Nodup ∧
      ∀ A B, A ∈ mps → B ∈ mps → A <+: B → A ≠ B → List.Sublist [B, A] mps := by
  constructor
  · refine List.Pairwise.imp ?_ hp
    intro a b h e
    rw [e, strcmp_self] at h
    exact absurd h (by decide)
  · intro A B hA hB hpre hne
    refine sublist_pair_of_pairwise _ mps hp A B hA hB ?_ hne
    have h1 := strcmp_prefix A B hpre hne
    have h2 := (strcmp_neg_iff_pos A B).1 h1
    omega

/-- C17: the order of `zfs unmount -a` and `zfs unshare -a`.  When the options
ask for all file systems, the mountpoints of the calls of `zfs_unmount`
(`zfs_unshare` for `OP_SHARE`) are in strictly descending `strcmp` order, no
mountpoint is passed twice, a mountpoint B beneath a mountpoint A (A a proper
prefix of B) is passed before A, every call is of the kind of the operation
with the flags of the options, and, unless a `verify` fails, the function
returns and the mountpoints passed are exactly those of the entries of the
mount table that are not skipped. -/
theorem unshare_unmount_all_deepest_first (env : unmount_env) (type : Nat) (opts : List Char)
    (flags : Int) (htype : type = OP_SHARE ∨ type = OP_MOUNT)
    (hall : unshare_unmount_getopt type opts (false, 0) = some (true, flags)) :
    ((unshare_unmount env type opts []).calls.map unmount_call.mountp).Pairwise
        (fun a b => strcmp b a < 0) ∧
      ((unshare_unmount env type opts []).calls.map unmount_call.mountp).Nodup ∧
      (∀ A B, A ∈ (unshare_unmount env type opts []).calls.map unmount_call.mountp →
        B ∈ (unshare_unmount env type opts []).calls.map unmount_call.mountp →
        A <+: B → A ≠ B →
        List.Sublist [B, A] ((unshare_unmount env type opts []).calls.map unmount_call.mountp)) ∧
      (∀ c ∈ (unshare_unmount env type opts []).calls,
        (type = OP_MOUNT → ∃ zhp, c = .zfs_unmount zhp c.mountp flags) ∧
          (type = OP_SHARE → ∃ zhp, c = .zfs_unshare zhp c.mountp)) ∧
      ((unshare_unmount env type opts []).result ≠ .verify_failed →
        (∃ v, (unshare_unmount env type opts []).result = .returned v) ∧
          ∀ p, p ∈ (unshare_unmount env type opts []).calls.map unmount_call.mountp ↔
            ∃ e ∈ env.mnttab_file, e.mnt_mountp = p ∧ strcmp e.mnt_fstype MNTTYPE_ZFS = 0 ∧
              has_char e.mnt_special '@' = false ∧
              ∃ zhp property, env.zfs_open e.mnt_special = some zhp ∧
                env.zfs_prop_get zhp type = some property ∧
                ¬ ((type = OP_SHARE ∧ strcmp property "off".toList = 0) ∨
                  (type = OP_MOUNT ∧ strcmp property "legacy".toList = 0))) := by
  cases hc : unshare_unmount_collect env type env.mnttab_file (0, []) with
  | none =>
    have e : unshare_unmount env type opts [] = { result := .verify_failed, calls := [] } := by
      unfold unshare_unmount
      rw [hall]
      simp only [hc, if_true, List.length_nil, ne_eq, not_true_eq_false, if_false]
    rw [e]
    refine ⟨List.Pairwise.nil, List.nodup_nil, ?_, ?_, ?_⟩
    · intro A B hA
      simp at hA
    · intro c hc
      simp at hc
    · intro h
      exact absurd rfl h
  | some s =>
    obtain ⟨ret, tree⟩ := s
    have e : unshare_unmount env type opts [] =
        { result := .returned
            (unshare_unmount_walk env type flags (uu_avl_walk_reverse tree) (ret, [])).1,
          calls := (unshare_unmount_walk env type flags (uu_avl_walk_reverse tree) (ret, [])).2 } := by
      unfold unshare_unmount
      rw [hall]
      simp only [hc, if_true, List.length_nil, ne_eq, not_true_eq_false, if_false]
    obtain ⟨k1, k2⟩ := unshare_unmount_collect_spec env type env.mnttab_file 0 [] ret tree hc
      List.Pairwise.nil
    have hm : (unshare_unmount env type opts []).calls.map unmount_call.mountp =
        (tree.map (fun n => n.un_mountp)).reverse := by
      rw [e]
      simp only []
      rw [unshare_unmount_walk_mountps env type flags htype, uu_avl_walk_reverse, List.map_reverse]
    have hp : ((unshare_unmount env type opts []).calls.map unmount_call.mountp).Pairwise
        (fun a b => strcmp b a < 0) := by
      rw [hm, List.pairwise_reverse, List.pairwise_map]
      exact k1
    obtain ⟨d1, d2⟩ := descending_mountps _ hp
    refine ⟨hp, d1, d2, ?_, ?_⟩
    · intro c hc
      rw [e] at hc
      simp only [] at hc
      rw [unshare_unmount_walk_calls, List.nil_append, List.mem_filterMap] at hc
      obtain ⟨n, _, hn⟩ := hc
      constructor
      · intro h
        have h1 : ¬ type = OP_SHARE := by rw [h]; decide
        rw [if_neg h1, if_pos h] at hn
        cases hn
        exact ⟨n.un_zhp, rfl⟩
      · intro h
        rw [if_pos h] at hn
        cases hn
        exact ⟨n.un_zhp, rfl⟩
    · intro _
      refine ⟨⟨_, by rw [e]⟩, fun p => ?_⟩
      rw [hm, List.mem_reverse, List.mem_map]
      have := k2 p
      simp only [List.not_mem_nil, false_and, exists_false, false_or] at this
      exact this

/-- Witness of C17: `zfs unmount -a -f` on a mount table with file systems
beneath one another, a repeated mountpoint, a snapshot, a legacy mount and an
entry of another type. -/
theorem unshare_unmount_all_deepest_first_witness :
    (unshare_unmount demo_unmount_env OP_MOUNT ['a', 'f'] []).calls.map unmount_call.mountp =
        ["/tank/a/b".toList, "/tank/a".toList, "/tank".toList, "/home".toList] ∧
      (unshare_unmount demo_unmount_env OP_MOUNT ['a', 'f'] []).result = .returned 1 ∧
      List.Sublist ["/tank/a/b".toList, "/tank".toList]
        ((unshare_unmount demo_unmount_env OP_MOUNT ['a', 'f'] []).calls.map
          unmount_call.mountp) :=
  ⟨by decide, by decide,
    (unshare_unmount_all_deepest_first demo_unmount_env OP_MOUNT ['a', 'f'] MS_FORCE
      (Or.inr rfl) (by decide)).2.2.1 "/tank".toList "/tank/a/b".toList (by decide) (by decide)
      (by decide) (by decide)⟩

/-! ## libzfs_pool.c: zpool_get_errlog -/

theorem length_le_bytes : ∀ (n x : Nat), (le_bytes n x).length = n
  | 0, _ => rfl
  | n + 1, x => by simp [le_bytes, length_le_bytes n]

theorem le_bytes_inj : ∀ (n x y : Nat), x < 256 ^ n → y < 256 ^ n →
    le_bytes n x = le_bytes n y → x = y
  | 0, x, y, hx, hy, _ => by
    simp at hx hy
    omega
  | n + 1, x, y, hx, hy, h => by
    unfold le_bytes at h
    rw [List.cons.injEq] at h
    have h2 := le_bytes_inj n (x / 256) (y / 256)
      (by rw [pow_succ] at hx; omega) (by rw [pow_succ] at hy; omega) h.2
    have h1 := h.1
    omega

theorem length_zbookmark_bytes (zb : zbookmark_t) :
    (zbookmark_bytes zb).length = sizeof_zbookmark_t := by
  simp [zbookmark_bytes, length_le_bytes, sizeof_zbookmark_t]

theorem zbookmark_bytes_inj (a b : zbookmark_t)
    (ha : a.zb_objset < U64 ∧ a.zb_object < U64 ∧ a.zb_level < U64 ∧ a.zb_blkid < U64)
    (hb : b.zb_objset < U64 ∧ b.zb_object < U64 ∧ b.zb_level < U64 ∧ b.zb_blkid < U64)
    (h : zbookmark_bytes a = zbookmark_bytes b) : a = b := by
  unfold zbookmark_bytes at h
  have e : U64 = 256 ^ 8 := by decide
  rw [e] at ha hb
  obtain ⟨h123, h4⟩ := List.append_inj h (by simp [length_le_bytes])
  obtain ⟨h12, h3⟩ := List.append_inj h123 (by simp [length_le_bytes])
  obtain ⟨h1, h2⟩ := List.append_inj h12 (by simp [length_le_bytes])
  cases a
  cases b
  simp only [zbookmark_t.mk.injEq]
  exact ⟨le_bytes_inj 8 _ _ ha.1 hb.1 h1, le_bytes_inj 8 _ _ ha.2.1 hb.2.1 h2,
    le_bytes_inj 8 _ _ ha.2.2.1 hb.2.2.1 h3, le_bytes_inj 8 _ _ ha.2.2.2 hb.2.2.2 h4⟩

theorem memcmp_self : ∀ (a : List Nat) (n : Nat), memcmp a a n = 0
  | _, 0 => by simp [memcmp]
  | [], _ + 1 => by simp [memcmp]
  | x :: l, n + 1 => by simp [memcmp, memcmp_self l n]

theorem memcmp_eq_zero : ∀ (a b : List Nat) (n : Nat), a.length = n → b.length = n →
    memcmp a b n = 0 → a = b
  | [], [], _, _, _, _ => rfl
  | [], _ :: _, n, ha, hb, _ => by simp at ha hb; omega
  | _ :: _, [], n, ha, hb, _ => by simp at ha hb; omega
  | _ :: _, _ :: _, 0, ha, _, _ => by simp at ha
  | x :: l, y :: r, n + 1, ha, hb, h => by
    unfold memcmp at h
    by_cases hxy : x = y
    · rw [if_pos hxy] at h
      rw [hxy, memcmp_eq_zero l r n (by simpa using ha) (by simpa using hb) h]
    · rw [if_neg hxy] at h
      split_ifs at h
      omega

theorem memcmp_neg_iff_pos : ∀ (a b : List Nat) (n : Nat), memcmp a b n < 0 ↔ 0 < memcmp b a n
  | _, _, 0 => by simp [memcmp]
  | [], [], _ + 1 => by simp [memcmp]
  | [], _ :: _, _ + 1 => by simp [memcmp]
  | _ :: _, [], _ + 1 => by simp [memcmp]
  | x :: l, y :: r, n + 1 => by
    unfold memcmp
    by_cases hxy : x = y
    · rw [if_pos hxy, if_pos hxy.symm]
      exact memcmp_neg_iff_pos l r n
    · rw [if_neg hxy, if_neg (Ne.symm hxy)]
      rcases lt_or_gt_of_ne hxy with h | h
      · rw [if_pos h, if_neg (not_lt_of_gt h)]
        simp
      · rw [if_neg (not_lt_of_gt h), if_pos h]
        simp

theorem memcmp_lt_trans : ∀ (a b c : List Nat) (n : Nat), memcmp a b n < 0 → memcmp b c n < 0 →
    memcmp a c n < 0
  | _, _, _, 0, h, _ => by simp [memcmp] at h
  | [], _, _, _ + 1, h, _ => by simp [memcmp] at h
  | _ :: _, [], _, _ + 1, h, _ => by simp [memcmp] at h
  | _ :: _, _ :: _, [], _ + 1, _, h => by simp [memcmp] at h
  | x :: l, y :: r, z :: s, n + 1, h1, h2 => by
    unfold memcmp at h1 h2 ⊢
    by_cases hxy : x = y
    · subst hxy
      rw [if_pos rfl] at h1
      by_cases hxz : x = z
      · subst hxz
        rw [if_pos rfl] at h2 ⊢
        exact memcmp_lt_trans l r s n h1 h2
      · rw [if_neg hxz] at h2 ⊢
        exact h2
    · rw [if_neg hxy] at h1
      have hlt : x < y := by
        by_contra hn
        rw [if_neg hn] at h1
        exact absurd h1 (by decide)
      by_cases hyz : y = z
      · subst hyz
        rw [if_neg hxy, if_pos hlt]
        decide
      · rw [if_neg hyz] at h2
        have hlt2 : y < z := by
          by_contra hn
          rw [if_neg hn] at h2
          exact absurd h2 (by decide)
        have hxz : x < z := lt_trans hlt hlt2
        rw [if_neg (ne_of_lt hxz), if_pos hxz]
        decide

theorem zbookmark_compare_total (a b : zbookmark_t) :
    zbookmark_compare a b ≤ 0 ∨ zbookmark_compare b a ≤ 0 := by
  unfold zbookmark_compare
  have := memcmp_neg_iff_pos (zbookmark_bytes b) (zbookmark_bytes a) sizeof_zbookmark_t
  omega

theorem zbookmark_compare_trans (a b c : zbookmark_t) (h1 : zbookmark_compare a b ≤ 0)
    (h2 : zbookmark_compare b c ≤ 0) : zbookmark_compare a c ≤ 0 := by
  unfold zbookmark_compare at h1 h2 ⊢
  rcases lt_or_eq_of_le h1 with h1 | h1
  · rcases lt_or_eq_of_le h2 with h2 | h2
    · exact le_of_lt (memcmp_lt_trans _ _ _ _ h1 h2)
    · rw [← memcmp_eq_zero _ _ _ (length_zbookmark_bytes b) (length_zbookmark_bytes c) h2]
      exact le_of_lt h1
  · rw [memcmp_eq_zero _ _ _ (length_zbookmark_bytes a) (length_zbookmark_bytes b) h1]
    exact h2

/-- The array after `qsort` with `zbookmark_compare` is in ascending order and
holds the same bookmarks. -/
theorem qsort_zbookmark_compare (base : List zbookmark_t) :
    (qsort zbookmark_compare base).Pairwise (fun a b => zbookmark_compare a b ≤ 0) ∧
      (qsort zbookmark_compare base).Perm base := by
  haveI : IsTotal zbookmark_t (fun a b => zbookmark_compare a b ≤ 0) :=
    ⟨zbookmark_compare_total⟩
  haveI : IsTrans zbookmark_t (fun a b => zbookmark_compare a b ≤ 0) :=
    ⟨zbookmark_compare_trans⟩
  exact ⟨List.sorted_insertionSort _ base, List.perm_insertionSort _ base⟩

theorem zbookmark_compare_lt_of_lt_of_le (a b c : zbookmark_t) (h1 : zbookmark_compare a b < 0)
    (h2 : zbookmark_compare b c ≤ 0) : zbookmark_compare a c < 0 := by
  unfold zbookmark_compare at h1 h2 ⊢
  rcases lt_or_eq_of_le h2 with h2 | h2
  · exact memcmp_lt_trans _ _ _ _ h1 h2
  · rw [← memcmp_eq_zero _ _ _ (length_zbookmark_bytes b) (length_zbookmark_bytes c) h2]
    exact h1

theorem zbookmark_compare_eq_zero (a b : zbookmark_t)
    (ha : a.zb_objset < U64 ∧ a.zb_object < U64 ∧ a.zb_level < U64 ∧ a.zb_blkid < U64)
    (hb : b.zb_objset < U64 ∧ b.zb_object < U64 ∧ b.zb_level < U64 ∧ b.zb_blkid < U64) :
    zbookmark_compare a b = 0 ↔ a = b := by
  constructor
  · intro h
    exact zbookmark_bytes_inj a b ha hb
      (memcmp_eq_zero _ _ _ (length_zbookmark_bytes a) (length_zbookmark_bytes b) h)
  · intro h
    rw [h]
    exact memcmp_self _ _

/-- With memory for every list and string, the body of the loop that fills in
the results makes a list, the same whatever its number. -/
theorem errlog_entry_some (env : errlog_env) (halloc : ∀ j, env.nvlist_alloc j = 0)
    (hadd : ∀ nv name val, env.nvlist_add_string nv name val = 0) (zb_i : zbookmark_t) :
    ∃ nv, ∀ j, errlog_entry env j zb_i = some nv := by
  have hs : ∀ nv name val, errlog_add_string env nv name val =
      some (nv.filter (fun p => p.1 ≠ name) ++ [(name, val)]) := by
    intro nv name val
    unfold errlog_add_string
    rw [if_neg (by rw [hadd]; decide)]
  refine ⟨(errlog_entry env 0 zb_i).getD [], fun j => ?_⟩
  unfold errlog_entry
  rw [if_neg (by rw [halloc]; decide), if_neg (by rw [halloc]; decide)]
  cases h : env.ioctl_bookmark_name zb_i with
  | none => simp only [hs, Option.some_bind, Option.getD_some]
  | some s =>
    obtain ⟨s1, s2, s3⟩ := s
    simp only [hs, Option.some_bind, Option.getD_some]

/-- Both loops over a sorted array: they keep the bookmarks that differ from
the one before, which are in strictly ascending order. -/
theorem errlog_loops (env : errlog_env) (halloc : ∀ j, env.nvlist_alloc j = 0)
    (hadd : ∀ nv name val, env.nvlist_add_string nv name val = 0) :
    ∀ (l : List zbookmark_t) (prev : Option zbookmark_t) (j : Nat)
      (log : List (List (String × String))),
      (∀ b ∈ l, b.zb_objset < U64 ∧ b.zb_object < U64 ∧ b.zb_level < U64 ∧ b.zb_blkid < U64) →
      (∀ p, prev = some p →
        p.zb_objset < U64 ∧ p.zb_object < U64 ∧ p.zb_level < U64 ∧ p.zb_blkid < U64) →
      l.Pairwise (fun a b => zbookmark_compare a b ≤ 0) →
      (∀ p, prev = some p → ∀ x ∈ l, zbookmark_compare p x ≤ 0) →
      ∃ D : List zbookmark_t, D.Pairwise (fun a b => zbookmark_compare a b < 0) ∧
        (∀ p, prev = some p → ∀ x ∈ D, zbookmark_compare p x < 0) ∧
        (∀ x, x ∈ D ↔ x ∈ l ∧ prev ≠ some x) ∧
        errlog_count prev l j = j + D.length ∧
        ∃ L, errlog_fill env prev l log = some (log ++ L) ∧
          ∀ k, D.map (errlog_entry env k) = L.map some
  | [], prev, j, log, _, _, _, _ =>
    ⟨[], List.Pairwise.nil, fun _ _ x hx => absurd hx (List.not_mem_nil x),
      fun x => by simp, by simp [errlog_count], [], by simp [errlog_fill], fun _ => rfl⟩
  | b :: rest, prev, j, log, hwf, hwfp, hs, hp => by
    rw [List.pairwise_cons] at hs
    have hwfb := hwf b (List.mem_cons_self _ _)
    obtain ⟨D, d1, d2, d3, d4, L, d5, d6⟩ := errlog_loops env halloc hadd rest (some b)
      (if errlog_repeated prev b then j else j + 1)
      (if errlog_repeated prev b then log
        else log ++ [(errlog_entry env log.length b).getD []])
      (fun x hx => hwf x (List.mem_cons_of_mem _ hx))
      (fun p e => by cases e; exact hwfb) hs.2 (fun p e => by cases e; exact hs.1)
    by_cases hr : errlog_repeated prev b = true
    · rw [if_pos hr] at d4 d5
      have hpb : prev = some b := by
        unfold errlog_repeated at hr
        cases hprev : prev with
        | none => rw [hprev] at hr; cases hr
        | some p =>
          rw [hprev] at hr
          simp only [beq_iff_eq] at hr
          rw [(zbookmark_compare_eq_zero p b (hwfp p hprev) hwfb).1 hr]
      refine ⟨D, d1, ?_, ?_, ?_, L, ?_, d6⟩
      · intro p e
        rw [hpb] at e
        cases e
        exact d2 b rfl
      · intro x
        rw [d3 x, hpb, List.mem_cons]
        constructor
        · rintro ⟨a1, a2⟩
          exact ⟨Or.inr a1, a2⟩
        · rintro ⟨a1 | a1, a2⟩
          · rw [a1] at a2
            exact absurd rfl a2
          · exact ⟨a1, a2⟩
      · unfold errlog_count
        rw [if_pos hr]
        exact d4
      · unfold errlog_fill
        rw [if_pos hr]
        exact d5
    · rw [if_neg hr] at d4 d5
      have hlt : ∀ p, prev = some p → zbookmark_compare p b < 0 := by
        intro p e
        have h1 := hp p e b (List.mem_cons_self _ _)
        have h2 : zbookmark_compare p b ≠ 0 := by
          intro h0
          apply hr
          unfold errlog_repeated
          rw [e]
          simp only [beq_iff_eq]
          exact h0
        omega
      obtain ⟨nv, hnv⟩ := errlog_entry_some env halloc hadd b
      refine ⟨b :: D, List.Pairwise.cons (d2 b rfl) d1, ?_, ?_, ?_, nv :: L, ?_, ?_⟩
      · intro p e x hx
        rcases List.mem_cons.1 hx with e2 | hx
        · rw [e2]
          exact hlt p e
        · exact zbookmark_compare_lt_of_lt_of_le _ _ _ (hlt p e) (le_of_lt (d2 b rfl x hx))
      · intro x
        rw [List.mem_cons, List.mem_cons, d3 x]
        constructor
        · rintro (a | ⟨a1, a2⟩)
          · refine ⟨Or.inl a, fun e => ?_⟩
            have := hlt x e
            rw [a, zbookmark_compare, memcmp_self] at this
            exact absurd this (by decide)
          · refine ⟨Or.inr a1, fun e => ?_⟩
            have h1 := hlt x e
            have h2 := hs.1 x a1
            have h3 := zbookmark_compare_lt_of_lt_of_le _ _ _ h1 h2
            rw [zbookmark_compare, memcmp_self] at h3
            exact absurd h3 (by decide)
        · rintro ⟨a1 | a1, a2⟩
          · exact Or.inl a1
          · by_cases hxb : x = b
            · exact Or.inl hxb
            · exact Or.inr ⟨a1, fun e => hxb (Option.some.inj e).symm⟩
      · unfold errlog_count
        rw [if_neg hr, d4, List.length_cons]
        omega
      · unfold errlog_fill
        rw [if_neg hr, hnv]
        simp only []
        rw [hnv, Option.getD_some] at d5
        rw [d5, List.append_assoc, List.singleton_append]
      · intro k
        rw [List.map_cons, List.map_cons, hnv, d6 k]

/-- The first call on a handle without a cached list, when memory is there and
the first `ZFS_IOC_ERROR_LOG` request succeeds: the steps up to the sorted
array. -/
theorem zpool_get_errlog_first (env : errlog_env) (fuel : Nat) (zhp : zpool_handle_t)
    (list : Bool) (count errno dst_size : Nat) (dst : List zbookmark_t)
    (hnone : zhp.zpool_error_log = none)
    (hcount : cfg_lookup_uint64 zhp.zpool_config ZPOOL_CONFIG_ERRCOUNT = some count)
    (hc64 : count < U64) (hzalloc : ∀ n, env.zfs_alloc n = true)
    (hioctl : env.ioctl_error_log 0 count =
      { ret := 0, errno := errno, dst := dst, dst_size := dst_size })
    (hlen : dst.length = count) (hrem : dst_size ≤ count) :
    zpool_get_errlog env (fuel + 1) zhp list =
      if ¬ list then
        (.returned 0 none
          (some (errlog_count none (qsort zbookmark_compare (dst.drop dst_size)) 0)), zhp)
      else
        match errlog_fill env none (qsort zbookmark_compare (dst.drop dst_size)) [] with
        | none =>
          (.returned (-1) none none,
            { zhp with
              zpool_error_count :=
                errlog_count none (qsort zbookmark_compare (dst.drop dst_size)) 0,
              zpool_error_log := none })
        | some log =>
          (.returned 0 (some log)
              (some (errlog_count none (qsort zbookmark_compare (dst.drop dst_size)) 0)),
            { zhp with
              zpool_error_count :=
                errlog_count none (qsort zbookmark_compare (dst.drop dst_size)) 0,
              zpool_error_log := some log }) := by
  have h1 : (count + U64 - dst_size % U64) % U64 = count - dst_size := by
    have : dst_size < U64 := lt_of_le_of_lt hrem hc64
    rw [Nat.mod_eq_of_lt this]
    have e : count + U64 - dst_size = (count - dst_size) + U64 := by omega
    rw [e, Nat.add_mod_right]
    exact Nat.mod_eq_of_lt (by omega)
  have h2 : (dst.drop dst_size).take (count - dst_size) = dst.drop dst_size := by
    apply List.take_of_length_le
    rw [List.length_drop, hlen]
  have h3 : errlog_ioctl_loop env (fuel + 1) 0 count = some (some (dst, dst_size)) := by
    unfold errlog_ioctl_loop
    simp only [hioctl, ne_eq, not_true_eq_false, if_false]
  unfold zpool_get_errlog
  simp only [hnone, hcount, Nat.mod_eq_of_lt hc64, hzalloc, not_true_eq_false, if_false, h3, h1,
    h2]

/-- C16: the error log without repetitions.  On a handle with no list cached,
when memory is there and the first `ZFS_IOC_ERROR_LOG` request succeeds and
leaves the bookmarks `dst.drop dst_size` (`count - dst_size` of them),
`zpool_get_errlog` returns 0, stores in `nelem` the number of different
bookmarks among them and in `list` one entry for each different bookmark, in
strictly ascending order of the byte-wise comparison; it keeps both in the
handle, and a later call that asks for the list returns the same list and
number and leaves the handle as it is.  Without `list` the call stores the same
number and leaves the handle alone. -/
theorem zpool_get_errlog_unique (env : errlog_env) (fuel : Nat) (zhp : zpool_handle_t)
    (count errno dst_size : Nat) (dst : List zbookmark_t)
    (hnone : zhp.zpool_error_log = none)
    (hcount : cfg_lookup_uint64 zhp.zpool_config ZPOOL_CONFIG_ERRCOUNT = some count)
    (hc64 : count < U64) (hzalloc : ∀ n, env.zfs_alloc n = true)
    (hioctl : env.ioctl_error_log 0 count =
      { ret := 0, errno := errno, dst := dst, dst_size := dst_size })
    (hlen : dst.length = count) (hrem : dst_size ≤ count)
    (hwf : ∀ b ∈ dst,
      b.zb_objset < U64 ∧ b.zb_object < U64 ∧ b.zb_level < U64 ∧ b.zb_blkid < U64)
    (halloc : ∀ j, env.nvlist_alloc j = 0)
    (hadd : ∀ nv name val, env.nvlist_add_string nv name val = 0) :
    ∃ (D : List zbookmark_t) (L : List (List (String × String))),
      D.Pairwise (fun a b => zbookmark_compare a b < 0) ∧
      (∀ b, b ∈ D ↔ b ∈ dst.drop dst_size) ∧
      D.length = (dst.drop dst_size).toFinset.card ∧
      (∀ j, D.map (errlog_entry env j) = L.map some) ∧
      zpool_get_errlog env (fuel + 1) zhp true =
        (.returned 0 (some L) (some D.length),
          { zhp with zpool_error_count := D.length, zpool_error_log := some L }) ∧
      (∀ fuel2, zpool_get_errlog env fuel2
          { zhp with zpool_error_count := D.length, zpool_error_log := some L } true =
        (.returned 0 (some L) (some D.length),
          { zhp with zpool_error_count := D.length, zpool_error_log := some L })) ∧
      zpool_get_errlog env (fuel + 1) zhp false = (.returned 0 none (some D.length), zhp) := by
  obtain ⟨q1, q2⟩ := qsort_zbookmark_compare (dst.drop dst_size)
  obtain ⟨D, d1, _, d3, d4, L, d5, d6⟩ := errlog_loops env halloc hadd
    (qsort zbookmark_compare (dst.drop dst_size)) none 0 []
    (fun b hb => hwf b (List.mem_of_mem_drop (q2.mem_iff.1 hb)))
    (fun p e => by cases e) q1 (fun p e => by cases e)
  have hmem : ∀ b, b ∈ D ↔ b ∈ dst.drop dst_size := by
    intro b
    rw [d3 b, q2.mem_iff]
    simp
  have hnd : D.Nodup := by
    refine List.Pairwise.imp ?_ d1
    intro a b h e
    rw [e, zbookmark_compare, memcmp_self] at h
    exact absurd h (by decide)
  rw [Nat.zero_add] at d4
  rw [List.nil_append] at d5
  refine ⟨D, L, d1, hmem, ?_, d6, ?_, ?_, ?_⟩
  · rw [← List.toFinset_card_of_nodup hnd]
    congr 1
    ext b
    rw [List.mem_toFinset, List.mem_toFinset, hmem b]
  · rw [zpool_get_errlog_first env fuel zhp true count errno dst_size dst hnone hcount hc64
      hzalloc hioctl hlen hrem, d4, d5]
    rfl
  · intro fuel2
    rfl
  · rw [zpool_get_errlog_first env fuel zhp false count errno dst_size dst hnone hcount hc64
      hzalloc hioctl hlen hrem, d4]
    rfl

set_option maxRecDepth 100000 in
theorem demo_errlog_run :
    zpool_get_errlog demo_errlog_env 1 demo_errlog_zhp true =
      (.returned 0
        (some [[("dataset", "5"), ("object", "4"), ("range", "lvl=1 blkid=0")],
          [("dataset", "5"), ("object", "104"), ("range", "lvl=0 blkid=1")],
          [("dataset", "tank/home"), ("object", "/a/file"), ("range", "0-1ffff")]])
        (some 3),
        { demo_errlog_zhp with
          zpool_error_count := 3,
          zpool_error_log :=
            some [[("dataset", "5"), ("object", "4"), ("range", "lvl=1 blkid=0")],
              [("dataset", "5"), ("object", "104"), ("range", "lvl=0 blkid=1")],
              [("dataset", "tank/home"), ("object", "/a/file"), ("range", "0-1ffff")]] }) := by
  decide

/-- Witness of C16: five bookmarks, three of them different; the call stores
three entries. -/
theorem zpool_get_errlog_unique_witness :
    (zpool_get_errlog demo_errlog_env 1 demo_errlog_zhp true).1 =
        .returned 0
          (some [[("dataset", "5"), ("object", "4"), ("range", "lvl=1 blkid=0")],
            [("dataset", "5"), ("object", "104"), ("range", "lvl=0 blkid=1")],
            [("dataset", "tank/home"), ("object", "/a/file"), ("range", "0-1ffff")]])
          (some 3) ∧
    ∃ (D : List zbookmark_t) (L : List (List (String × String))),
      D.Pairwise (fun a b => zbookmark_compare a b < 0) ∧
      (∀ b, b ∈ D ↔
        b ∈ ([⟨0, 0, 0, 0⟩, ⟨21, 7, 0, 3⟩, ⟨5, 260, 0, 1⟩, ⟨21, 7, 0, 3⟩, ⟨5, 4, 1, 0⟩,
          ⟨5, 260, 0, 1⟩] : List zbookmark_t).drop 1) ∧
      D.length = (([⟨0, 0, 0, 0⟩, ⟨21, 7, 0, 3⟩, ⟨5, 260, 0, 1⟩, ⟨21, 7, 0, 3⟩, ⟨5, 4, 1, 0⟩,
          ⟨5, 260, 0, 1⟩] : List zbookmark_t).drop 1).toFinset.card ∧
      (∀ j, D.map (errlog_entry demo_errlog_env j) = L.map some) ∧
      zpool_get_errlog demo_errlog_env (0 + 1) demo_errlog_zhp true =
        (.returned 0 (some L) (some D.length),
          { demo_errlog_zhp with zpool_error_count := D.length, zpool_error_log := some L }) ∧
      (∀ fuel2, zpool_get_errlog demo_errlog_env fuel2
          { demo_errlog_zhp with zpool_error_count := D.length, zpool_error_log := some L }
          true =
        (.returned 0 (some L) (some D.length),
          { demo_errlog_zhp with zpool_error_count := D.length, zpool_error_log := some L })) ∧
      zpool_get_errlog demo_errlog_env (0 + 1) demo_errlog_zhp false =
        (.returned 0 none (some D.length), demo_errlog_zhp) :=
  ⟨by rw [demo_errlog_run],
    zpool_get_errlog_unique demo_errlog_env 0 demo_errlog_zhp 6 0 1 _ rfl rfl (by decide)
      (fun _ => rfl) rfl rfl (by decide) (by decide) (fun _ => rfl) (fun _ _ _ => rfl)⟩

/-! ## dbuf.h: the buffer layer -/

theorem count_set_true : ∀ (l : List Bool) (i : Nat), i < l.length → l.getD i false = false →
    (l.set i true).count true = l.count true + 1
  | [], _, h, _ => by simp at h
  | b :: t, 0, _, h => by
    simp only [List.getD_cons_zero] at h
    subst h
    simp
  | b :: t, i + 1, hi, h => by
    simp only [List.getD_cons_succ] at h
    have := count_set_true t i (by simpa using hi) h
    simp only [List.set_cons_succ, List.count_cons, this]
    omega

theorem count_set_false : ∀ (l : List Bool) (i : Nat), l.getD i false = true →
    (l.set i false).count true + 1 = l.count true
  | [], _, h => by simp at h
  | b :: t, 0, h => by
    simp only [List.getD_cons_zero] at h
    subst h
    simp
  | b :: t, i + 1, h => by
    simp only [List.getD_cons_succ] at h
    have := count_set_false t i h
    simp only [List.set_cons_succ, List.count_cons]
    omega

theorem getD_false_of_count (l : List Bool) (h : l.count true = 0) (i : Nat) :
    l.getD i false = false := by
  rw [List.count_eq_zero] at h
  by_contra hn
  have ht : l.getD i false = true := by simpa using hn
  by_cases hi : i < l.length
  · rw [List.getD_eq_getElem l false hi] at ht
    exact h (ht ▸ List.getElem_mem hi)
  · rw [List.getD_eq_default l false (by omega)] at ht
    cases ht

theorem dbuf_inv_of_alive (db : dmu_buf_impl_t) (h1 : db.db_data_old.length = TXG_SIZE)
    (h2 : db.db_dirtycnt = db.db_data_old.count true) (hs : db.db_state ≠ .DB_EVICTING)
    (hf : db.freed = false) :
    db.db_data_old.length = TXG_SIZE ∧ db.db_dirtycnt = db.db_data_old.count true ∧
      ((db.db_state = .DB_EVICTING ∨ db.freed = true) → db.db_holds = 0 ∧ db.db_dirtycnt = 0) ∧
      (db.freed = true → db.db_state = .DB_EVICTING) := by
  refine ⟨h1, h2, ?_, ?_⟩
  · rintro (h | h)
    · exact absurd h hs
    · rw [hf] at h
      cases h
  · intro h
    rw [hf] at h
    cases h

/-- What holds of a buffer at all times is kept by every operation: the
slots are `TXG_SIZE`, the count of dirty records is the number of slots set, a
buffer on its way out has no reference and no dirty record, and a buffer that
was freed went through EVICTING. -/
theorem dbuf_step_inv (db db1 : dmu_buf_impl_t) (op : dbuf_op)
    (hi : db.db_data_old.length = TXG_SIZE ∧ db.db_dirtycnt = db.db_data_old.count true ∧
      ((db.db_state = .DB_EVICTING ∨ db.freed = true) → db.db_holds = 0 ∧ db.db_dirtycnt = 0) ∧
      (db.freed = true → db.db_state = .DB_EVICTING))
    (h : dbuf_step db op = some db1) :
    db1.db_data_old.length = TXG_SIZE ∧ db1.db_dirtycnt = db1.db_data_old.count true ∧
      ((db1.db_state = .DB_EVICTING ∨ db1.freed = true) →
        db1.db_holds = 0 ∧ db1.db_dirtycnt = 0) ∧
      (db1.freed = true → db1.db_state = .DB_EVICTING) := by
  obtain ⟨i1, i2, i3, i4⟩ := hi
  unfold dbuf_step at h
  by_cases hf : db.freed = true
  · rw [if_pos hf] at h
    cases h
  · rw [if_neg hf] at h
    have hf2 : db.freed = false := by simpa using hf
    have hlt : ∀ txg : Nat, txg &&& TXG_MASK < db.db_data_old.length := by
      intro txg
      have : txg &&& TXG_MASK ≤ TXG_MASK := Nat.and_le_right
      rw [i1]
      unfold TXG_MASK TXG_SIZE at *
      omega
    cases op with
    | dbuf_hold read =>
      simp only [] at h
      by_cases he : db.db_state = .DB_EVICTING
      · rw [if_pos he] at h
        cases h
      · rw [if_neg he] at h
        cases h
        refine dbuf_inv_of_alive _ i1 i2 ?_ hf2
        simp only []
        intro hs
        split_ifs at hs
        exact absurd hs he
    | dbuf_rele evict =>
      simp only [] at h
      by_cases h0 : db.db_holds = 0
      · rw [if_pos h0] at h
        cases h
      · rw [if_neg h0] at h
        have hne : db.db_state ≠ .DB_EVICTING := fun e => h0 (i3 (Or.inl e)).1
        by_cases hev : evict = true ∧
            dbuf_evictable { db with db_holds := db.db_holds - 1 } = true
        · rw [if_pos hev] at h
          cases h
          have h2 := hev.2
          simp only [dbuf_evictable, decide_eq_true_eq] at h2
          exact ⟨i1, i2, fun _ => ⟨h2.2.1, h2.2.2⟩, fun _ => rfl⟩
        · rw [if_neg hev] at h
          cases h
          exact dbuf_inv_of_alive _ i1 i2 hne hf2
    | dbuf_read =>
      simp only [] at h
      by_cases hu : db.db_state = .DB_UNCACHED
      · rw [if_pos hu] at h
        cases h
        exact dbuf_inv_of_alive _ i1 i2 (fun hs => by cases hs) hf2
      · rw [if_neg hu] at h
        by_cases hc : db.db_state = .DB_CACHED
        · rw [if_pos hc] at h
          cases h
          exact ⟨i1, i2, i3, i4⟩
        · rw [if_neg hc] at h
          cases h
    | dbuf_read_done checksum_ok =>
      simp only [] at h
      by_cases hr : db.db_state = .DB_READ
      · rw [if_pos hr] at h
        cases h
        refine dbuf_inv_of_alive _ i1 i2 ?_ hf2
        simp only []
        intro hs
        split_ifs at hs
      · rw [if_neg hr] at h
        cases h
    | dmu_buf_will_fill =>
      simp only [] at h
      by_cases hu : db.db_state = .DB_UNCACHED
      · rw [if_pos hu] at h
        cases h
        exact dbuf_inv_of_alive _ i1 i2 (fun hs => by cases hs) hf2
      · rw [if_neg hu] at h
        cases h
    | dbuf_fill_done =>
      simp only [] at h
      by_cases hu : db.db_state = .DB_FILL
      · rw [if_pos hu] at h
        cases h
        exact dbuf_inv_of_alive _ i1 i2 (fun hs => by cases hs) hf2
      · rw [if_neg hu] at h
        cases h
    | dbuf_dirty txg =>
      simp only [] at h
      by_cases hc : db.db_state = .DB_CACHED
      · rw [if_pos hc] at h
        by_cases hs : db.db_data_old.getD (txg &&& TXG_MASK) false = true
        · rw [if_pos hs] at h
          cases h
          exact ⟨i1, i2, i3, i4⟩
        · rw [if_neg hs] at h
          cases h
          refine dbuf_inv_of_alive _ (by simpa using i1) ?_ (fun hx => ?_) hf2
          · simp only []
            rw [count_set_true _ _ (hlt txg) (by simpa using hs), i2]
          · rw [show db.db_state = dbuf_states_t.DB_EVICTING from hx] at hc
            cases hc
      · rw [if_neg hc] at h
        cases h
    | dbuf_sync txg =>
      simp only [] at h
      by_cases hs : db.db_data_old.getD (txg &&& TXG_MASK) false = true
      · rw [if_pos hs] at h
        cases h
        have hcnt := count_set_false _ _ hs
        have hne : db.db_state ≠ .DB_EVICTING := by
          intro e
          have := (i3 (Or.inl e)).2
          rw [i2] at this
          omega
        refine dbuf_inv_of_alive _ (by simpa using i1) ?_ hne hf2
        simp only []
        rw [i2]
        omega
      · rw [if_neg hs] at h
        cases h
        exact ⟨i1, i2, i3, i4⟩
    | dbuf_clear =>
      simp only [] at h
      by_cases hev : dbuf_evictable db = true
      · rw [if_pos hev] at h
        cases h
        simp only [dbuf_evictable, decide_eq_true_eq] at hev
        exact ⟨i1, i2, fun _ => ⟨hev.2.1, hev.2.2⟩, fun _ => rfl⟩
      · rw [if_neg hev] at h
        cases h
    | dbuf_evict =>
      simp only [] at h
      by_cases hev : dbuf_evictable db = true
      · rw [if_pos hev] at h
        cases h
        simp only [dbuf_evictable, decide_eq_true_eq] at hev
        exact ⟨i1, i2, fun _ => ⟨hev.2.1, hev.2.2⟩, fun _ => rfl⟩
      · rw [if_neg hev] at h
        cases h
    | dbuf_destroy =>
      simp only [] at h
      by_cases he : db.db_state = .DB_EVICTING
      · rw [if_pos he] at h
        cases h
        exact ⟨i1, i2, fun _ => i3 (Or.inl he), fun _ => he⟩
      · rw [if_neg he] at h
        cases h

theorem dbuf_run_inv : ∀ (ops : List dbuf_op) (db db1 : dmu_buf_impl_t),
    (db.db_data_old.length = TXG_SIZE ∧ db.db_dirtycnt = db.db_data_old.count true ∧
      ((db.db_state = .DB_EVICTING ∨ db.freed = true) → db.db_holds = 0 ∧ db.db_dirtycnt = 0) ∧
      (db.freed = true → db.db_state = .DB_EVICTING)) →
    dbuf_run db ops = some db1 →
    db1.db_data_old.length = TXG_SIZE ∧ db1.db_dirtycnt = db1.db_data_old.count true ∧
      ((db1.db_state = .DB_EVICTING ∨ db1.freed = true) →
        db1.db_holds = 0 ∧ db1.db_dirtycnt = 0) ∧
      (db1.freed = true → db1.db_state = .DB_EVICTING)
  | [], db, db1, hi, h => by
    unfold dbuf_run at h
    cases h
    exact hi
  | op :: rest, db, db1, hi, h => by
    unfold dbuf_run at h
    cases hs : dbuf_step db op with
    | none =>
      rw [hs] at h
      cases h
    | some db2 =>
      rw [hs] at h
      exact dbuf_run_inv rest db2 db1 (dbuf_step_inv db db2 op hi hs) h

theorem dbuf_create_inv :
    dbuf_create.db_data_old.length = TXG_SIZE ∧
      dbuf_create.db_dirtycnt = dbuf_create.db_data_old.count true ∧
      ((dbuf_create.db_state = .DB_EVICTING ∨ dbuf_create.freed = true) →
        dbuf_create.db_holds = 0 ∧ dbuf_create.db_dirtycnt = 0) ∧
      (dbuf_create.freed = true → dbuf_create.db_state = .DB_EVICTING) := by
  refine ⟨by decide, by decide, fun _ => ⟨rfl, rfl⟩, fun h => ?_⟩
  cases h

/-- C20: no eviction while held or dirty.  In every state a buffer reaches
from its allocation, the count of dirty records is positive exactly when some
slot `db_data_old[txg & TXG_MASK]` is set; a buffer that is in `DB_EVICTING` or
was freed has no hold, no dirty record and no slot set; while the buffer is
held or dirty `dbuf_evict` and `dbuf_clear` cannot be taken, and a `dbuf_rele`
that leaves the buffer held or dirty neither moves it to `DB_EVICTING` nor
frees it. -/
theorem dbuf_no_eviction_while_held_or_dirty (ops : List dbuf_op) (db : dmu_buf_impl_t)
    (hrun : dbuf_run dbuf_create ops = some db) :
    (0 < db.db_dirtycnt ↔ ∃ txg, db.db_data_old.getD (txg &&& TXG_MASK) false = true) ∧
      ((db.db_state = .DB_EVICTING ∨ db.freed = true) →
        db.db_holds = 0 ∧ db.db_dirtycnt = 0 ∧
          ∀ txg, db.db_data_old.getD (txg &&& TXG_MASK) false = false) ∧
      ((db.db_holds ≠ 0 ∨ 0 < db.db_dirtycnt) →
        dbuf_step db .dbuf_evict = none ∧ dbuf_step db .dbuf_clear = none) ∧
      (∀ evict db1, dbuf_step db (.dbuf_rele evict) = some db1 →
        (db1.db_holds ≠ 0 ∨ 0 < db1.db_dirtycnt) →
        db1.db_state ≠ .DB_EVICTING ∧ db1.freed = false) := by
  obtain ⟨i1, i2, i3, i4⟩ := dbuf_run_inv ops dbuf_create db dbuf_create_inv hrun
  refine ⟨?_, ?_, ?_, ?_⟩
  · constructor
    · intro h
      rw [i2, List.count_pos_iff] at h
      obtain ⟨i, hi, hget⟩ := List.getElem_of_mem h
      refine ⟨i, ?_⟩
      have hi4 : i < 4 := by rw [i1] at hi; exact hi
      have e : i &&& TXG_MASK = i := by
        unfold TXG_MASK TXG_SIZE
        interval_cases i <;> rfl
      rw [e, List.getD_eq_getElem _ _ hi, hget]
    · rintro ⟨txg, h⟩
      by_contra hn
      have h0 : db.db_data_old.count true = 0 := by omega
      rw [getD_false_of_count _ h0] at h
      cases h
  · intro h
    obtain ⟨h1, h2⟩ := i3 h
    refine ⟨h1, h2, fun txg => getD_false_of_count _ (by omega) _⟩
  · intro h
    have hne : dbuf_evictable db = false := by
      unfold dbuf_evictable
      rw [decide_eq_false_iff_not]
      rintro ⟨_, a, b⟩
      omega
    unfold dbuf_step
    by_cases hf : db.freed = true
    · rw [if_pos hf, if_pos hf]
      exact ⟨rfl, rfl⟩
    · rw [if_neg hf, if_neg hf]
      simp only [hne, Bool.false_eq_true, if_false, and_self]
  · intro evict db1 hs h
    obtain ⟨_, _, j3, j4⟩ := dbuf_step_inv db db1 _ ⟨i1, i2, i3, i4⟩ hs
    have hnot : ¬ (db1.db_state = .DB_EVICTING ∨ db1.freed = true) := by
      intro hx
      have := j3 hx
      omega
    refine ⟨fun e => hnot (Or.inl e), ?_⟩
    cases hfr : db1.freed with
    | false => rfl
    | true => exact absurd (Or.inr hfr) hnot

/-- Witness of C20: a buffer read, dirtied in transaction group 5 and
released is dirty, so it cannot be evicted; after the sync of group 5 it
can. -/
theorem dbuf_no_eviction_while_held_or_dirty_witness :
    (dbuf_step
        { db_state := .DB_CACHED, db_holds := 0, db_dirtycnt := 1,
          db_data_old := [false, true, false, false], freed := false } .dbuf_evict = none ∧
      dbuf_step
        { db_state := .DB_CACHED, db_holds := 0, db_dirtycnt := 1,
          db_data_old := [false, true, false, false], freed := false } .dbuf_clear = none) ∧
    dbuf_run dbuf_create
        [.dbuf_hold true, .dbuf_read_done true, .dbuf_dirty 5, .dbuf_rele true, .dbuf_sync 5,
          .dbuf_evict] =
      some ⟨.DB_EVICTING, 0, 0, [false, false, false, false], true⟩ :=
  ⟨(dbuf_no_eviction_while_held_or_dirty
      [.dbuf_hold true, .dbuf_read_done true, .dbuf_dirty 5, .dbuf_rele true]
      { db_state := .DB_CACHED, db_holds := 0, db_dirtycnt := 1,
        db_data_old := [false, true, false, false], freed := false } (by decide)).2.2.1
      (Or.inr (by decide)),
    by decide⟩

/-! ## dbuf.h: the state machine of a buffer -/

/-- The change of state of one operation: the state stays, or the change is
one of the arrows of the diagram of `sys/dbuf.h`, or it is the return from
READ to UNCACHED, which only a `dbuf_read_done` with a checksum that did not
verify makes. -/
theorem dbuf_step_transition (db db1 : dmu_buf_impl_t) (op : dbuf_op)
    (h : dbuf_step db op = some db1) :
    db1.db_state = db.db_state ∨
      (db.db_state = .DB_UNCACHED ∧ db1.db_state = .DB_READ) ∨
      (db.db_state = .DB_UNCACHED ∧ db1.db_state = .DB_FILL) ∨
      (db.db_state = .DB_READ ∧ db1.db_state = .DB_CACHED) ∨
      (db.db_state = .DB_FILL ∧ db1.db_state = .DB_CACHED) ∨
      (db.db_state = .DB_CACHED ∧ db1.db_state = .DB_EVICTING) ∨
      (db.db_state = .DB_READ ∧ db1.db_state = .DB_UNCACHED ∧ op = .dbuf_read_done false) := by
  unfold dbuf_step at h
  by_cases hf : db.freed = true
  · rw [if_pos hf] at h
    cases h
  · rw [if_neg hf] at h
    cases op with
    | dbuf_hold read =>
      simp only [] at h
      by_cases he : db.db_state = .DB_EVICTING
      · rw [if_pos he] at h
        cases h
      · rw [if_neg he] at h
        cases h
        simp only []
        by_cases hc : read = true ∧ db.db_state = .DB_UNCACHED
        · rw [if_pos hc]
          exact Or.inr (Or.inl ⟨hc.2, rfl⟩)
        · rw [if_neg hc]
          exact Or.inl rfl
    | dbuf_rele evict =>
      simp only [] at h
      by_cases h0 : db.db_holds = 0
      · rw [if_pos h0] at h
        cases h
      · rw [if_neg h0] at h
        by_cases hev : evict = true ∧
            dbuf_evictable { db with db_holds := db.db_holds - 1 } = true
        · rw [if_pos hev] at h
          cases h
          have h2 := hev.2
          simp only [dbuf_evictable, decide_eq_true_eq] at h2
          exact Or.inr (Or.inr (Or.inr (Or.inr (Or.inr (Or.inl ⟨h2.1, rfl⟩)))))
        · rw [if_neg hev] at h
          cases h
          exact Or.inl rfl
    | dbuf_read =>
      simp only [] at h
      by_cases hu : db.db_state = .DB_UNCACHED
      · rw [if_pos hu] at h
        cases h
        exact Or.inr (Or.inl ⟨hu, rfl⟩)
      · rw [if_neg hu] at h
        by_cases hc : db.db_state = .DB_CACHED
        · rw [if_pos hc] at h
          cases h
          exact Or.inl rfl
        · rw [if_neg hc] at h
          cases h
    | dbuf_read_done checksum_ok =>
      simp only [] at h
      by_cases hr : db.db_state = .DB_READ
      · rw [if_pos hr] at h
        cases h
        cases checksum_ok with
        | true => exact Or.inr (Or.inr (Or.inr (Or.inl ⟨hr, rfl⟩)))
        | false =>
          exact Or.inr (Or.inr (Or.inr (Or.inr (Or.inr (Or.inr ⟨hr, rfl, rfl⟩)))))
      · rw [if_neg hr] at h
        cases h
    | dmu_buf_will_fill =>
      simp only [] at h
      by_cases hu : db.db_state = .DB_UNCACHED
      · rw [if_pos hu] at h
        cases h
        exact Or.inr (Or.inr (Or.inl ⟨hu, rfl⟩))
      · rw [if_neg hu] at h
        cases h
    | dbuf_fill_done =>
      simp only [] at h
      by_cases hu : db.db_state = .DB_FILL
      · rw [if_pos hu] at h
        cases h
        exact Or.inr (Or.inr (Or.inr (Or.inr (Or.inl ⟨hu, rfl⟩))))
      · rw [if_neg hu] at h
        cases h
    | dbuf_dirty txg =>
      simp only [] at h
      by_cases hc : db.db_state = .DB_CACHED
      · rw [if_pos hc] at h
        by_cases hs : db.db_data_old.getD (txg &&& TXG_MASK) false = true
        · rw [if_pos hs] at h
          cases h
          exact Or.inl rfl
        · rw [if_neg hs] at h
          cases h
          exact Or.inl rfl
      · rw [if_neg hc] at h
        cases h
    | dbuf_sync txg =>
      simp only [] at h
      by_cases hs : db.db_data_old.getD (txg &&& TXG_MASK) false = true
      · rw [if_pos hs] at h
        cases h
        exact Or.inl rfl
      · rw [if_neg hs] at h
        cases h
        exact Or.inl rfl
    | dbuf_clear =>
      simp only [] at h
      by_cases hev : dbuf_evictable db = true
      · rw [if_pos hev] at h
        cases h
        simp only [dbuf_evictable, decide_eq_true_eq] at hev
        exact Or.inr (Or.inr (Or.inr (Or.inr (Or.inr (Or.inl ⟨hev.1, rfl⟩)))))
      · rw [if_neg hev] at h
        cases h
    | dbuf_evict =>
      simp only [] at h
      by_cases hev : dbuf_evictable db = true
      · rw [if_pos hev] at h
        cases h
        simp only [dbuf_evictable, decide_eq_true_eq] at hev
        exact Or.inr (Or.inr (Or.inr (Or.inr (Or.inr (Or.inl ⟨hev.1, rfl⟩)))))
      · rw [if_neg hev] at h
        cases h
    | dbuf_destroy =>
      simp only [] at h
      by_cases he : db.db_state = .DB_EVICTING
      · rw [if_pos he] at h
        cases h
        exact Or.inl rfl
      · rw [if_neg he] at h
        cases h

/-! ## zio_compress.c: padding and assertions -/

theorem length_bzero (dest : List Nat) (off n : Nat) : (bzero dest off n).length = dest.length := by
  simp [bzero]

theorem getElem?_bzero (dest : List Nat) (off n i : Nat) :
    (bzero dest off n)[i]? =
      dest[i]?.map (fun v => if off ≤ i ∧ i < off + n then 0 else v) := by
  unfold bzero
  rw [List.getElem?_map, List.getElem?_enum]
  cases dest[i]? <;> rfl

/-- C22: the padding of compressed output.  Whenever `zio_compress_data`
returns 1 for a source that is not all zero, the function called is lzjb, and
with `c` the size it reported for the buffer of `destbufsize` bytes,
`*destsizep` is `c` rounded up to the next multiple of `SPA_MINBLOCKSIZE` and
does not exceed `destbufsize`, the buffer behind `*destp` is the one the
compression function left, with the bytes in `[c, *destsizep)` set to zero and
the first `c` bytes as the compression function wrote them. -/
theorem zio_compress_data_padding (env : zio_env) (cpfunc : Nat) (src : Nat → Nat)
    (srcsize : Nat) (hs : srcsize < U64) (hnz : ¬ src_allzero src srcsize)
    (r : zio_compress_out) (hr : zio_compress_data env cpfunc src srcsize = .ok r)
    (h1 : r.ret = 1) (db c : Nat) (out : Nat × List Nat)
    (hdb : db = P2ALIGN (srcsize - (srcsize >>> 3)) SPA_MINBLOCKSIZE)
    (hout : out = env.lzjb_compress src (env.zio_buf_alloc db) srcsize db)
    (hc : c = out.1 % U64) :
    cpfunc = ZIO_COMPRESS_LZJB ∧ r.compress_calls = [(srcsize, db)] ∧
      ∃ ds dest, r.destsizep = some ds ∧ r.destp = some (some dest) ∧
        ds % SPA_MINBLOCKSIZE = 0 ∧ c ≤ ds ∧ ds < c + SPA_MINBLOCKSIZE ∧ ds ≤ db ∧
        dest.length = out.2.length ∧
        (∀ i, c ≤ i → i < ds → i < out.2.length → dest[i]? = some 0) ∧
        (out.2.length = db → ∀ i, c ≤ i → i < ds → dest[i]? = some 0) ∧
        (∀ i, i < c → dest[i]? = out.2[i]?) := by
  have hscan : ¬ scan_allzero src srcsize (srcsize / 8 + 1) 0 ≠ 0 :=
    fun h => hnz ((scan_allzero_top src srcsize).mp h)
  by_cases h4 : cpfunc = ZIO_COMPRESS_EMPTY
  · subst h4
    rw [zio_compress_data_empty, if_neg hscan] at hr
    cases hr
    exact absurd h1 (by decide)
  by_cases h3 : cpfunc = ZIO_COMPRESS_LZJB
  · subst h3
    have hx : srcsize - (srcsize >>> 3) < U64 := by
      have := Nat.sub_le srcsize (srcsize >>> 3); omega
    rw [zio_compress_data_lzjb env src srcsize hs, if_neg hscan, ← hdb] at hr
    by_cases hd : db = 0
    · rw [if_pos hd] at hr
      cases hr
      exact absurd h1 (by decide)
    · rw [if_neg hd] at hr
      simp only [] at hr
      rw [← hout, ← hc] at hr
      by_cases hgt : c > db
      · rw [if_pos hgt] at hr
        cases hr
        simp at h1
      · rw [if_neg hgt] at hr
        have hle : c ≤ db := Nat.le_of_not_gt hgt
        obtain ⟨_, k2, k3⟩ := p2roundup_small _ c hx (hdb ▸ hle)
        rw [← hdb] at k2
        have hzero : ∀ i, c ≤ i → i < (c + 511) / 512 * 512 → i < out.2.length →
            (if (c + 511) / 512 * 512 - c ≠ 0
              then bzero out.2 c ((c + 511) / 512 * 512 - c) else out.2)[i]? = some 0 := by
          intro i hi1 hi2 hi3
          have hg : (c + 511) / 512 * 512 - c ≠ 0 := by omega
          rw [if_pos hg, getElem?_bzero, List.getElem?_eq_getElem hi3, Option.map_some',
            if_pos ⟨hi1, by omega⟩]
        cases hr
        refine ⟨rfl, rfl, _, _, rfl, rfl, ?_, k3, ?_, k2, ?_, hzero, ?_, ?_⟩
        · unfold SPA_MINBLOCKSIZE
          omega
        · unfold SPA_MINBLOCKSIZE
          omega
        · split_ifs
          · exact length_bzero _ _ _
          · rfl
        · intro hl i hi1 hi2
          exact hzero i hi1 hi2 (by omega)
        · intro i hi
          split_ifs
          · rw [getElem?_bzero]
            cases out.2[i]? with
            | none => rfl
            | some v =>
              rw [Option.map_some', if_neg (by omega)]
          · rfl
  · exact absurd hr (zio_compress_data_inadmissible env cpfunc src srcsize h3 h4 r)

theorem demo_zio_compress :
    demo_zio_env.lzjb_compress demo_src (demo_zio_env.zio_buf_alloc 512) 1024 512 =
      (100, List.replicate 512 7) := by
  show (100, (List.replicate 512 9).map (fun _ => 7)) = (100, List.replicate 512 7)
  rw [List.map_replicate]

/-- Witness of C22: 100 bytes reported for a source of 1024 bytes are padded
with zeros to 512. -/
theorem zio_compress_data_padding_witness :
    ZIO_COMPRESS_LZJB = ZIO_COMPRESS_LZJB ∧ demo_zio_out.compress_calls = [(1024, 512)] ∧
      ∃ ds dest, demo_zio_out.destsizep = some ds ∧ demo_zio_out.destp = some (some dest) ∧
        ds % SPA_MINBLOCKSIZE = 0 ∧ 100 ≤ ds ∧ ds < 100 + SPA_MINBLOCKSIZE ∧ ds ≤ 512 ∧
        dest.length = (List.replicate 512 7).length ∧
        (∀ i, 100 ≤ i → i < ds → i < (List.replicate 512 7).length → dest[i]? = some 0) ∧
        ((List.replicate 512 7).length = 512 → ∀ i, 100 ≤ i → i < ds → dest[i]? = some 0) ∧
        (∀ i, i < 100 → dest[i]? = (List.replicate 512 7)[i]?) :=
  zio_compress_data_padding demo_zio_env ZIO_COMPRESS_LZJB demo_src 1024 (by decide)
    demo_src_not_allzero demo_zio_out demo_zio_run rfl 512 100 (100, List.replicate 512 7)
    (by decide) demo_zio_compress.symm (by decide)

theorem zio_compress_data_inadmissible_error (env : zio_env) (cpfunc : Nat) (src : Nat → Nat)
    (srcsize : Nat) (h3 : cpfunc ≠ ZIO_COMPRESS_LZJB) (h4 : cpfunc ≠ ZIO_COMPRESS_EMPTY) :
    zio_compress_data env cpfunc src srcsize = .error .assert_cpfunc_range ∨
      zio_compress_data env cpfunc src srcsize = .error .assert_cpfunc_compress := by
  unfold ZIO_COMPRESS_LZJB at h3
  unfold ZIO_COMPRESS_EMPTY at h4
  match cpfunc, h3, h4 with
  | 0, _, _ => right; simp [zio_compress_data, zio_compress_table, ZIO_COMPRESS_EMPTY]
  | 1, _, _ => right; simp [zio_compress_data, zio_compress_table, ZIO_COMPRESS_EMPTY]
  | 2, _, _ => right; simp [zio_compress_data, zio_compress_table, ZIO_COMPRESS_EMPTY]
  | 3, h3, _ => exact absurd rfl h3
  | 4, _, h4 => exact absurd rfl h4
  | n + 5, _, _ => left; simp [zio_compress_data, zio_compress_table]

/-- For lzjb the function returns: none of its assertions fails. -/
theorem zio_compress_data_lzjb_returns (env : zio_env) (src : Nat → Nat) (srcsize : Nat)
    (hs : srcsize < U64) : ∃ r, zio_compress_data env ZIO_COMPRESS_LZJB src srcsize = .ok r := by
  rw [zio_compress_data_lzjb env src srcsize hs]
  by_cases hz : scan_allzero src srcsize (srcsize / 8 + 1) 0 ≠ 0
  · rw [if_pos hz]
    exact ⟨_, rfl⟩
  · rw [if_neg hz]
    by_cases hd : P2ALIGN (srcsize - (srcsize >>> 3)) SPA_MINBLOCKSIZE = 0
    · rw [if_pos hd]
      exact ⟨_, rfl⟩
    · rw [if_neg hd]
      simp only []
      split_ifs <;> exact ⟨_, rfl⟩

/-- C23: the assertions of `zio_compress_data` hold.  For every `cpfunc`,
source and 64-bit `srcsize` and whatever the compression function does, the
function does not stop at `ASSERT3U(ciosize, <=, destbufsize)` nor at
`ASSERT(P2PHASE(ciosize, SPA_MINBLOCKSIZE) == 0)`, and for lzjb it returns.
The reason: `destbufsize` is a multiple of 512, and for every size
`c <= destbufsize` rounding `c` up to a multiple of 512 stays below `2 ^ 64`
and does not exceed `destbufsize`, so `gapsize` and the padded `ciosize` are
computed without wrapping and the padded `ciosize` passes both tests. -/
theorem zio_compress_data_assertions_hold (env : zio_env) (cpfunc : Nat) (src : Nat → Nat)
    (srcsize : Nat) (hs : srcsize < U64) :
    zio_compress_data env cpfunc src srcsize ≠ .error .assert_ciosize_le ∧
      zio_compress_data env cpfunc src srcsize ≠ .error .assert_ciosize_phase ∧
      (cpfunc = ZIO_COMPRESS_LZJB → ∃ r, zio_compress_data env cpfunc src srcsize = .ok r) ∧
      P2PHASE (P2ALIGN (srcsize - (srcsize >>> 3)) SPA_MINBLOCKSIZE) SPA_MINBLOCKSIZE = 0 ∧
      ∀ c, c ≤ P2ALIGN (srcsize - (srcsize >>> 3)) SPA_MINBLOCKSIZE →
        (c + (SPA_MINBLOCKSIZE - 1)) / SPA_MINBLOCKSIZE * SPA_MINBLOCKSIZE < U64 ∧
        P2ROUNDUP c SPA_MINBLOCKSIZE =
          (c + (SPA_MINBLOCKSIZE - 1)) / SPA_MINBLOCKSIZE * SPA_MINBLOCKSIZE ∧
        P2ROUNDUP c SPA_MINBLOCKSIZE ≤ P2ALIGN (srcsize - (srcsize >>> 3)) SPA_MINBLOCKSIZE ∧
        (P2ROUNDUP c SPA_MINBLOCKSIZE + U64 - c) % U64 = P2ROUNDUP c SPA_MINBLOCKSIZE - c ∧
        c + (P2ROUNDUP c SPA_MINBLOCKSIZE + U64 - c) % U64 < U64 ∧
        (if (P2ROUNDUP c SPA_MINBLOCKSIZE + U64 - c) % U64 ≠ 0
          then (c + (P2ROUNDUP c SPA_MINBLOCKSIZE + U64 - c) % U64) % U64 else c) ≤
          P2ALIGN (srcsize - (srcsize >>> 3)) SPA_MINBLOCKSIZE ∧
        P2PHASE (if (P2ROUNDUP c SPA_MINBLOCKSIZE + U64 - c) % U64 ≠ 0
          then (c + (P2ROUNDUP c SPA_MINBLOCKSIZE + U64 - c) % U64) % U64 else c)
          SPA_MINBLOCKSIZE = 0 := by
  have hx : srcsize - (srcsize >>> 3) < U64 := by
    have := Nat.sub_le srcsize (srcsize >>> 3); omega
  have hne : ∀ e, e = zio_abort.assert_ciosize_le ∨ e = zio_abort.assert_ciosize_phase →
      zio_compress_data env cpfunc src srcsize ≠ .error e := by
    intro e he h
    by_cases h4 : cpfunc = ZIO_COMPRESS_EMPTY
    · subst h4
      rw [zio_compress_data_empty] at h
      split_ifs at h
    · by_cases h3 : cpfunc = ZIO_COMPRESS_LZJB
      · subst h3
        obtain ⟨r, hr⟩ := zio_compress_data_lzjb_returns env src srcsize hs
        rw [hr] at h
        cases h
      · rcases zio_compress_data_inadmissible_error env cpfunc src srcsize h3 h4 with k | k
        · rw [k] at h
          rcases he with he | he <;> rw [he] at h <;> cases h
        · rw [k] at h
          rcases he with he | he <;> rw [he] at h <;> cases h
  refine ⟨hne _ (Or.inl rfl), hne _ (Or.inr rfl), ?_, ?_, ?_⟩
  · intro h3
    subst h3
    exact zio_compress_data_lzjb_returns env src srcsize hs
  · exact p2align_phase _
  · intro c hc
    obtain ⟨h1, h2, h3⟩ := p2roundup_small _ c hx hc
    have hp := padded_ciosize _ c hx hc
    have hle := p2align_le (srcsize - (srcsize >>> 3))
    have e511 : (c + (SPA_MINBLOCKSIZE - 1)) / SPA_MINBLOCKSIZE * SPA_MINBLOCKSIZE =
        (c + 511) / 512 * 512 := rfl
    have hg : ((c + 511) / 512 * 512 + U64 - c) % U64 = (c + 511) / 512 * 512 - c := by
      unfold U64 at *
      norm_num at *
      omega
    rw [hp, e511, h1, hg]
    refine ⟨by omega, rfl, h2, rfl, by omega, h2, ?_⟩
    unfold P2PHASE SPA_MINBLOCKSIZE
    omega

/-- Witness of C23: a source of 1024 bytes, for which `destbufsize` is 512. -/
theorem zio_compress_data_assertions_hold_witness :
    zio_compress_data demo_zio_env ZIO_COMPRESS_LZJB demo_src 1024 ≠
        .error .assert_ciosize_le ∧
      zio_compress_data demo_zio_env ZIO_COMPRESS_LZJB demo_src 1024 ≠
        .error .assert_ciosize_phase ∧
      P2ROUNDUP 100 SPA_MINBLOCKSIZE ≤ P2ALIGN (1024 - (1024 >>> 3)) SPA_MINBLOCKSIZE :=
  have h := zio_compress_data_assertions_hold demo_zio_env ZIO_COMPRESS_LZJB demo_src 1024
    (by decide)
  ⟨h.1, h.2.1, (h.2.2.2.2 100 (by decide)).2.2.1⟩

/-! ## zfs_ioctl.c: dispatch by position -/

/-- When `zfs_set_version` succeeds, the case `ZFS_PROP_VERSION` falls through
into `default:` and the property is set with `dsl_prop_set` as well. -/
theorem zfs_set_prop_nvlist_version_falls_through :
    ∃ r, zfs_set_prop_nvlist demo_prop_env_ok demo_good_name [⟨"version", .uint64 9⟩] 0 = .ok r ∧
      r.error = 0 ∧
      r.setter_calls =
        [(.zfs_set_version demo_good_name 9, 0),
          (.dsl_prop_set demo_good_name "version" 8 1 (.uint64 9), 0)] :=
  ⟨_, rfl, rfl, rfl⟩

end ZfsFuse
